import Mathlib

/-!
Thermal regulator: the supervisory control engine.

A shallow embedding of the firmware sources under `src/` (`config.h`,
`pwm_controller.cpp`, `pid_controller.cpp`, `temp_sensor.cpp`, `user_input.cpp`,
`display_manager.cpp`, `state_machine.cpp`) and theorems about it.

Conventions of the embedding.

* A C++ `float`/`double` value is an `F`: not-a-number, one of the two
  infinities, or a finite value carried as an exact rational.  Signed zeros
  are not distinguished.  Comparisons follow IEEE 754: every ordered
  comparison with a NaN operand is false.
* Every arithmetic operation on floats and every narrowing `double -> float`
  rounds its exact result through a rounding function `rnd : ℚ → F` that is a
  parameter of the embedding.  `f32` is round-to-nearest-even to binary32, the
  rounding of the target; `F.fin` is exact arithmetic.
* `unsigned long` clock values are naturals; subtraction wraps modulo `2^32`.
* Object state is passed explicitly; hardware reads (`millis()`, the ADC,
  the encoder, the PID library call, the EEPROM commit) are inputs of a tick.
-/

namespace Thermo

/-! ## Floating-point values -/

/-- A C++ floating-point value: NaN, minus/plus infinity, or a finite value. -/
inductive F where
  | nan : F
  | ninf : F
  | pinf : F
  | fin (q : ℚ) : F
  deriving DecidableEq, Repr

namespace F

instance : Inhabited F := ⟨F.fin 0⟩

/-- The C function `isnan`. -/
def isnan : F → Bool
  | nan => true
  | _ => false

/-- The C comparison `a < b` (false as soon as one operand is NaN). -/
def lt : F → F → Bool
  | nan, _ => false
  | _, nan => false
  | ninf, ninf => false
  | ninf, _ => true
  | _, ninf => false
  | pinf, _ => false
  | fin _, pinf => true
  | fin a, fin b => decide (a < b)

/-- The C comparison `a > b`. -/
def gt (a b : F) : Bool := lt b a

/-- The C comparison `a <= b` (false as soon as one operand is NaN). -/
def le : F → F → Bool
  | nan, _ => false
  | _, nan => false
  | ninf, _ => true
  | _, pinf => true
  | pinf, _ => false
  | fin _, ninf => false
  | fin a, fin b => decide (a ≤ b)

/-- Unary minus. -/
def neg : F → F
  | nan => nan
  | ninf => pinf
  | pinf => ninf
  | fin a => fin (-a)

/-- Floating-point addition `a + b`, the exact sum rounded by `rnd`. -/
def add (rnd : ℚ → F) : F → F → F
  | nan, _ => nan
  | _, nan => nan
  | ninf, pinf => nan
  | pinf, ninf => nan
  | ninf, _ => ninf
  | _, ninf => ninf
  | pinf, _ => pinf
  | _, pinf => pinf
  | fin a, fin b => rnd (a + b)

/-- Floating-point subtraction `a - b`. -/
def sub (rnd : ℚ → F) (a b : F) : F := add rnd a (neg b)

/-- Floating-point division `a / b`, the exact quotient rounded by `rnd`
(a zero divisor is taken to be `+0`). -/
def div (rnd : ℚ → F) : F → F → F
  | nan, _ => nan
  | _, nan => nan
  | fin a, fin b =>
      if b = 0 then (if a = 0 then nan else if 0 < a then pinf else ninf)
      else rnd (a / b)
  | fin _, pinf => fin 0
  | fin _, ninf => fin 0
  | pinf, fin b => if 0 ≤ b then pinf else ninf
  | ninf, fin b => if 0 ≤ b then ninf else pinf
  | pinf, pinf => nan
  | pinf, ninf => nan
  | ninf, pinf => nan
  | ninf, ninf => nan

/-- The narrowing conversion `(float)x` of a `double`: finite values are
rounded, the special values are kept. -/
def narrow (rnd : ℚ → F) : F → F
  | fin a => rnd a
  | x => x

/-- A value is a number (not NaN, not an infinity) inside `[lo, hi]`. -/
def within (lo hi : ℚ) : F → Bool
  | fin q => decide (lo ≤ q ∧ q ≤ hi)
  | _ => false

/-- Nearest integer, ties to the even neighbour. -/
def roundEven (q : ℚ) : ℤ :=
  let f := ⌊q⌋
  let r := q - f
  if r < 1 / 2 then f
  else if 1 / 2 < r then f + 1
  else if f % 2 = 0 then f else f + 1

/-- The binary exponent `⌊log2 |q|⌋` of a non-zero rational. -/
def expo (q : ℚ) : ℤ :=
  let n := q.num.natAbs
  let d := q.den
  if d ≤ n then
    (Nat.log2 (n / d) : ℤ)
  else
    let k := Nat.log2 ((d + n - 1) / n)
    if d ≤ n * 2 ^ k then -(k : ℤ) else -(k : ℤ) - 1

/-- Rounding to binary32 (IEEE 754 single precision): round to nearest, ties
to even, 24 significant bits, gradual underflow below `2^-126`, overflow to an
infinity. -/
def f32 (q : ℚ) : F :=
  if q = 0 then fin 0
  else
    let e := max (expo q) (-126)
    let ulp : ℚ := (2 : ℚ) ^ (e - 23)
    let r : ℚ := (roundEven (q / ulp) : ℚ) * ulp
    if (2 : ℚ) ^ (128 : ℕ) ≤ |r| then (if 0 < q then pinf else ninf) else fin r

end F


/-! ## `config.h` -/

/-- The rational value of the literal `0.01f`: the binary32 value nearest to
one hundredth. -/
def KP_MIN : ℚ := 5368709 / 536870912

/-- The literal `0.01f`. -/
def LIT_0_01 : F := F.fin KP_MIN

/-- The literal `0.1f`: the binary32 value nearest to one tenth. -/
def LIT_0_1 : F := F.fin (13421773 / 134217728)

/-- The macro `#define PWM_RESOLUTION 10`. -/
def PWM_RESOLUTION : Nat := 10

/-- The expression `(1 << PWM_RESOLUTION) - 1`, the largest duty value. -/
def PWM_MAX_DUTY : Nat := 2 ^ PWM_RESOLUTION - 1

/-- The macro `#define TEMP_MIN 0.0f`. -/
def TEMP_MIN : F := F.fin 0

/-- The macro `#define TEMP_MAX 100.0f`. -/
def TEMP_MAX : F := F.fin 100

/-- The macro `#define TEMP_DEFAULT 25.0f`. -/
def TEMP_DEFAULT : F := F.fin 25

/-- The macro `#define PID_KP_DEFAULT 10.0f`. -/
def PID_KP_DEFAULT : F := F.fin 10

/-- The macro `#define PID_KI_DEFAULT 0.1f`. -/
def PID_KI_DEFAULT : F := LIT_0_1

/-- The macro `#define PID_KD_DEFAULT 1.0f`. -/
def PID_KD_DEFAULT : F := F.fin 1

/-- The macro `#define TEMP_PROTECTION_MAX 100.0f`. -/
def TEMP_PROTECTION_MAX : F := F.fin 100

/-- The macro `#define TEMP_PROTECTION_MIN 0.0f`. -/
def TEMP_PROTECTION_MIN : F := F.fin 0

/-- The macro `#define WATCHDOG_TIMEOUT 3000`. -/
def WATCHDOG_TIMEOUT : Nat := 3000

/-- The macro `#define TEMP_SAMPLE_INTERVAL 100`. -/
def TEMP_SAMPLE_INTERVAL : Nat := 100

/-- The macro `#define PID_COMPUTE_INTERVAL 100`. -/
def PID_COMPUTE_INTERVAL : Nat := 100

/-- The macro `#define EEPROM_PID_KP_ADDR 0`. -/
def EEPROM_PID_KP_ADDR : Nat := 0

/-- The macro `#define EEPROM_PID_KI_ADDR 4`. -/
def EEPROM_PID_KI_ADDR : Nat := 4

/-- The macro `#define EEPROM_PID_KD_ADDR 8`. -/
def EEPROM_PID_KD_ADDR : Nat := 8

/-- The macro `#define EEPROM_TARGET_TEMP_ADDR 12`. -/
def EEPROM_TARGET_TEMP_ADDR : Nat := 12

/-- The macro `#define EEPROM_TEMP_CALIBRATION_ADDR 16`. -/
def EEPROM_TEMP_CALIBRATION_ADDR : Nat := 16

/-- The type `enum ErrorCode`. -/
inductive ErrorCode where
  | ERROR_NONE
  | ERROR_TEMP_SENSOR
  | ERROR_OVERTEMP
  | ERROR_HEATER
  | ERROR_POWER
  | ERROR_SYSTEM
  deriving DecidableEq, Repr

/-- The type `enum SystemState`. -/
inductive SystemState where
  | STATE_IDLE
  | STATE_WORKING
  | STATE_CALIBRATION
  | STATE_MENU
  | STATE_ERROR
  deriving DecidableEq, Repr

open ErrorCode SystemState

/-- Subtraction of two `unsigned long` clock values, modulo `2^32`. -/
def sub32 (a b : Nat) : Nat := (a + 2 ^ 32 - b % 2 ^ 32) % 2 ^ 32

/-! ## `pwm_controller.cpp`: the actuator gate -/

/-- The members of `PWMController`, and `ledc`: the value last written to the
LEDC channel with `ledcWrite` (0 while nothing was written), i.e. the
physical output. -/
structure PWMController where
  initialized : Bool
  dutyCycle : Nat
  enabled : Bool
  ledc : Nat
  deriving DecidableEq, Repr

namespace PWMController

/-- The constructor `PWMController::PWMController()`. -/
def new : PWMController :=
  { initialized := false, dutyCycle := 0, enabled := false, ledc := 0 }

/-- The method `setDutyCycle(uint16_t duty)`. -/
def setDutyCycle (g : PWMController) (duty : Nat) : PWMController :=
  let duty := if duty > PWM_MAX_DUTY then PWM_MAX_DUTY else duty
  let g := { g with dutyCycle := duty }
  if g.enabled && g.initialized then { g with ledc := g.dutyCycle } else g

/-- The method `begin()` (it always returns `true`). -/
def begin (g : PWMController) : PWMController :=
  let g := g.setDutyCycle 0
  { g with initialized := true, enabled := false }

/-- The method `getDutyCycle()`. -/
def getDutyCycle (g : PWMController) : Nat := g.dutyCycle

/-- The method `getPowerPercentage()`, with the final cast to `uint8_t`. -/
def getPowerPercentage (g : PWMController) : Nat :=
  ((g.dutyCycle * 100) / PWM_MAX_DUTY) % 256

/-- The method `enable()`. -/
def enable (g : PWMController) : PWMController :=
  if !g.initialized then g
  else { g with enabled := true, ledc := g.dutyCycle }

/-- The method `disable()`. -/
def disable (g : PWMController) : PWMController :=
  if !g.initialized then g
  else { g with enabled := false, ledc := 0 }

/-- The method `isEnabled()`. -/
def isEnabled (g : PWMController) : Bool := g.enabled

/-- The method `emergencyStop()`. -/
def emergencyStop (g : PWMController) : PWMController :=
  if g.initialized then { g with ledc := 0, enabled := false, dutyCycle := 0 }
  else g

/-- A property of gates that the four calls the state machine makes on the
gate preserve. -/
def Closed (P : PWMController → Prop) : Prop :=
  ∀ g, P g → (∀ d, P (g.setDutyCycle d)) ∧ P g.enable ∧ P g.disable ∧ P g.emergencyStop

/-- One call on the gate's public interface. -/
inductive Op where
  | begin
  | setDutyCycle (d : Nat)
  | enable
  | disable
  | emergencyStop
  deriving DecidableEq, Repr

/-- Perform one call. -/
def step (g : PWMController) : Op → PWMController
  | .begin => g.begin
  | .setDutyCycle d => g.setDutyCycle d
  | .enable => g.enable
  | .disable => g.disable
  | .emergencyStop => g.emergencyStop

/-- Perform a sequence of calls, first to last. -/
def run (g : PWMController) (ops : List Op) : PWMController :=
  ops.foldl step g

/-- The physical output is what the gate promises: the stored duty while
enabled, zero otherwise; and only an initialised gate is ever enabled. -/
def Consistent (g : PWMController) : Prop :=
  (g.enabled = true → g.initialized = true) ∧
    g.ledc = if g.enabled then g.dutyCycle else 0

instance (g : PWMController) : Decidable g.Consistent := by
  unfold Consistent; infer_instance

end PWMController

/-! ## `pid_controller.cpp`: the PID regulator wrapper -/

/-- The object of the external PID library that `PIDController::begin()`
allocates: the tunings last handed to it (by its constructor or
`SetTunings`) and the configuration `begin()` applies.  The library source is
not part of the repository; what its `Compute()` does is an input of
`PIDController.compute`. -/
structure PIDLib where
  kp : F
  ki : F
  kd : F
  outMin : F
  outMax : F
  automatic : Bool
  sampleTime : Nat
  deriving DecidableEq, Repr

/-- The members of `PIDController`; `pid = none` is the null pointer. -/
structure PIDController where
  input : F
  output : F
  setpoint : F
  kp : F
  ki : F
  kd : F
  pid : Option PIDLib
  lastCompute : Nat
  deriving DecidableEq, Repr

namespace PIDController

/-- The constructor `PIDController::PIDController()`. -/
def new : PIDController :=
  { input := F.fin 0, output := F.fin 0, setpoint := TEMP_DEFAULT,
    kp := PID_KP_DEFAULT, ki := PID_KI_DEFAULT, kd := PID_KD_DEFAULT,
    pid := none, lastCompute := 0 }

/-- The method `begin()`, when the allocation succeeds (it then returns
`true`). -/
def begin (p : PIDController) : PIDController :=
  let l : PIDLib :=
    { kp := p.kp, ki := p.ki, kd := p.kd, outMin := F.fin 0, outMax := F.fin 1023,
      automatic := true, sampleTime := PID_COMPUTE_INTERVAL }
  { p with pid := some l }

/-- The method `setTargetTemp(double target)`. -/
def setTargetTemp (p : PIDController) (target : F) : PIDController :=
  let target :=
    if F.lt target TEMP_MIN then TEMP_MIN
    else if F.gt target TEMP_MAX then TEMP_MAX
    else target
  { p with setpoint := target }

/-- The method `getTargetTemp()`. -/
def getTargetTemp (p : PIDController) : F := p.setpoint

/-- The method `setCurrentTemp(double current)`. -/
def setCurrentTemp (p : PIDController) (current : F) : PIDController :=
  { p with input := current }

/-- The method `getOutput()`. -/
def getOutput (p : PIDController) : F := p.output

/-- The method `compute()`.  `now` is what `millis()` returns; `lib` is what
the library call `pid->Compute()` does: `none` when it returns `false` and
leaves `output` alone, `some o` when it returns `true` after writing `o` to
`output`.  The result is `none` when the call dereferences the null
pointer. -/
def compute (p : PIDController) (now : Nat) (lib : Option F) :
    Option (Bool × PIDController) :=
  if sub32 now p.lastCompute < PID_COMPUTE_INTERVAL && p.lastCompute > 0 then
    some (false, p)
  else
    let p := { p with lastCompute := now }
    match p.pid with
    | none => none
    | some _ =>
      match lib with
      | none => some (false, p)
      | some o => some (true, { p with output := o })

/-- The method `setTunings(double, double, double)`. -/
def setTunings (p : PIDController) (kp ki kd : F) : PIDController :=
  let p := { p with kp := kp, ki := ki, kd := kd }
  match p.pid with
  | none => p
  | some l => { p with pid := some { l with kp := p.kp, ki := p.ki, kd := p.kd } }

/-- The method `getTunings(double*, double*, double*)`. -/
def getTunings (p : PIDController) : F × F × F := (p.kp, p.ki, p.kd)

end PIDController

/-! ## `temp_sensor.cpp`: the sensor pipeline -/

/-- The value of `TEMP_PROTECTION_MIN - 10.0f` (exact in binary32). -/
def SENSOR_LOW : F := F.fin (-10)

/-- The value of `TEMP_PROTECTION_MAX + 10.0f` (exact in binary32). -/
def SENSOR_HIGH : F := F.fin 110

/-- The members of `TempSensor` (the ADC driver object apart). -/
structure TempSensor where
  initialized : Bool
  lastTemp : F
  tempOffset : F
  tempBuffer : Fin 10 → F
  bufferIndex : Fin 10
  lastSampleTime : Nat

namespace TempSensor

/-- The constructor `TempSensor::TempSensor()`. -/
def new : TempSensor :=
  { initialized := false, lastTemp := F.fin 0, tempOffset := F.fin 0,
    tempBuffer := fun _ => F.fin 0, bufferIndex := 0, lastSampleTime := 0 }

/-- The method `voltageToTemp(float voltage)`.  `ntc` is the value of
`steinhart - 273.15f` that lines 46 to 54 derive from the voltage through the
B-parameter equation and the C library logarithm; the method adds the
calibration offset to it. -/
def voltageToTemp (rnd : ℚ → F) (s : TempSensor) (ntc : F) : F :=
  F.add rnd ntc s.tempOffset

/-- The method `applyFilter(float newTemp)`. -/
def applyFilter (rnd : ℚ → F) (s : TempSensor) (newTemp : F) : F × TempSensor :=
  let s := { s with tempBuffer := Function.update s.tempBuffer s.bufferIndex newTemp }
  let s := { s with bufferIndex := s.bufferIndex + 1 }
  let sum := (List.finRange 10).foldl (fun acc i => F.add rnd acc (s.tempBuffer i)) (F.fin 0)
  (F.div rnd sum (F.fin 10), s)

/-- The method `readTemperature()`; `now` is what `millis()` returns and `ntc`
the temperature the conversion derives from the sample the ADC delivers. -/
def readTemperature (rnd : ℚ → F) (s : TempSensor) (now : Nat) (ntc : F) : F × TempSensor :=
  if !s.initialized then (F.fin (-999), s)
  else if sub32 now s.lastSampleTime < TEMP_SAMPLE_INTERVAL && s.lastSampleTime > 0 then
    (s.lastTemp, s)
  else
    let s := { s with lastSampleTime := now }
    let rawTemp := s.voltageToTemp rnd ntc
    let r := s.applyFilter rnd rawTemp
    (r.1, { r.2 with lastTemp := r.1 })

/-- The method `begin()`; `adsOk` is what `ads.begin(ADS1115_ADDR)` returns. -/
def begin (rnd : ℚ → F) (s : TempSensor) (adsOk : Bool) (now : Nat) (ntc : F) :
    Bool × TempSensor :=
  if !adsOk then (false, s)
  else
    let s := { s with initialized := true }
    let r := s.readTemperature rnd now ntc
    (true, { r.2 with tempBuffer := fun _ => r.1 })

/-- The method `setCalibration(float offset)`. -/
def setCalibration (s : TempSensor) (offset : F) : TempSensor :=
  { s with tempOffset := offset }

/-- The method `getCalibration()`. -/
def getCalibration (s : TempSensor) : F := s.tempOffset

/-- The method `checkSensor()`. -/
def checkSensor (rnd : ℚ → F) (s : TempSensor) (now : Nat) (ntc : F) : Bool × TempSensor :=
  if !s.initialized then (false, s)
  else
    let r := s.readTemperature rnd now ntc
    if F.lt r.1 SENSOR_LOW || F.gt r.1 SENSOR_HIGH then (false, r.2)
    else (true, r.2)

end TempSensor

/-! ## `display_manager.cpp`: the display sink -/

/-- The type `enum DisplayPage`. -/
inductive DisplayPage where
  | PAGE_MAIN
  | PAGE_MENU
  | PAGE_CALIBRATION
  | PAGE_ERROR
  deriving DecidableEq, Repr

open DisplayPage

/-- The members of `DisplayManager` that its setters write (the semantic
display state; the driver object and the refresh bookkeeping are left out). -/
structure DisplayManager where
  currentPage : DisplayPage
  errorMessage : String
  errorCode : ErrorCode
  currentTemp : F
  targetTemp : F
  powerPercentage : Nat
  systemState : SystemState
  deriving DecidableEq, Repr

namespace DisplayManager

/-- The constructor `DisplayManager::DisplayManager()`. -/
def new : DisplayManager :=
  { currentPage := PAGE_MAIN, errorMessage := "", errorCode := ERROR_NONE,
    currentTemp := F.fin 0, targetTemp := TEMP_DEFAULT, powerPercentage := 0,
    systemState := STATE_IDLE }

/-- The method `setPage(DisplayPage page)`. -/
def setPage (d : DisplayManager) (page : DisplayPage) : DisplayManager :=
  { d with currentPage := page }

/-- The method `setTemperature(float current, float target)`. -/
def setTemperature (d : DisplayManager) (current target : F) : DisplayManager :=
  { d with currentTemp := current, targetTemp := target }

/-- The method `setPowerPercentage(uint8_t percentage)`. -/
def setPowerPercentage (d : DisplayManager) (percentage : Nat) : DisplayManager :=
  { d with powerPercentage := percentage }

/-- The method `setSystemState(SystemState state)`. -/
def setSystemState (d : DisplayManager) (state : SystemState) : DisplayManager :=
  { d with systemState := state }

/-- The method `showError(ErrorCode code, const char* message)`; the buffer
keeps 31 characters. -/
def showError (d : DisplayManager) (code : ErrorCode) (message : String) : DisplayManager :=
  let d := { d with errorCode := code, errorMessage := message.take 31 }
  d.setPage PAGE_ERROR

/-- The method `clearError()`. -/
def clearError (d : DisplayManager) : DisplayManager :=
  { d with errorCode := ERROR_NONE, errorMessage := "" }

end DisplayManager

/-! ## `user_input.cpp`: the classified event source -/

/-- The type `enum EncoderEvent`. -/
inductive EncoderEvent where
  | EV_NONE
  | EV_SINGLE_CLICK
  | EV_DOUBLE_CLICK
  | EV_LONG_PRESS
  | EV_ROTATE_CW
  | EV_ROTATE_CCW
  deriving DecidableEq, Repr

open EncoderEvent

/-- The constant `const unsigned long LONG_PRESS_TIME = 1000`. -/
def LONG_PRESS_TIME : Nat := 1000

/-- The constant `const unsigned long DOUBLE_CLICK_TIME = 500`. -/
def DOUBLE_CLICK_TIME : Nat := 500

/-- The macro `#define ENCODER_STEPS_PER_NOTCH 4`. -/
def ENCODER_STEPS_PER_NOTCH : Int := 4

/-- Conversion of an integer to `int16_t` (two's complement wrap). -/
def toInt16 (x : Int) : Int := (x + 32768) % 65536 - 32768

/-- The members of `UserInput` (the encoder driver object apart), the
file-level flag `g_buttonChanged`, and the function-local static
`lastReadValue` of `getEvent()`, `none` until its declaration is first
reached. -/
structure UserInput where
  initialized : Bool
  buttonPressed : Bool
  buttonPressTime : Nat
  lastButtonReleaseTime : Nat
  clickCount : Nat
  encoderValue : Int
  encoderStep : Nat
  processingLongPress : Bool
  processingDoubleClick : Bool
  g_buttonChanged : Bool
  lastReadValue : Option Int
  deriving DecidableEq, Repr

namespace UserInput

/-- The constructor `UserInput::UserInput()`. -/
def new : UserInput :=
  { initialized := false, buttonPressed := false, buttonPressTime := 0,
    lastButtonReleaseTime := 0, clickCount := 0, encoderValue := 0, encoderStep := 1,
    processingLongPress := false, processingDoubleClick := false,
    g_buttonChanged := false, lastReadValue := none }

/-- The method `begin()` (it always returns `true`). -/
def begin (u : UserInput) : UserInput := { u with initialized := true }

/-- The button part of `update()`, run when `g_buttonChanged` is set. -/
def onButtonChange (u : UserInput) (now : Nat) (buttonDown : Bool) : UserInput :=
  let u := { u with g_buttonChanged := false }
  let currentState := buttonDown
  if currentState && !u.buttonPressed then
    { u with buttonPressed := true, buttonPressTime := now }
  else if !currentState && u.buttonPressed then
    let u := { u with buttonPressed := false }
    let pressDuration := sub32 now u.buttonPressTime
    if pressDuration ≥ LONG_PRESS_TIME then
      { u with processingLongPress := true }
    else
      let u := { u with clickCount := (u.clickCount + 1) % 256 }
      if u.clickCount = 1 then
        { u with lastButtonReleaseTime := now }
      else if u.clickCount = 2 then
        { u with processingDoubleClick := true, clickCount := 0 }
      else u
  else u

/-- The method `update()`; `now` is what `millis()` returns, `buttonDown`
what `encoder.isEncoderButtonDown()` returns and `encoderRaw` what
`encoder.readEncoder()` returns. -/
def update (u : UserInput) (now : Nat) (buttonDown : Bool) (encoderRaw : Int) : UserInput :=
  if !u.initialized then u
  else
    let u := if u.g_buttonChanged then u.onButtonChange now buttonDown else u
    let u :=
      if u.clickCount = 1 && sub32 now u.lastButtonReleaseTime > DOUBLE_CLICK_TIME then
        { u with clickCount := 0 }
      else u
    let newValue := toInt16 (Int.tdiv encoderRaw ENCODER_STEPS_PER_NOTCH)
    if newValue ≠ u.encoderValue then { u with encoderValue := newValue } else u

/-- The method `getEvent()`; `now` is what `millis()` returns. -/
def getEvent (u : UserInput) (now : Nat) : EncoderEvent × UserInput :=
  if !u.initialized then (EV_NONE, u)
  else if u.processingLongPress then
    (EV_LONG_PRESS, { u with processingLongPress := false })
  else if u.processingDoubleClick then
    (EV_DOUBLE_CLICK, { u with processingDoubleClick := false })
  else if u.clickCount = 0 && sub32 now u.lastButtonReleaseTime ≤ DOUBLE_CLICK_TIME &&
      u.lastButtonReleaseTime > 0 then
    (EV_SINGLE_CLICK, { u with lastButtonReleaseTime := 0 })
  else
    let lastReadValue := u.lastReadValue.getD u.encoderValue
    let u := { u with lastReadValue := some lastReadValue }
    if u.encoderValue > lastReadValue then
      (EV_ROTATE_CW, { u with lastReadValue := some u.encoderValue })
    else if u.encoderValue < lastReadValue then
      (EV_ROTATE_CCW, { u with lastReadValue := some u.encoderValue })
    else (EV_NONE, u)

/-- The method `getEncoderStep()`. -/
def getEncoderStep (u : UserInput) : Nat := u.encoderStep

end UserInput

/-! ## The persistent store -/

/-- The EEPROM emulation of the platform: `data` is the buffer in RAM that
`EEPROM.get` and `EEPROM.put` work on, `flash` what the last successful
`EEPROM.commit()` made durable.  A `float` occupies the four bytes that start
at its address; the store is indexed by that start address, and the five
offsets in use are four bytes apart. -/
structure EEPROM where
  data : Nat → F
  flash : Nat → F

namespace EEPROM

/-- The call `EEPROM.begin(size)`: the buffer is filled from the flash. -/
def begin (e : EEPROM) : EEPROM := { e with data := e.flash }

/-- The call `EEPROM.get(address, value)` for a `float`. -/
def get (e : EEPROM) (address : Nat) : F := e.data address

/-- The call `EEPROM.put(address, value)` for a `float`. -/
def put (e : EEPROM) (address : Nat) (value : F) : EEPROM :=
  { e with data := Function.update e.data address value }

/-- The call `EEPROM.commit()`; `ok` is what it returns. -/
def commit (e : EEPROM) (ok : Bool) : EEPROM :=
  if ok then { e with flash := e.data } else e

end EEPROM

/-! ## `state_machine.cpp`: the supervisory state machine -/

/-- Conversion of a `double` to `uint16_t` at the call
`setDutyCycle(pidController->getOutput())`: truncation towards zero.  C++
leaves the conversion undefined outside `[0, 65535]`; the embedding
saturates there and maps NaN to 0. -/
def toUint16 : F → Nat
  | F.nan => 0
  | F.ninf => 0
  | F.pinf => 65535
  | F.fin q => if q < 0 then 0 else min (Int.toNat ⌊q⌋) 65535

/-- One temperature acquisition as the environment answers it: `now` is what
`millis()` returns in `readTemperature()`, `ntc` the temperature the
conversion derives from the ADC sample (used when the read is not
throttled). -/
structure Sample where
  now : Nat
  ntc : F
  deriving DecidableEq, Repr

/-- What the hardware answers during one `update()`: the three possible
temperature acquisitions (inside `checkSensor()`, inside
`performSafetyChecks()`, inside the state handler), the clock and the library
answer for `compute()`, the clock and the encoder for `userInput->update()`,
the clock for `getEvent()`, the result of `EEPROM.commit()`. -/
structure Tick where
  check : Sample
  safety : Sample
  handler : Sample
  pidNow : Nat
  pidLib : Option F
  inputNow : Nat
  buttonDown : Bool
  encoderRaw : Int
  eventNow : Nat
  commitOk : Bool
  deriving DecidableEq, Repr

/-- The members of `StateMachine`, with the objects its pointers designate,
the file-level flag `g_watchdogTriggered` and the EEPROM.  `watchdogTimer` is
`none` for the null pointer and otherwise holds the counter of the hardware
timer as last written. -/
structure StateMachine where
  currentState : SystemState
  previousState : SystemState
  currentError : ErrorCode
  tempSensor : TempSensor
  pidController : PIDController
  pwmController : PWMController
  displayManager : DisplayManager
  userInput : UserInput
  watchdogTimer : Option Nat
  watchdogEnabled : Bool
  menuSelection : Nat
  calibrationOffset : F
  g_watchdogTriggered : Bool
  eeprom : EEPROM

namespace StateMachine

/-- The constructor `StateMachine::StateMachine(...)` over the five component
objects, the watchdog flag clear and the given store. -/
def new (t : TempSensor) (p : PIDController) (g : PWMController) (d : DisplayManager)
    (u : UserInput) (e : EEPROM) : StateMachine :=
  { currentState := STATE_IDLE, previousState := STATE_IDLE, currentError := ERROR_NONE,
    tempSensor := t, pidController := p, pwmController := g, displayManager := d,
    userInput := u, watchdogTimer := none, watchdogEnabled := false, menuSelection := 0,
    calibrationOffset := F.fin 0, g_watchdogTriggered := false, eeprom := e }

/-- The method `setState(SystemState newState)`. -/
def setState (m : StateMachine) (newState : SystemState) : StateMachine :=
  if newState ≠ m.currentState then
    let m := { m with previousState := m.currentState }
    let m := { m with currentState := newState }
    match newState with
    | STATE_IDLE => { m with pwmController := m.pwmController.disable }
    | STATE_WORKING => { m with pwmController := m.pwmController.enable }
    | _ => m
  else m

/-- The method `getState()`. -/
def getState (m : StateMachine) : SystemState := m.currentState

/-- The method `getError()`. -/
def getError (m : StateMachine) : ErrorCode := m.currentError

/-- The method `setError(ErrorCode error, const char* message)`. -/
def setError (m : StateMachine) (error : ErrorCode) (message : String) : StateMachine :=
  let m := { m with currentError := error }
  let m := { m with pwmController := m.pwmController.emergencyStop }
  let m := { m with displayManager := m.displayManager.showError error message }
  m.setState STATE_ERROR

/-- The method `clearError()`. -/
def clearError (m : StateMachine) : StateMachine :=
  let m := { m with currentError := ERROR_NONE }
  { m with displayManager := m.displayManager.clearError }

/-- The method `resetWatchdog()`. -/
def resetWatchdog (m : StateMachine) : StateMachine :=
  if m.watchdogEnabled && m.watchdogTimer.isSome then { m with watchdogTimer := some 0 }
  else m

/-- The interrupt handler `watchdogInterrupt()`. -/
def watchdogInterrupt (m : StateMachine) : StateMachine :=
  { m with g_watchdogTriggered := true }

/-- The method `loadSettings()`. -/
def loadSettings (m : StateMachine) : StateMachine :=
  let kp := m.eeprom.get EEPROM_PID_KP_ADDR
  let ki := m.eeprom.get EEPROM_PID_KI_ADDR
  let kd := m.eeprom.get EEPROM_PID_KD_ADDR
  let bad :=
    kp.isnan || ki.isnan || kd.isnan ||
    F.lt kp LIT_0_01 || F.gt kp (F.fin 1000) ||
    F.lt ki (F.fin 0) || F.gt ki (F.fin 1000) ||
    F.lt kd (F.fin 0) || F.gt kd (F.fin 1000)
  let kp := if bad then PID_KP_DEFAULT else kp
  let ki := if bad then PID_KI_DEFAULT else ki
  let kd := if bad then PID_KD_DEFAULT else kd
  let m := { m with pidController := m.pidController.setTunings kp ki kd }
  let targetTemp := m.eeprom.get EEPROM_TARGET_TEMP_ADDR
  let targetTemp :=
    if targetTemp.isnan || F.lt targetTemp TEMP_MIN || F.gt targetTemp TEMP_MAX then TEMP_DEFAULT
    else targetTemp
  let m := { m with pidController := m.pidController.setTargetTemp targetTemp }
  let tempCalibration := m.eeprom.get EEPROM_TEMP_CALIBRATION_ADDR
  let tempCalibration :=
    if tempCalibration.isnan || F.lt tempCalibration (F.fin (-10)) ||
        F.gt tempCalibration (F.fin 10) then F.fin 0
    else tempCalibration
  let m := { m with tempSensor := m.tempSensor.setCalibration tempCalibration }
  { m with calibrationOffset := tempCalibration }

/-- The method `saveSettings()`; `commitOk` is what `EEPROM.commit()`
returns (the method does not look at it). -/
def saveSettings (rnd : ℚ → F) (m : StateMachine) (commitOk : Bool) : StateMachine :=
  let t := m.pidController.getTunings
  let e := m.eeprom.put EEPROM_PID_KP_ADDR (F.narrow rnd t.1)
  let e := e.put EEPROM_PID_KI_ADDR (F.narrow rnd t.2.1)
  let e := e.put EEPROM_PID_KD_ADDR (F.narrow rnd t.2.2)
  let targetTemp := F.narrow rnd m.pidController.getTargetTemp
  let e := e.put EEPROM_TARGET_TEMP_ADDR targetTemp
  let tempCalibration := m.tempSensor.getCalibration
  let e := e.put EEPROM_TEMP_CALIBRATION_ADDR tempCalibration
  { m with eeprom := e.commit commitOk }

/-- The method `performSafetyChecks()`. -/
def performSafetyChecks (rnd : ℚ → F) (t : TempSensor) (k : Tick) : ErrorCode × TempSensor :=
  let c := t.checkSensor rnd k.check.now k.check.ntc
  if !c.1 then (ERROR_TEMP_SENSOR, c.2)
  else
    let r := c.2.readTemperature rnd k.safety.now k.safety.ntc
    if F.gt r.1 TEMP_PROTECTION_MAX then (ERROR_OVERTEMP, r.2)
    else (ERROR_NONE, r.2)

/-- The method `performSelfTest()`. -/
def performSelfTest (rnd : ℚ → F) (t : TempSensor) (k : Sample) : Bool × TempSensor :=
  let c := t.checkSensor rnd k.now k.ntc
  if !c.1 then (false, c.2) else (true, c.2)

/-- The calls `userInput->update(); userInput->getEvent()` of a handler. -/
def pollEvent (m : StateMachine) (k : Tick) : EncoderEvent × StateMachine :=
  let u := m.userInput.update k.inputNow k.buttonDown k.encoderRaw
  let r := u.getEvent k.eventNow
  (r.1, { m with userInput := r.2 })

/-- The method `handleIdleState()`. -/
def handleIdleState (rnd : ℚ → F) (m : StateMachine) (k : Tick) : StateMachine :=
  let r := m.tempSensor.readTemperature rnd k.handler.now k.handler.ntc
  let m := { m with tempSensor := r.2 }
  let currentTemp := r.1
  let targetTemp := F.narrow rnd m.pidController.getTargetTemp
  let d := m.displayManager.setTemperature currentTemp targetTemp
  let d := d.setPowerPercentage 0
  let d := d.setSystemState STATE_IDLE
  let d := d.setPage PAGE_MAIN
  let m := { m with displayManager := d }
  let ev := m.pollEvent k
  let m := ev.2
  match ev.1 with
  | EV_SINGLE_CLICK => m.setState STATE_WORKING
  | EV_LONG_PRESS => m.setState STATE_MENU
  | EV_ROTATE_CW =>
    let t := F.add rnd targetTemp (F.fin m.userInput.getEncoderStep)
    { m with pidController := m.pidController.setTargetTemp t }
  | EV_ROTATE_CCW =>
    let t := F.sub rnd targetTemp (F.fin m.userInput.getEncoderStep)
    { m with pidController := m.pidController.setTargetTemp t }
  | _ => m

/-- The method `handleWorkingState()`; `none` when `compute()` dereferences
the null pointer. -/
def handleWorkingState (rnd : ℚ → F) (m : StateMachine) (k : Tick) : Option StateMachine :=
  let r := m.tempSensor.readTemperature rnd k.handler.now k.handler.ntc
  let m := { m with tempSensor := r.2 }
  let currentTemp := r.1
  let targetTemp := F.narrow rnd m.pidController.getTargetTemp
  let m := { m with pidController := m.pidController.setCurrentTemp currentTemp }
  match m.pidController.compute k.pidNow k.pidLib with
  | none => none
  | some c =>
    let m := { m with pidController := c.2 }
    let m :=
      if c.1 then
        { m with pwmController := m.pwmController.setDutyCycle (toUint16 m.pidController.getOutput) }
      else m
    let d := m.displayManager.setTemperature currentTemp targetTemp
    let d := d.setPowerPercentage m.pwmController.getPowerPercentage
    let d := d.setSystemState STATE_WORKING
    let d := d.setPage PAGE_MAIN
    let m := { m with displayManager := d }
    let ev := m.pollEvent k
    let m := ev.2
    match ev.1 with
    | EV_DOUBLE_CLICK =>
      let m := { m with pwmController := m.pwmController.disable }
      some (m.setState STATE_IDLE)
    | EV_LONG_PRESS =>
      let m := { m with pwmController := m.pwmController.disable }
      some (m.setState STATE_MENU)
    | EV_ROTATE_CW =>
      let t := F.add rnd targetTemp (F.fin m.userInput.getEncoderStep)
      some { m with pidController := m.pidController.setTargetTemp t }
    | EV_ROTATE_CCW =>
      let t := F.sub rnd targetTemp (F.fin m.userInput.getEncoderStep)
      some { m with pidController := m.pidController.setTargetTemp t }
    | _ => some m

/-- The method `handleCalibrationState()`. -/
def handleCalibrationState (rnd : ℚ → F) (m : StateMachine) (k : Tick) : StateMachine :=
  let r := m.tempSensor.readTemperature rnd k.handler.now k.handler.ntc
  let m := { m with tempSensor := r.2 }
  let currentTemp := r.1
  let calibTemp := F.add rnd currentTemp m.calibrationOffset
  let d := m.displayManager.setTemperature currentTemp calibTemp
  let d := d.setSystemState STATE_CALIBRATION
  let d := d.setPage PAGE_CALIBRATION
  let m := { m with displayManager := d }
  let ev := m.pollEvent k
  let m := ev.2
  match ev.1 with
  | EV_DOUBLE_CLICK => m.setState m.previousState
  | EV_LONG_PRESS =>
    let m := { m with tempSensor := m.tempSensor.setCalibration m.calibrationOffset }
    let m := m.saveSettings rnd k.commitOk
    m.setState m.previousState
  | EV_ROTATE_CW => { m with calibrationOffset := F.add rnd m.calibrationOffset LIT_0_1 }
  | EV_ROTATE_CCW => { m with calibrationOffset := F.sub rnd m.calibrationOffset LIT_0_1 }
  | _ => m

/-- The method `handleMenuState()`. -/
def handleMenuState (rnd : ℚ → F) (m : StateMachine) (k : Tick) : StateMachine :=
  let d := m.displayManager.setSystemState STATE_MENU
  let d := d.setPage PAGE_MENU
  let m := { m with displayManager := d }
  let ev := m.pollEvent k
  let m := ev.2
  match ev.1 with
  | EV_SINGLE_CLICK =>
    match m.menuSelection with
    | 1 =>
      let m := { m with previousState := m.currentState }
      m.setState STATE_CALIBRATION
    | 3 =>
      let m := { m with pidController :=
        m.pidController.setTunings PID_KP_DEFAULT PID_KI_DEFAULT PID_KD_DEFAULT }
      let m := { m with tempSensor := m.tempSensor.setCalibration (F.fin 0) }
      m.saveSettings rnd k.commitOk
    | _ => m
  | EV_DOUBLE_CLICK => m.setState STATE_IDLE
  | EV_ROTATE_CW => { m with menuSelection := (m.menuSelection + 1) % 4 }
  | EV_ROTATE_CCW => { m with menuSelection := (m.menuSelection + 3) % 4 }
  | _ => m

/-- The method `handleErrorState()`. -/
def handleErrorState (m : StateMachine) (k : Tick) : StateMachine :=
  let m := { m with pwmController := m.pwmController.emergencyStop }
  let d := m.displayManager.setSystemState STATE_ERROR
  let d := d.setPage PAGE_ERROR
  let m := { m with displayManager := d }
  let ev := m.pollEvent k
  let m := ev.2
  if ev.1 = EV_LONG_PRESS then
    let m := m.clearError
    m.setState STATE_IDLE
  else m

/-- The message `update()` attaches to a failed safety check. -/
def safetyMessage : ErrorCode → String
  | ERROR_TEMP_SENSOR => "Temperature sensor"
  | ERROR_OVERTEMP => "Over temperature"
  | ERROR_HEATER => "Heater fault"
  | ERROR_POWER => "Power fault"
  | _ => "Unknown error"

/-- The dispatch at the end of `update()`: the handler of the current
state. -/
def dispatch (rnd : ℚ → F) (m : StateMachine) (k : Tick) : Option StateMachine :=
  match m.currentState with
  | STATE_IDLE => some (m.handleIdleState rnd k)
  | STATE_WORKING => m.handleWorkingState rnd k
  | STATE_CALIBRATION => some (m.handleCalibrationState rnd k)
  | STATE_MENU => some (m.handleMenuState rnd k)
  | STATE_ERROR => some (m.handleErrorState k)

/-- The method `update()`: one control tick.  The result is `none` when the
tick dereferences the null PID pointer. -/
def update (rnd : ℚ → F) (m : StateMachine) (k : Tick) : Option StateMachine :=
  let m := m.resetWatchdog
  if m.g_watchdogTriggered then
    let m := { m with g_watchdogTriggered := false }
    some (m.setError ERROR_SYSTEM "Watchdog triggered")
  else
    let s := performSafetyChecks rnd m.tempSensor k
    let m := { m with tempSensor := s.2 }
    let safetyError := s.1
    if safetyError ≠ ERROR_NONE then
      some (m.setError safetyError (safetyMessage safetyError))
    else m.dispatch rnd k

/-- The method `begin()`; `selfTest` answers the acquisition of the
self-test.  The first component is the value returned. -/
def begin (rnd : ℚ → F) (m : StateMachine) (selfTest : Sample) : Bool × StateMachine :=
  let m := { m with eeprom := m.eeprom.begin }
  let m := m.loadSettings
  let m := { m with watchdogTimer := some 0 }
  let m := { m with watchdogEnabled := true }
  let t := performSelfTest rnd m.tempSensor selfTest
  let m := { m with tempSensor := t.2 }
  if !t.1 then (false, m.setError ERROR_SYSTEM "Self test failed")
  else (true, m.setState STATE_IDLE)

end StateMachine

/-! ## Concrete states used as witnesses -/

/-- An initialised sensor that holds the reading `t`, taken at clock 1000. -/
def TempSensor.holding (t : F) : TempSensor :=
  { initialized := true, lastTemp := t, tempOffset := F.fin 0, tempBuffer := fun _ => t,
    bufferIndex := 0, lastSampleTime := 1000 }

/-- An erased store: every slot reads as NaN. -/
def EEPROM.blank : EEPROM := { data := fun _ => F.nan, flash := fun _ => F.nan }

/-- A tick at clock 1050 during which nobody touches the encoder. -/
def Tick.quiet : Tick :=
  { check := { now := 1050, ntc := F.fin 25 }, safety := { now := 1050, ntc := F.fin 25 },
    handler := { now := 1050, ntc := F.fin 25 }, pidNow := 1050, pidLib := none,
    inputNow := 1050, buttonDown := false, encoderRaw := 0, eventNow := 1050,
    commitOk := true }

/-- A system that is heating: state Working, all components begun, the gate
enabled at duty 500, the sensor holding the reading `t`. -/
def StateMachine.heating (t : F) : StateMachine :=
  { currentState := STATE_WORKING, previousState := STATE_IDLE, currentError := ERROR_NONE,
    tempSensor := TempSensor.holding t, pidController := PIDController.new.begin,
    pwmController := (PWMController.new.begin.enable).setDutyCycle 500,
    displayManager := DisplayManager.new, userInput := UserInput.new.begin,
    watchdogTimer := some 0, watchdogEnabled := true, menuSelection := 0,
    calibrationOffset := F.fin 0, g_watchdogTriggered := false, eeprom := EEPROM.blank }

/-- What a tick leaves to observe of the safety outcome: system state, error
kind, stored duty, `enabled`, physical output. -/
def StateMachine.outcome (m : StateMachine) : SystemState × ErrorCode × Nat × Bool × Nat :=
  (m.currentState, m.currentError, m.pwmController.dutyCycle, m.pwmController.enabled,
    m.pwmController.ledc)

/-- The heating system of `StateMachine.heating` over a gate on which
`begin()` was never called and whose stored duty was set to 500. -/
def StateMachine.heatingUnbegun (t : F) : StateMachine :=
  { StateMachine.heating t with pwmController := PWMController.new.setDutyCycle 500 }

/-- The user-input object in the middle of a double click: a first short
click was released at clock 900, the button went down again at clock 1000 and
its release has just raised the button interrupt. -/
def UserInput.secondRelease : UserInput :=
  { UserInput.new.begin with
    buttonPressed := true, buttonPressTime := 1000, lastButtonReleaseTime := 900,
    clickCount := 1, g_buttonChanged := true }

/-- The heating system of `StateMachine.heating` at 25 degrees while the user
completes a double click. -/
def StateMachine.heatingDoubleClick : StateMachine :=
  { StateMachine.heating (F.fin 25) with userInput := UserInput.secondRelease }

/-- The tick of `Tick.quiet` in which the PID library produces the output
300. -/
def Tick.pid300 : Tick := { Tick.quiet with pidLib := some (F.fin 300) }

/-- The states reached from a state machine over a freshly constructed gate by
calls on the gate, by `begin()`, by ticks, and by anything that leaves the
gate alone (interrupts, calls on the other components). -/
inductive StateMachine.GateReach (rnd : ℚ → F) : StateMachine → Prop where
  | fresh (m : StateMachine) : m.pwmController = PWMController.new → GateReach rnd m
  | op (m : StateMachine) (o : PWMController.Op) :
      GateReach rnd m → GateReach rnd { m with pwmController := m.pwmController.step o }
  | begin (m : StateMachine) (k : Sample) : GateReach rnd m → GateReach rnd (m.begin rnd k).2
  | tick (m m' : StateMachine) (k : Tick) :
      GateReach rnd m → StateMachine.update rnd m k = some m' → GateReach rnd m'
  | other (m m' : StateMachine) :
      GateReach rnd m → m'.pwmController = m.pwmController → GateReach rnd m'

/-- A store whose proportional gain is NaN while the other four slots hold
valid values: integral gain 2, derivative gain 3, target 50, calibration 1. -/
def EEPROM.nanKp : EEPROM :=
  { data := fun a =>
      if a = EEPROM_PID_KP_ADDR then F.nan
      else if a = EEPROM_PID_KI_ADDR then F.fin 2
      else if a = EEPROM_PID_KD_ADDR then F.fin 3
      else if a = EEPROM_TARGET_TEMP_ADDR then F.fin 50
      else F.fin 1,
    flash := fun _ => F.nan }

/-- A freshly constructed state machine over freshly constructed components
and the given store. -/
def StateMachine.fresh (e : EEPROM) : StateMachine :=
  StateMachine.new TempSensor.new PIDController.new PWMController.new DisplayManager.new
    UserInput.new e

/-- The heating system of `StateMachine.heating` at 25 degrees after
`setTunings(1 + 2^-30, 0.1f, 1.0f)`: the proportional gain is a `double` that
no binary32 value equals. -/
def StateMachine.fineGain : StateMachine :=
  { StateMachine.heating (F.fin 25) with
    pidController := PIDController.new.begin.setTunings (F.fin (1073741825 / 1073741824))
      PID_KI_DEFAULT PID_KD_DEFAULT }

/-! ## Further concrete states and observers -/

/-- The event the handler of a tick obtains from
`userInput->update(); userInput->getEvent()`. -/
def StateMachine.event (m : StateMachine) (k : Tick) : EncoderEvent :=
  ((m.userInput.update k.inputNow k.buttonDown k.encoderRaw).getEvent k.eventNow).1

/-- What the state machine and the display show of an operation: system
state, error kind and the display state. -/
def StateMachine.report (m : StateMachine) : SystemState × ErrorCode × DisplayManager :=
  (m.currentState, m.currentError, m.displayManager)

/-- An initialised user-input object in which the event `e` is pending for a
tick at clock 1050 with the encoder at rest: the matching flag is raised (long
press, double click), a click was released at clock 1000 and counted out
(single click), or the encoder value last reported differs from the current
one (rotations). -/
def UserInput.deliver : EncoderEvent → UserInput
  | EV_NONE => { UserInput.new.begin with lastReadValue := some 0 }
  | EV_SINGLE_CLICK =>
    { UserInput.new.begin with lastButtonReleaseTime := 1000, lastReadValue := some 0 }
  | EV_DOUBLE_CLICK =>
    { UserInput.new.begin with processingDoubleClick := true, lastReadValue := some 0 }
  | EV_LONG_PRESS =>
    { UserInput.new.begin with processingLongPress := true, lastReadValue := some 0 }
  | EV_ROTATE_CW => { UserInput.new.begin with lastReadValue := some (-1) }
  | EV_ROTATE_CCW => { UserInput.new.begin with lastReadValue := some 1 }

/-- A system in Calibration, entered from the menu: all components begun, the
gate disabled, the sensor holding 25 degrees with applied calibration 0, the
working offset `c`, and the event `e` pending. -/
def StateMachine.calibrating (c : F) (e : EncoderEvent) : StateMachine :=
  { currentState := STATE_CALIBRATION, previousState := STATE_MENU,
    currentError := ERROR_NONE, tempSensor := TempSensor.holding (F.fin 25),
    pidController := PIDController.new.begin, pwmController := PWMController.new.begin,
    displayManager := DisplayManager.new, userInput := UserInput.deliver e,
    watchdogTimer := some 0, watchdogEnabled := true, menuSelection := 1,
    calibrationOffset := c, g_watchdogTriggered := false, eeprom := EEPROM.blank }

/-- The tick of `Tick.quiet` in which `EEPROM.commit()` fails. -/
def Tick.commitFails : Tick := { Tick.quiet with commitOk := false }

/-- The state in which `update()` dispatches to a handler: the watchdog timer
reset and the sensor as the safety checks left it. -/
def StateMachine.afterChecks (rnd : ℚ → F) (m : StateMachine) (k : Tick) : StateMachine :=
  { m with
    watchdogTimer := m.resetWatchdog.watchdogTimer,
    tempSensor := (StateMachine.performSafetyChecks rnd m.tempSensor k).2 }

/-- A system in Error after an over-temperature that has cleared: the sensor
holds 25 degrees again, the gate is `g`, the event `e` is pending. -/
def StateMachine.faulted (g : PWMController) (e : EncoderEvent) : StateMachine :=
  { currentState := STATE_ERROR, previousState := STATE_WORKING,
    currentError := ERROR_OVERTEMP, tempSensor := TempSensor.holding (F.fin 25),
    pidController := PIDController.new.begin, pwmController := g,
    displayManager := DisplayManager.new.showError ERROR_OVERTEMP "Over temperature",
    userInput := UserInput.deliver e,
    watchdogTimer := some 0, watchdogEnabled := true, menuSelection := 0,
    calibrationOffset := F.fin 0, g_watchdogTriggered := false, eeprom := EEPROM.blank }

/-- A system in Idle over a begun gate and a PID controller `p`, the sensor
holding 25 degrees, the event `e` pending. -/
def StateMachine.idle (p : PIDController) (e : EncoderEvent) : StateMachine :=
  { currentState := STATE_IDLE, previousState := STATE_IDLE, currentError := ERROR_NONE,
    tempSensor := TempSensor.holding (F.fin 25), pidController := p,
    pwmController := PWMController.new.begin,
    displayManager := DisplayManager.new, userInput := UserInput.deliver e,
    watchdogTimer := some 0, watchdogEnabled := true, menuSelection := 0,
    calibrationOffset := F.fin 0, g_watchdogTriggered := false, eeprom := EEPROM.blank }

/-- The state `m` once the event `e` is pending in the user-input object. -/
def StateMachine.withEvent (m : StateMachine) (e : EncoderEvent) : StateMachine :=
  { m with userInput := UserInput.deliver e }

/-- The states a calibration session passes through after it was entered in
`m0`: ticks of the Calibration handler whose event is a rotation, ticks of
the handler without an event or with a single click (the handler's default
branch, which does nothing), and events arriving in the user-input object
between ticks.  Only a tick with a double click or a long press, or one that
ends in Error before the handler, ends the session. -/
inductive StateMachine.Adjusted (rnd : ℚ → F) (m0 : StateMachine) : StateMachine → Prop where
  | entered : Adjusted rnd m0 m0
  | rotate (m m' : StateMachine) (k : Tick) :
      Adjusted rnd m0 m → m.g_watchdogTriggered = false →
      (StateMachine.performSafetyChecks rnd m.tempSensor k).1 = ERROR_NONE →
      (m.event k = EV_ROTATE_CW ∨ m.event k = EV_ROTATE_CCW) →
      StateMachine.update rnd m k = some m' → Adjusted rnd m0 m'
  | idle (m m' : StateMachine) (k : Tick) :
      Adjusted rnd m0 m → m.g_watchdogTriggered = false →
      (StateMachine.performSafetyChecks rnd m.tempSensor k).1 = ERROR_NONE →
      (m.event k = EV_NONE ∨ m.event k = EV_SINGLE_CLICK) →
      StateMachine.update rnd m k = some m' → Adjusted rnd m0 m'
  | input (m : StateMachine) (u : UserInput) :
      Adjusted rnd m0 m → Adjusted rnd m0 { m with userInput := u }

/-- The calibration session entered with working offset 0 after one tick
with a clockwise rotation. -/
def StateMachine.calibratingOnce : StateMachine :=
  (StateMachine.update F.f32 (StateMachine.calibrating (F.fin 0) EV_ROTATE_CW)
    Tick.quiet).getD (StateMachine.calibrating (F.fin 0) EV_ROTATE_CW)

/-- The calibration session entered with working offset 0 after one tick
with a clockwise rotation and one tick without an event, a double click now
pending. -/
def StateMachine.calibratingTurned : StateMachine :=
  ((StateMachine.update F.f32 StateMachine.calibratingOnce Tick.quiet).getD
    StateMachine.calibratingOnce).withEvent EV_DOUBLE_CLICK

/-- A store whose durable content holds the calibration offset 10 and nothing
valid in the other slots. -/
def EEPROM.cal10 : EEPROM :=
  { data := fun _ => F.nan,
    flash := fun a => if a = EEPROM_TEMP_CALIBRATION_ADDR then F.fin 10 else F.nan }

/-- A constructed state machine over begun components (the sensor holding 25
degrees) and the store of `EEPROM.cal10`, before `begin()`. -/
def StateMachine.boot : StateMachine :=
  StateMachine.new (TempSensor.holding (F.fin 25)) PIDController.new.begin
    PWMController.new.begin DisplayManager.new UserInput.new.begin EEPROM.cal10

/-- The acquisition of a self-test at clock 1050. -/
def Sample.quiet : Sample := { now := 1050, ntc := F.fin 25 }

/-- One more tick (that of `Tick.quiet`, binary32 arithmetic) with the event
`e` pending. -/
def StateMachine.thenTick (o : Option StateMachine) (e : EncoderEvent) : Option StateMachine :=
  o.bind (fun m => StateMachine.update F.f32 (m.withEvent e) Tick.quiet)

/-- The run `begin()`, LongPress (Idle to Menu), RotateCW (menu entry 1),
SingleClick (Menu to Calibration), RotateCW (working offset up by `0.1f`),
LongPress (commit) from `StateMachine.boot`. -/
def StateMachine.overrun : Option StateMachine :=
  StateMachine.thenTick
    (StateMachine.thenTick
      (StateMachine.thenTick
        (StateMachine.thenTick
          (StateMachine.thenTick (some (StateMachine.boot.begin F.f32 Sample.quiet).2)
            EV_LONG_PRESS)
          EV_ROTATE_CW)
        EV_SINGLE_CLICK)
      EV_ROTATE_CW)
    EV_LONG_PRESS

/-! ## The moving average under repeated input -/

/-- The sensor after `n` consecutive calls `applyFilter(c)`. -/
def TempSensor.feed (rnd : ℚ → F) (s : TempSensor) (c : F) : Nat → TempSensor
  | 0 => s
  | n + 1 => ((TempSensor.feed rnd s c n).applyFilter rnd c).2

/-- The value that call number `n + 1` of consecutive calls `applyFilter(c)`
returns. -/
def TempSensor.fed (rnd : ℚ → F) (s : TempSensor) (c : F) (n : Nat) : F :=
  ((TempSensor.feed rnd s c n).applyFilter rnd c).1

/-! ## The voltage-to-temperature conversion in full -/

/-- The macro `#define NTC_R25 100000.0f`, as the decimal written. -/
def NTC_R25 : ℚ := 100000

/-- The macro `#define NTC_B 3950.0f`, as the decimal written. -/
def NTC_B : ℚ := 3950

/-- The macro `#define NTC_SERIES_R 100000.0f`, as the decimal written. -/
def NTC_SERIES_R : ℚ := 100000

/-- The macro `#define NTC_VCC 3.3f`, as the decimal written. -/
def NTC_VCC : ℚ := 33 / 10

/-- The decimal of the literal `273.15f`. -/
def KELVIN : ℚ := 27315 / 100

/-- An arithmetic in which `voltageToTemp` is evaluated: how a decimal
literal is read, the four operations, and the logarithm. -/
structure Arith (K : Type) where
  lit : ℚ → K
  add : K → K → K
  sub : K → K → K
  mul : K → K → K
  div : K → K → K
  log : K → K

namespace F

/-- Floating-point multiplication `a * b`, the exact product rounded by
`rnd`; zero times an infinity is NaN. -/
def mul (rnd : ℚ → F) : F → F → F
  | nan, _ => nan
  | _, nan => nan
  | fin a, fin b => rnd (a * b)
  | fin a, pinf => if a = 0 then nan else if 0 < a then pinf else ninf
  | fin a, ninf => if a = 0 then nan else if 0 < a then ninf else pinf
  | pinf, fin b => if b = 0 then nan else if 0 < b then pinf else ninf
  | ninf, fin b => if b = 0 then nan else if 0 < b then ninf else pinf
  | pinf, pinf => pinf
  | pinf, ninf => ninf
  | ninf, pinf => ninf
  | ninf, ninf => pinf

/-- The C library function `log`: NaN below zero, minus infinity at zero,
plus infinity at plus infinity; on a positive number the value `flog`
delivers. -/
def log (flog : ℚ → F) : F → F
  | nan => nan
  | ninf => nan
  | pinf => pinf
  | fin a => if a < 0 then nan else if a = 0 then ninf else flog a

/-- The arithmetic of C `float` values under the rounding `rnd`, with the
logarithm `flog` on positive numbers. -/
def arith (rnd : ℚ → F) (flog : ℚ → F) : Arith F :=
  { lit := rnd, add := F.add rnd, sub := F.sub rnd, mul := F.mul rnd, div := F.div rnd,
    log := F.log flog }

end F

/-- The exact arithmetic of a field with a logarithm `log`. -/
def Arith.ofField (K : Type) [Field K] (log : K → K) : Arith K :=
  { lit := fun q => (q : K), add := fun a b => a + b, sub := fun a b => a - b,
    mul := fun a b => a * b, div := fun a b => a / b, log := log }

/-- The first statement of `voltageToTemp(float voltage)`: the resistance of
the NTC, `NTC_SERIES_R * (NTC_VCC / voltage - 1.0f)`. -/
def TempSensor.ntcResistance {K : Type} (A : Arith K) (voltage : K) : K :=
  A.mul (A.lit NTC_SERIES_R) (A.sub (A.div (A.lit NTC_VCC) voltage) (A.lit 1))

/-- The argument of the logarithm in `voltageToTemp`: `ntcR / NTC_R25`. -/
def TempSensor.logArgument {K : Type} (A : Arith K) (voltage : K) : K :=
  A.div (TempSensor.ntcResistance A voltage) (A.lit NTC_R25)

/-- The statements of `voltageToTemp(float voltage)` up to the conversion to
degrees Celsius, lines 46 to 54: the B-parameter equation. -/
def TempSensor.ntcTemp {K : Type} (A : Arith K) (voltage : K) : K :=
  let steinhart := A.div (A.log (TempSensor.logArgument A voltage)) (A.lit NTC_B)
  let steinhart := A.add steinhart (A.div (A.lit 1) (A.add (A.lit 25) (A.lit KELVIN)))
  let steinhart := A.div (A.lit 1) steinhart
  A.sub steinhart (A.lit KELVIN)

/-- The whole of `voltageToTemp(float voltage)`: the temperature of the
B-parameter equation plus the calibration offset. -/
def TempSensor.voltageToTempIn {K : Type} (A : Arith K) (tempOffset voltage : K) : K :=
  A.add (TempSensor.ntcTemp A voltage) tempOffset

/-! ## Polling the user input -/

/-- The button interrupt handler that `UserInput::begin()` installs:
`[] { g_buttonChanged = true; }`. -/
def UserInput.buttonInterrupt (u : UserInput) : UserInput := { u with g_buttonChanged := true }

/-- What happens around one poll: the clock, whether the button changed since
the last poll (the interrupt has run), and where the button is now. -/
structure Poll where
  now : Nat
  edge : Bool
  buttonDown : Bool
  deriving DecidableEq, Repr

/-- One poll as in `loop()`: `userInput.update()` followed by
`userInput.getEvent()`, the encoder at rest. -/
def UserInput.poll (u : UserInput) (p : Poll) : EncoderEvent × UserInput :=
  let u := if p.edge then u.buttonInterrupt else u
  (u.update p.now p.buttonDown 0).getEvent p.now

/-- The events a sequence of polls reports, in order. -/
def UserInput.events (u : UserInput) : List Poll → List EncoderEvent
  | [] => []
  | p :: ps => (u.poll p).1 :: UserInput.events (u.poll p).2 ps

/-- A lone short click: the button goes down at clock 1000 and is released at
1100; it is polled until clock 2500, before, at and after the end of the
double-click window at 1600. -/
def Poll.loneClick : List Poll :=
  [{ now := 1000, edge := true, buttonDown := true },
   { now := 1050, edge := false, buttonDown := true },
   { now := 1100, edge := true, buttonDown := false },
   { now := 1110, edge := false, buttonDown := false },
   { now := 1300, edge := false, buttonDown := false },
   { now := 1600, edge := false, buttonDown := false },
   { now := 1601, edge := false, buttonDown := false },
   { now := 1700, edge := false, buttonDown := false },
   { now := 2500, edge := false, buttonDown := false }]

/-- A double click: down at 1000, up at 1100, down at 1200, up at 1300, and
two more polls. -/
def Poll.doubleClick : List Poll :=
  [{ now := 1000, edge := true, buttonDown := true },
   { now := 1100, edge := true, buttonDown := false },
   { now := 1200, edge := true, buttonDown := true },
   { now := 1300, edge := true, buttonDown := false },
   { now := 1310, edge := false, buttonDown := false },
   { now := 1400, edge := false, buttonDown := false }]

/-- A first short click, released at clock `T`, is waiting for the end of its
double-click window on the input `u`, last polled at clock `t`: nothing else
is pending, and the click counter is still 1 or was reset after the window. -/
def UserInput.Waiting (T t : Nat) (u : UserInput) : Prop :=
  u.initialized = true ∧ u.g_buttonChanged = false ∧ u.processingLongPress = false ∧
    u.processingDoubleClick = false ∧ u.lastButtonReleaseTime = T ∧ T ≤ t ∧
    (u.clickCount = 1 ∨ (u.clickCount = 0 ∧ T + DOUBLE_CLICK_TIME < t))

/-! ## `ui_adapter.cpp` and `main.cpp`: the main program -/

/-- The type `enum UIPage`. -/
inductive UIPage where
  | UI_PAGE_MAIN
  | UI_PAGE_MENU
  | UI_PAGE_PID_MENU
  | UI_PAGE_CALIBRATION
  | UI_PAGE_SYSTEM_INFO
  | UI_PAGE_ERROR
  deriving DecidableEq, Repr

open UIPage

/-- The members of `UIAdapter` that `setup()` and the part of `loop()` before
`uiAdapter.handleInput()` read or write (the pointers to the other modules,
the menu tables and the drawing state are left out). -/
structure UIAdapter where
  currentPage : UIPage
  previousPage : UIPage
  menuSelection : Nat
  valueEditing : Bool
  initialized : Bool
  errorCode : ErrorCode
  errorMessage : String
  currentTemp : F
  targetTemp : F
  powerPercentage : Nat
  systemState : SystemState
  deriving DecidableEq, Repr

namespace UIAdapter

/-- The constructor `UIAdapter::UIAdapter(...)`. -/
def new : UIAdapter :=
  { currentPage := UI_PAGE_MAIN, previousPage := UI_PAGE_MAIN, menuSelection := 0,
    valueEditing := false, initialized := false, errorCode := ERROR_NONE, errorMessage := "",
    currentTemp := F.fin 0, targetTemp := TEMP_DEFAULT, powerPercentage := 0,
    systemState := STATE_IDLE }

/-- The method `begin()` on an adapter whose display pointer is not null, as
in `main.cpp` (it returns `true`). -/
def begin (a : UIAdapter) : UIAdapter := { a with initialized := true }

/-- The method `setPage(UIPage page)`. -/
def setPage (a : UIAdapter) (page : UIPage) : UIAdapter :=
  if page ≠ a.currentPage then
    { a with previousPage := a.currentPage, currentPage := page, menuSelection := 0,
             valueEditing := false }
  else a

/-- The method `getPage()`. -/
def getPage (a : UIAdapter) : UIPage := a.currentPage

/-- The method `setTemperature(float current, float target)`. -/
def setTemperature (a : UIAdapter) (current target : F) : UIAdapter :=
  { a with currentTemp := current, targetTemp := target }

/-- The method `setPowerPercentage(uint8_t percentage)`. -/
def setPowerPercentage (a : UIAdapter) (percentage : Nat) : UIAdapter :=
  { a with powerPercentage := percentage }

/-- The method `setSystemState(SystemState state)`. -/
def setSystemState (a : UIAdapter) (state : SystemState) : UIAdapter :=
  { a with systemState := state }

/-- The method `showError(ErrorCode code, const char* message)`; the buffer
keeps 31 characters. -/
def showError (a : UIAdapter) (code : ErrorCode) (message : String) : UIAdapter :=
  let a := { a with errorCode := code, errorMessage := message.take 31 }
  a.setPage UI_PAGE_ERROR

/-- The method `clearError()`. -/
def clearError (a : UIAdapter) : UIAdapter :=
  { a with errorCode := ERROR_NONE, errorMessage := "" }

/-- The method `getTargetTemp()`. -/
def getTargetTemp (a : UIAdapter) : F := a.targetTemp

/-- The case `UI_PAGE_ERROR` of `handleInput()` on the event
`EV_LONG_PRESS`: `clearError(); setPage(UI_PAGE_MAIN);`. -/
def dismissError (a : UIAdapter) : UIAdapter := a.clearError.setPage UI_PAGE_MAIN

end UIAdapter

/-- The globals of `main.cpp`. -/
structure Main where
  tempSensor : TempSensor
  pidController : PIDController
  pwmController : PWMController
  userInput : UserInput
  uiAdapter : UIAdapter
  systemState : SystemState
  errorCode : ErrorCode
  lastSystemStatusUpdateTime : Nat

/-- What the hardware answers during the part of `loop()` before
`uiAdapter.handleInput()`: `currentTime` is the first `millis()`, `sample` the
temperature acquisition, `pidNow` and `pidLib` the clock and the library
result inside `compute()`, the rest the poll of the user input. -/
structure LoopInput where
  currentTime : Nat
  sample : Sample
  pidNow : Nat
  pidLib : Option F
  inputNow : Nat
  buttonDown : Bool
  encoderRaw : Int
  eventNow : Nat

namespace Main

/-- The initialisers of the globals. -/
def new : Main :=
  { tempSensor := TempSensor.new, pidController := PIDController.new,
    pwmController := PWMController.new, userInput := UserInput.new,
    uiAdapter := UIAdapter.new, systemState := STATE_IDLE, errorCode := ERROR_NONE,
    lastSystemStatusUpdateTime := 0 }

/-- The function `setup()`; `adsOk` is what `ads.begin(ADS1115_ADDR)` returns
inside `tempSensor.begin()` and `s` the first temperature acquisition. -/
def setup (rnd : ℚ → F) (m : Main) (adsOk : Bool) (s : Sample) : Main :=
  let t := m.tempSensor.begin rnd adsOk s.now s.ntc
  let m := { m with tempSensor := t.2 }
  let m := if !t.1 then { m with errorCode := ERROR_TEMP_SENSOR } else m
  let m := { m with pidController := m.pidController.begin }
  let m := { m with pwmController := m.pwmController.begin }
  let m := { m with userInput := m.userInput.begin }
  let m := { m with uiAdapter := m.uiAdapter.begin }
  let m :=
    if m.errorCode ≠ ERROR_NONE then
      let m := { m with systemState := STATE_ERROR }
      if m.errorCode = ERROR_TEMP_SENSOR then
        { m with uiAdapter := m.uiAdapter.showError m.errorCode "Temp sensor error" }
      else m
    else m
  let m := { m with systemState := STATE_IDLE }
  { m with uiAdapter := m.uiAdapter.setSystemState m.systemState }

/-- The status update of `loop()` that runs every 200 ms: the over-temperature
test and the `switch (systemState)`; `none` when `compute()` dereferences the
null pointer. -/
def statusUpdate (m : Main) (currentTemp : F) (k : LoopInput) : Option Main :=
  let m := { m with lastSystemStatusUpdateTime := k.currentTime }
  let m :=
    if F.gt currentTemp TEMP_PROTECTION_MAX then
      let m := { m with systemState := STATE_ERROR, errorCode := ERROR_OVERTEMP }
      let m := { m with pwmController := m.pwmController.emergencyStop }
      { m with uiAdapter := m.uiAdapter.showError m.errorCode "Over temperature" }
    else m
  let r : Option Main :=
    match m.systemState with
    | STATE_IDLE =>
      let m := { m with pwmController := m.pwmController.disable }
      some { m with uiAdapter := m.uiAdapter.setPowerPercentage 0 }
    | STATE_WORKING =>
      let m := { m with pidController := m.pidController.setCurrentTemp currentTemp }
      match m.pidController.compute k.pidNow k.pidLib with
      | none => none
      | some c =>
        let m := { m with pidController := c.2 }
        if c.1 then
          let m :=
            { m with pwmController :=
                m.pwmController.setDutyCycle (toUint16 m.pidController.getOutput) }
          some { m with uiAdapter :=
                   m.uiAdapter.setPowerPercentage m.pwmController.getPowerPercentage }
        else some m
    | STATE_ERROR =>
      let m := { m with pwmController := m.pwmController.emergencyStop }
      some { m with uiAdapter := m.uiAdapter.setPowerPercentage 0 }
    | _ => some m
  r.map (fun m => { m with uiAdapter := m.uiAdapter.setSystemState m.systemState })

/-- The global event handling of `loop()`: the `switch (event)`. -/
def handleEvent (m : Main) (event : EncoderEvent) : Main :=
  match event with
  | EV_SINGLE_CLICK =>
    if m.systemState = STATE_IDLE ∧ m.uiAdapter.getPage = UI_PAGE_MAIN then
      let m := { m with systemState := STATE_WORKING }
      { m with pwmController := m.pwmController.enable }
    else m
  | EV_DOUBLE_CLICK =>
    if m.systemState = STATE_WORKING then
      let m := { m with systemState := STATE_IDLE }
      { m with pwmController := m.pwmController.disable }
    else m
  | EV_LONG_PRESS =>
    if m.systemState = STATE_ERROR then
      { m with systemState := STATE_IDLE, errorCode := ERROR_NONE }
    else m
  | _ => m

/-- The function `loop()` from its start to the end of the global event
handling, lines 102 to 201; the calls `uiAdapter.handleInput()` and
`uiAdapter.update()` that follow are not part of it. -/
def loopHead (rnd : ℚ → F) (m : Main) (k : LoopInput) : Option Main :=
  let r := m.tempSensor.readTemperature rnd k.sample.now k.sample.ntc
  let m := { m with tempSensor := r.2 }
  let currentTemp := r.1
  let targetTemp := m.uiAdapter.getTargetTemp
  let m := { m with pidController := m.pidController.setTargetTemp targetTemp }
  let m := { m with uiAdapter := m.uiAdapter.setTemperature currentTemp targetTemp }
  let r : Option Main :=
    if sub32 k.currentTime m.lastSystemStatusUpdateTime ≥ 200 then
      m.statusUpdate currentTemp k
    else some m
  r.map (fun m =>
    let m := { m with userInput := m.userInput.update k.inputNow k.buttonDown k.encoderRaw }
    let ev := m.userInput.getEvent k.eventNow
    let m := { m with userInput := ev.2 }
    m.handleEvent ev.1)

/-- What an observer sees of the main program: the state, the error code, the
page, and whether the gate is enabled. -/
def view (m : Main) : SystemState × ErrorCode × UIPage × Bool :=
  (m.systemState, m.errorCode, m.uiAdapter.getPage, m.pwmController.isEnabled)

end Main

/-- The first pass of `loop()`, at clock 2100, while the user input delivers a
single click; the sensor would convert to 25 degrees. -/
def LoopInput.click : LoopInput :=
  { currentTime := 2100, sample := { now := 2100, ntc := F.fin 25 }, pidNow := 2100,
    pidLib := some (F.fin 1023), inputNow := 2100, buttonDown := false, encoderRaw := 0,
    eventNow := 2100 }

/-- The main program after a `setup()` in which the ADC did not answer. -/
def Main.sensorFailed : Main := Main.new.setup F.f32 false { now := 5, ntc := F.fin 25 }

/-- The main program `m` with a single click pending in the user input (a
click released at clock 2000 and counted out). -/
def Main.withClick (m : Main) : Main :=
  { m with userInput :=
      { m.userInput with lastButtonReleaseTime := 2000, clickCount := 0 } }

/-- The main program `m` after the error page took a long press:
`clearError(); setPage(UI_PAGE_MAIN);` in `handleInput()`. -/
def Main.dismissed (m : Main) : Main := { m with uiAdapter := m.uiAdapter.dismissError }

/-! ## Reachable states of the state machine -/

/-- The states reached from a freshly constructed state machine over a gate
that is not enabled and drives nothing: by `begin()` as the first call, by
ticks with any answers of the hardware, by firings of the watchdog, and by
whatever happens to the user-input object between ticks (button interrupts,
encoder movement). -/
inductive StateMachine.Reach (rnd : ℚ → F) : StateMachine → Prop where
  | constructed (t : TempSensor) (p : PIDController) (g : PWMController) (d : DisplayManager)
      (u : UserInput) (e : EEPROM) :
      g.enabled = false → g.ledc = 0 → Reach rnd (StateMachine.new t p g d u e)
  | begun (t : TempSensor) (p : PIDController) (g : PWMController) (d : DisplayManager)
      (u : UserInput) (e : EEPROM) (k : Sample) :
      g.enabled = false → g.ledc = 0 → Reach rnd ((StateMachine.new t p g d u e).begin rnd k).2
  | tick (m m' : StateMachine) (k : Tick) :
      Reach rnd m → StateMachine.update rnd m k = some m' → Reach rnd m'
  | watchdog (m : StateMachine) : Reach rnd m → Reach rnd m.watchdogInterrupt
  | input (m : StateMachine) (u : UserInput) : Reach rnd m → Reach rnd { m with userInput := u }

/-- The invariant of the reachable states: the gate is consistent, it is
enabled only in Working, Calibration was entered from the menu, and the state
is Error exactly when an error is recorded. -/
def StateMachine.Sound (m : StateMachine) : Prop :=
  m.pwmController.Consistent ∧
    (m.currentState ≠ STATE_WORKING → m.pwmController.enabled = false) ∧
    (m.currentState = STATE_CALIBRATION → m.previousState = STATE_MENU) ∧
    (m.currentState = STATE_ERROR ↔ m.currentError ≠ ERROR_NONE)

/-- One more tick (that of `Tick.quiet`, binary32 arithmetic) with the event
`e` pending; the state stays where it is when the tick does not return. -/
def StateMachine.tickOr (m : StateMachine) (e : EncoderEvent) : StateMachine :=
  (StateMachine.update F.f32 (m.withEvent e) Tick.quiet).getD m

/-- The machine of `StateMachine.boot` after `begin()`. -/
def StateMachine.started : StateMachine := (StateMachine.boot.begin F.f32 Sample.quiet).2

/-- The started machine after a single click: heating. -/
def StateMachine.inWorking : StateMachine := StateMachine.started.tickOr EV_SINGLE_CLICK

/-- The started machine after LongPress (Idle to Menu), RotateCW (menu entry
1) and SingleClick (Menu to Calibration). -/
def StateMachine.inCalibration : StateMachine :=
  ((StateMachine.started.tickOr EV_LONG_PRESS).tickOr EV_ROTATE_CW).tickOr EV_SINGLE_CLICK

/-- A machine over freshly constructed components after `begin()`: the sensor
was never begun, so the self-test fails. -/
def StateMachine.selfTestFailed : StateMachine :=
  ((StateMachine.fresh EEPROM.blank).begin F.f32 Sample.quiet).2

/-! ## The gain envelope, the library's clock gate, a gate enabled at construction -/

/-- A store whose proportional gain is the literal `0.01f`, the smallest gain
`loadSettings` accepts, with valid values in the other slots: integral gain 2,
derivative gain 3, target 50, calibration 1. -/
def EEPROM.kpLowest : EEPROM :=
  { data := fun a =>
      if a = EEPROM_PID_KP_ADDR then LIT_0_01
      else if a = EEPROM_PID_KI_ADDR then F.fin 2
      else if a = EEPROM_PID_KD_ADDR then F.fin 3
      else if a = EEPROM_TARGET_TEMP_ADDR then F.fin 50
      else F.fin 1,
    flash := fun _ => F.nan }

/-- Modelled from the spec: the clock gate of the call `pid->Compute()` of the
external PID library, whose source is not under `src/`.  The spec's words:
a new output only if at least `PID_COMPUTE_INTERVAL` has elapsed since the
last successful computation, otherwise nothing and the previous output is
left unchanged.  `begin()` configures the object for this with
`SetMode(AUTOMATIC)` and `SetSampleTime(PID_COMPUTE_INTERVAL)`, recorded in
`automatic` and `sampleTime`.  `lastTime` is the clock of the library's last
computation, `now` the clock of the call and `o` the output a computation
writes; the result is the argument `lib` of `PIDController.compute`. -/
def PIDLib.Compute (l : PIDLib) (lastTime now : Nat) (o : F) : Option F :=
  if l.automatic && decide (l.sampleTime ≤ sub32 now lastTime) then some o else none

/-- The library object that `begin()` allocates on a freshly constructed
controller. -/
def PIDLib.configured : PIDLib :=
  { kp := PID_KP_DEFAULT, ki := PID_KI_DEFAULT, kd := PID_KD_DEFAULT, outMin := F.fin 0,
    outMax := F.fin 1023, automatic := true, sampleTime := PID_COMPUTE_INTERVAL }

/-- A state machine freshly constructed over begun components whose gate is
already enabled and drives the duty 500 (the sensor holding 25 degrees). -/
def StateMachine.overEnabledGate : StateMachine :=
  StateMachine.new (TempSensor.holding (F.fin 25)) PIDController.new.begin
    ((PWMController.new.begin.enable).setDutyCycle 500) DisplayManager.new
    UserInput.new.begin EEPROM.blank

/-! ## Theorems: the actuator gate -/

namespace PWMController

theorem consistent_new : new.Consistent := by decide

theorem consistent_setDutyCycle (g : PWMController) (d : Nat) (h : g.Consistent) :
    (g.setDutyCycle d).Consistent := by
  obtain ⟨h1, h2⟩ := h
  cases hi : g.initialized <;> cases he : g.enabled <;>
    simp_all [Consistent, setDutyCycle]

theorem consistent_begin (g : PWMController) (h : g.Consistent) : g.begin.Consistent := by
  cases hi : g.initialized <;> cases he : g.enabled <;>
    simp [Consistent, begin, setDutyCycle, hi, he, PWM_MAX_DUTY] <;>
    simp_all [Consistent]

theorem consistent_enable (g : PWMController) (h : g.Consistent) : g.enable.Consistent := by
  obtain ⟨h1, h2⟩ := h
  cases hi : g.initialized <;> cases he : g.enabled <;> simp_all [Consistent, enable]

theorem consistent_disable (g : PWMController) (h : g.Consistent) : g.disable.Consistent := by
  obtain ⟨h1, h2⟩ := h
  cases hi : g.initialized <;> cases he : g.enabled <;> simp_all [Consistent, disable]

theorem consistent_emergencyStop (g : PWMController) (h : g.Consistent) :
    g.emergencyStop.Consistent := by
  obtain ⟨h1, h2⟩ := h
  cases hi : g.initialized <;> cases he : g.enabled <;> simp_all [Consistent, emergencyStop]

theorem consistent_step (g : PWMController) (o : Op) (h : g.Consistent) :
    (g.step o).Consistent := by
  cases o with
  | begin => exact consistent_begin g h
  | setDutyCycle d => exact consistent_setDutyCycle g d h
  | enable => exact consistent_enable g h
  | disable => exact consistent_disable g h
  | emergencyStop => exact consistent_emergencyStop g h

theorem consistent_run (ops : List Op) (g : PWMController) (h : g.Consistent) :
    (g.run ops).Consistent := by
  induction ops generalizing g with
  | nil => exact h
  | cons o rest ih => exact ih (g.step o) (consistent_step g o h)

theorem emergencyStop_of_initialized (g : PWMController) (h : g.initialized = true) :
    g.emergencyStop = { g with ledc := 0, enabled := false, dutyCycle := 0 } := by
  simp [emergencyStop, h]

theorem emergencyStop_of_not_initialized (g : PWMController) (h : g.initialized = false) :
    g.emergencyStop = g := by
  simp [emergencyStop, h]

theorem emergencyStop_idem (g : PWMController) :
    g.emergencyStop.emergencyStop = g.emergencyStop := by
  cases hi : g.initialized <;> simp [emergencyStop, hi]

theorem emergencyStop_iterate (g : PWMController) (n : Nat) :
    emergencyStop^[n + 1] g = g.emergencyStop := by
  induction n with
  | zero => rfl
  | succ k ih =>
    rw [Function.iterate_succ_apply', ih, emergencyStop_idem]

/-- C4, as stated, fails: on a gate on which `begin()` has not been called and
whose stored duty was set to 500 by `setDutyCycle`, `emergencyStop()` leaves
the stored duty at 500. -/
theorem c4_emergencyStop_before_begin_keeps_duty :
    ((new.setDutyCycle 500).emergencyStop).dutyCycle = 500 ∧
      ¬ (((new.setDutyCycle 500).emergencyStop).dutyCycle = 0 ∧
          ((new.setDutyCycle 500).emergencyStop).enabled = false) := by
  decide

/-- C4, amended: for every gate state on which `begin()` has been called
(`initialized` is true), calling `emergencyStop()` once or repeatedly leaves
the stored duty 0, `enabled` false and the physical output 0. -/
theorem c4_emergencyStop_initialized (g : PWMController) (h : g.initialized = true)
    (n : Nat) :
    (emergencyStop^[n + 1] g).dutyCycle = 0 ∧ (emergencyStop^[n + 1] g).enabled = false ∧
      (emergencyStop^[n + 1] g).ledc = 0 := by
  rw [emergencyStop_iterate, emergencyStop_of_initialized g h]
  exact ⟨rfl, rfl, rfl⟩

/-- C4, amended, at a gate that was begun, enabled and driven at duty 700,
stopped three times. -/
theorem c4_emergencyStop_initialized_witness :
    ((new.begin.enable).setDutyCycle 700).initialized = true ∧
      (emergencyStop^[3] ((new.begin.enable).setDutyCycle 700)).dutyCycle = 0 ∧
      (emergencyStop^[3] ((new.begin.enable).setDutyCycle 700)).enabled = false ∧
      (emergencyStop^[3] ((new.begin.enable).setDutyCycle 700)).ledc = 0 :=
  ⟨by decide, c4_emergencyStop_initialized _ (by decide) 2⟩

/-- C5: after every finite sequence of `begin`, `setDutyCycle(d)`, `enable`,
`disable` and `emergencyStop` calls on a freshly constructed gate, the
physical output (the value last written with `ledcWrite`, 0 before any write)
equals the stored duty if `enabled` is true and 0 otherwise. -/
theorem c5_output_reflects_gate (ops : List Op) :
    (new.run ops).ledc = if (new.run ops).enabled then (new.run ops).dutyCycle else 0 :=
  (consistent_run ops new consistent_new).2

end PWMController

/-! ## Theorems: the safety path of `update()` -/

namespace StateMachine

theorem setState_error_fields (m : StateMachine) :
    (m.setState STATE_ERROR).currentState = STATE_ERROR ∧
      (m.setState STATE_ERROR).currentError = m.currentError ∧
      (m.setState STATE_ERROR).tempSensor = m.tempSensor ∧
      (m.setState STATE_ERROR).pidController = m.pidController ∧
      (m.setState STATE_ERROR).pwmController = m.pwmController ∧
      (m.setState STATE_ERROR).displayManager = m.displayManager ∧
      (m.setState STATE_ERROR).userInput = m.userInput ∧
      (m.setState STATE_ERROR).menuSelection = m.menuSelection ∧
      (m.setState STATE_ERROR).calibrationOffset = m.calibrationOffset ∧
      (m.setState STATE_ERROR).g_watchdogTriggered = m.g_watchdogTriggered ∧
      (m.setState STATE_ERROR).eeprom = m.eeprom := by
  unfold setState
  by_cases h : STATE_ERROR ≠ m.currentState
  · simp [h]
  · have h' : m.currentState = STATE_ERROR := by
      by_contra hc
      exact h (fun e => hc e.symm)
    simp [h']

/-- What `setError` leaves behind: the Error state, the recorded error, the
stopped gate, the error page; everything else is untouched. -/
theorem setError_fields (m : StateMachine) (e : ErrorCode) (msg : String) :
    (m.setError e msg).currentState = STATE_ERROR ∧
      (m.setError e msg).currentError = e ∧
      (m.setError e msg).tempSensor = m.tempSensor ∧
      (m.setError e msg).pidController = m.pidController ∧
      (m.setError e msg).pwmController = m.pwmController.emergencyStop ∧
      (m.setError e msg).displayManager = m.displayManager.showError e msg ∧
      (m.setError e msg).userInput = m.userInput ∧
      (m.setError e msg).menuSelection = m.menuSelection ∧
      (m.setError e msg).calibrationOffset = m.calibrationOffset ∧
      (m.setError e msg).g_watchdogTriggered = m.g_watchdogTriggered ∧
      (m.setError e msg).eeprom = m.eeprom := by
  unfold setError
  simpa using setState_error_fields _

theorem resetWatchdog_fields (m : StateMachine) :
    m.resetWatchdog.currentState = m.currentState ∧
      m.resetWatchdog.previousState = m.previousState ∧
      m.resetWatchdog.currentError = m.currentError ∧
      m.resetWatchdog.tempSensor = m.tempSensor ∧
      m.resetWatchdog.pidController = m.pidController ∧
      m.resetWatchdog.pwmController = m.pwmController ∧
      m.resetWatchdog.displayManager = m.displayManager ∧
      m.resetWatchdog.userInput = m.userInput ∧
      m.resetWatchdog.menuSelection = m.menuSelection ∧
      m.resetWatchdog.calibrationOffset = m.calibrationOffset ∧
      m.resetWatchdog.g_watchdogTriggered = m.g_watchdogTriggered ∧
      m.resetWatchdog.eeprom = m.eeprom := by
  unfold resetWatchdog
  split <;> simp

/-- The tick when the watchdog flag is set. -/
theorem update_of_watchdog (rnd : ℚ → F) (m : StateMachine) (k : Tick)
    (h : m.g_watchdogTriggered = true) :
    update rnd m k =
      some (({ m.resetWatchdog with g_watchdogTriggered := false }).setError ERROR_SYSTEM
        "Watchdog triggered") := by
  have hr := (resetWatchdog_fields m).2.2.2.2.2.2.2.2.2.2.1
  simp [update, hr, h]

/-- The tick when the watchdog flag is clear and a safety check fails. -/
theorem update_of_safety_error (rnd : ℚ → F) (m : StateMachine) (k : Tick)
    (hw : m.g_watchdogTriggered = false)
    (he : (performSafetyChecks rnd m.tempSensor k).1 ≠ ERROR_NONE) :
    update rnd m k =
      some (({ m.resetWatchdog with
                tempSensor := (performSafetyChecks rnd m.tempSensor k).2 }).setError
        (performSafetyChecks rnd m.tempSensor k).1
        (safetyMessage (performSafetyChecks rnd m.tempSensor k).1)) := by
  have hr := (resetWatchdog_fields m).2.2.2.2.2.2.2.2.2.2.1
  have ht := (resetWatchdog_fields m).2.2.2.1
  simp [update, hr, hw, ht, he]

/-- C1: in every state with the watchdog flag clear, when the safety-check
pass of the tick reports an error `e` other than None, `update()` ends in
Error with `e` recorded, and no handler ran: the user-input object (no event
consumed), the PID controller (target, output), the menu selection, the
working calibration offset and the store are untouched, and the gate is what
`setError`'s `emergencyStop()` makes of it (stored duty unchanged or zeroed). -/
theorem c1_safety_error_skips_handler (rnd : ℚ → F) (m : StateMachine) (k : Tick)
    (e : ErrorCode) (hw : m.g_watchdogTriggered = false)
    (he : (performSafetyChecks rnd m.tempSensor k).1 = e) (hne : e ≠ ERROR_NONE) :
    ∃ m', update rnd m k = some m' ∧ m'.currentState = STATE_ERROR ∧ m'.currentError = e ∧
      m'.userInput = m.userInput ∧ m'.pidController = m.pidController ∧
      m'.pidController.getTargetTemp = m.pidController.getTargetTemp ∧
      m'.pidController.getOutput = m.pidController.getOutput ∧
      m'.pwmController = m.pwmController.emergencyStop ∧
      (m'.pwmController.dutyCycle = m.pwmController.dutyCycle ∨
        m'.pwmController.dutyCycle = 0) ∧
      m'.menuSelection = m.menuSelection ∧ m'.calibrationOffset = m.calibrationOffset ∧
      m'.eeprom = m.eeprom := by
  subst he
  refine ⟨_, update_of_safety_error rnd m k hw hne, ?_⟩
  obtain ⟨h1, h2, -, h4, h5, -, h7, h8, h9, -, h11⟩ := setError_fields
    ({ m.resetWatchdog with tempSensor := (performSafetyChecks rnd m.tempSensor k).2 })
    (performSafetyChecks rnd m.tempSensor k).1
    (safetyMessage (performSafetyChecks rnd m.tempSensor k).1)
  obtain ⟨-, -, -, -, r5, r6, -, r8, r9, r10, -, r12⟩ := resetWatchdog_fields m
  simp only [] at h4 h5 h7 h8 h9 h11
  refine ⟨h1, h2, h7.trans r8, h4.trans r5, by rw [h4.trans r5], by rw [h4.trans r5],
    h5.trans (by rw [r6]), ?_, h8.trans r9, h9.trans r10, h11.trans r12⟩
  rw [h5, r6]
  cases hi : m.pwmController.initialized
  · left; rw [PWMController.emergencyStop_of_not_initialized _ hi]
  · right; rw [PWMController.emergencyStop_of_initialized _ hi]

/-- C1 at a heating system whose sensor holds 105 degrees: the tick reports
OverTemperature. -/
theorem c1_safety_error_skips_handler_witness :
    (heating (F.fin 105)).g_watchdogTriggered = false ∧
      (performSafetyChecks F.f32 (heating (F.fin 105)).tempSensor Tick.quiet).1
        = ERROR_OVERTEMP ∧
      ERROR_OVERTEMP ≠ ERROR_NONE ∧
      ∃ m', update F.f32 (heating (F.fin 105)) Tick.quiet = some m' ∧
        m'.currentState = STATE_ERROR ∧ m'.currentError = ERROR_OVERTEMP ∧
        m'.userInput = (heating (F.fin 105)).userInput ∧
        m'.pidController = (heating (F.fin 105)).pidController ∧
        m'.pidController.getTargetTemp = (heating (F.fin 105)).pidController.getTargetTemp ∧
        m'.pidController.getOutput = (heating (F.fin 105)).pidController.getOutput ∧
        m'.pwmController = (heating (F.fin 105)).pwmController.emergencyStop ∧
        (m'.pwmController.dutyCycle = (heating (F.fin 105)).pwmController.dutyCycle ∨
          m'.pwmController.dutyCycle = 0) ∧
        m'.menuSelection = (heating (F.fin 105)).menuSelection ∧
        m'.calibrationOffset = (heating (F.fin 105)).calibrationOffset ∧
        m'.eeprom = (heating (F.fin 105)).eeprom :=
  ⟨rfl, by decide, by decide,
    c1_safety_error_skips_handler F.f32 (heating (F.fin 105)) Tick.quiet ERROR_OVERTEMP rfl
      (by decide) (by decide)⟩

/-- C3: in every state, when the watchdog flag is set at the start of a tick,
`update()` ends in Error with error kind SystemFault, after calling
`emergencyStop()` on the gate (stored duty 0, disabled, output 0 when the gate
is initialised), with the flag cleared; neither the safety checks nor a handler
ran: the sensor object, the user-input object, the PID controller, the menu
selection, the working calibration offset and the store are untouched. -/
theorem c3_watchdog_forces_system_fault (rnd : ℚ → F) (m : StateMachine) (k : Tick)
    (h : m.g_watchdogTriggered = true) :
    ∃ m', update rnd m k = some m' ∧ m'.currentState = STATE_ERROR ∧
      m'.currentError = ERROR_SYSTEM ∧
      m'.pwmController = m.pwmController.emergencyStop ∧
      (m.pwmController.initialized = true →
        m'.pwmController.dutyCycle = 0 ∧ m'.pwmController.enabled = false ∧
          m'.pwmController.ledc = 0) ∧
      m'.g_watchdogTriggered = false ∧
      m'.tempSensor = m.tempSensor ∧ m'.userInput = m.userInput ∧
      m'.pidController = m.pidController ∧ m'.menuSelection = m.menuSelection ∧
      m'.calibrationOffset = m.calibrationOffset ∧ m'.eeprom = m.eeprom := by
  refine ⟨_, update_of_watchdog rnd m k h, ?_⟩
  obtain ⟨h1, h2, h3, h4, h5, -, h7, h8, h9, h10, h11⟩ := setError_fields
    ({ m.resetWatchdog with g_watchdogTriggered := false }) ERROR_SYSTEM "Watchdog triggered"
  obtain ⟨-, -, -, r4, r5, r6, -, r8, r9, r10, -, r12⟩ := resetWatchdog_fields m
  simp only [] at h3 h4 h5 h7 h8 h9 h10 h11
  refine ⟨h1, h2, h5.trans (by rw [r6]), ?_, h10, h3.trans r4, h7.trans r8, h4.trans r5,
    h8.trans r9, h9.trans r10, h11.trans r12⟩
  intro hi
  rw [h5, r6, PWMController.emergencyStop_of_initialized _ hi]
  exact ⟨rfl, rfl, rfl⟩

/-- C3 at a heating system (25 degrees, gate enabled at duty 500) on which the
watchdog interrupt has fired. -/
theorem c3_watchdog_forces_system_fault_witness :
    (heating (F.fin 25)).watchdogInterrupt.g_watchdogTriggered = true ∧
      ∃ m', update F.f32 (heating (F.fin 25)).watchdogInterrupt Tick.quiet = some m' ∧
        m'.currentState = STATE_ERROR ∧ m'.currentError = ERROR_SYSTEM ∧
        m'.pwmController = (heating (F.fin 25)).watchdogInterrupt.pwmController.emergencyStop ∧
        ((heating (F.fin 25)).watchdogInterrupt.pwmController.initialized = true →
          m'.pwmController.dutyCycle = 0 ∧ m'.pwmController.enabled = false ∧
            m'.pwmController.ledc = 0) ∧
        m'.g_watchdogTriggered = false ∧
        m'.tempSensor = (heating (F.fin 25)).watchdogInterrupt.tempSensor ∧
        m'.userInput = (heating (F.fin 25)).watchdogInterrupt.userInput ∧
        m'.pidController = (heating (F.fin 25)).watchdogInterrupt.pidController ∧
        m'.menuSelection = (heating (F.fin 25)).watchdogInterrupt.menuSelection ∧
        m'.calibrationOffset = (heating (F.fin 25)).watchdogInterrupt.calibrationOffset ∧
        m'.eeprom = (heating (F.fin 25)).watchdogInterrupt.eeprom :=
  ⟨rfl, c3_watchdog_forces_system_fault F.f32 _ Tick.quiet rfl⟩

/-- C2, as stated, fails in three ways.  The reading is above
`TEMP_PROTECTION_MAX` each time.  (a) At a reading of 115 the sensor check
fails first and the error kind is SensorFault.  (b) At 105 with the watchdog
flag set the error kind is SystemFault.  (c) At 105 over a gate on which
`begin()` was never called, the stored duty stays 500. -/
theorem c2_overtemp_counterexamples :
    (F.gt ((TempSensor.holding (F.fin 115)).readTemperature F.f32 1050 (F.fin 25)).1
        TEMP_PROTECTION_MAX = true ∧
      (update F.f32 (heating (F.fin 115)) Tick.quiet).map outcome
        = some (STATE_ERROR, ERROR_TEMP_SENSOR, 0, false, 0)) ∧
    (F.gt ((TempSensor.holding (F.fin 105)).readTemperature F.f32 1050 (F.fin 25)).1
        TEMP_PROTECTION_MAX = true ∧
      (update F.f32 (heating (F.fin 105)).watchdogInterrupt Tick.quiet).map outcome
        = some (STATE_ERROR, ERROR_SYSTEM, 0, false, 0)) ∧
    (update F.f32 (heatingUnbegun (F.fin 105)) Tick.quiet).map outcome
        = some (STATE_ERROR, ERROR_OVERTEMP, 500, false, 0) := by
  refine ⟨⟨by decide, by decide⟩, ⟨by decide, by decide⟩, by decide⟩

/-- C2, amended: for every prior state, if the watchdog flag is clear, the
sensor check passes and the reading that the over-temperature comparison then
obtains is above `TEMP_PROTECTION_MAX`, the tick ends in Error with error kind
OverTemperature and the gate has been through `emergencyStop()`; over an
initialised gate the stored duty is 0, the actuator is disabled and the
physical output is 0. -/
theorem c2_overtemp_forces_error (rnd : ℚ → F) (m : StateMachine) (k : Tick)
    (hw : m.g_watchdogTriggered = false)
    (hc : (m.tempSensor.checkSensor rnd k.check.now k.check.ntc).1 = true)
    (hr : F.gt (((m.tempSensor.checkSensor rnd k.check.now k.check.ntc).2).readTemperature
            rnd k.safety.now k.safety.ntc).1 TEMP_PROTECTION_MAX = true) :
    ∃ m', update rnd m k = some m' ∧ m'.currentState = STATE_ERROR ∧
      m'.currentError = ERROR_OVERTEMP ∧
      m'.pwmController = m.pwmController.emergencyStop ∧
      (m.pwmController.initialized = true →
        m'.pwmController.dutyCycle = 0 ∧ m'.pwmController.enabled = false ∧
          m'.pwmController.ledc = 0) := by
  have hs : (performSafetyChecks rnd m.tempSensor k).1 = ERROR_OVERTEMP := by
    simp [performSafetyChecks, hc, hr]
  have hne : (performSafetyChecks rnd m.tempSensor k).1 ≠ ERROR_NONE := by
    rw [hs]; decide
  refine ⟨_, update_of_safety_error rnd m k hw hne, ?_⟩
  obtain ⟨h1, h2, -, -, h5, -⟩ := setError_fields
    ({ m.resetWatchdog with tempSensor := (performSafetyChecks rnd m.tempSensor k).2 })
    (performSafetyChecks rnd m.tempSensor k).1
    (safetyMessage (performSafetyChecks rnd m.tempSensor k).1)
  obtain ⟨-, -, -, -, -, r6, -⟩ := resetWatchdog_fields m
  simp only [] at h5
  refine ⟨h1, h2.trans hs, h5.trans (by rw [r6]), ?_⟩
  intro hi
  rw [h5, r6, PWMController.emergencyStop_of_initialized _ hi]
  exact ⟨rfl, rfl, rfl⟩

/-- C2, amended, at a heating system whose sensor holds 105 degrees. -/
theorem c2_overtemp_forces_error_witness :
    (heating (F.fin 105)).g_watchdogTriggered = false ∧
      ((heating (F.fin 105)).tempSensor.checkSensor F.f32 Tick.quiet.check.now
        Tick.quiet.check.ntc).1 = true ∧
      ∃ m', update F.f32 (heating (F.fin 105)) Tick.quiet = some m' ∧
        m'.currentState = STATE_ERROR ∧ m'.currentError = ERROR_OVERTEMP ∧
        m'.pwmController = (heating (F.fin 105)).pwmController.emergencyStop ∧
        ((heating (F.fin 105)).pwmController.initialized = true →
          m'.pwmController.dutyCycle = 0 ∧ m'.pwmController.enabled = false ∧
            m'.pwmController.ledc = 0) :=
  ⟨rfl, by decide,
    c2_overtemp_forces_error F.f32 (heating (F.fin 105)) Tick.quiet rfl (by decide)
      (by decide)⟩

/-! ### The gate under a tick -/

theorem setState_gate (P : PWMController → Prop) (hP : PWMController.Closed P) (m : StateMachine)
    (n : SystemState) (h : P m.pwmController) : P (m.setState n).pwmController := by
  unfold setState
  split
  · cases n <;> first | exact h | exact (hP _ h).2.2.1 | exact (hP _ h).2.1
  · exact h

theorem setError_gate (P : PWMController → Prop) (hP : PWMController.Closed P) (m : StateMachine)
    (e : ErrorCode) (msg : String) (h : P m.pwmController) :
    P (m.setError e msg).pwmController := by
  rw [(setError_fields m e msg).2.2.2.2.1]
  exact (hP _ h).2.2.2

theorem pollEvent_pwm (m : StateMachine) (k : Tick) :
    (m.pollEvent k).2.pwmController = m.pwmController := rfl

theorem saveSettings_pwm (rnd : ℚ → F) (m : StateMachine) (b : Bool) :
    (m.saveSettings rnd b).pwmController = m.pwmController := rfl

theorem handleIdleState_gate (P : PWMController → Prop) (hP : PWMController.Closed P)
    (rnd : ℚ → F) (m : StateMachine) (k : Tick) (h : P m.pwmController) :
    P (m.handleIdleState rnd k).pwmController := by
  unfold handleIdleState
  dsimp only
  split <;> first
    | exact setState_gate P hP _ _ h
    | exact h

theorem handleWorkingState_gate (P : PWMController → Prop) (hP : PWMController.Closed P)
    (rnd : ℚ → F) (m m' : StateMachine) (k : Tick) (h : P m.pwmController)
    (hu : m.handleWorkingState rnd k = some m') : P m'.pwmController := by
  unfold handleWorkingState at hu
  dsimp only at hu
  split at hu
  · exact absurd hu (by simp)
  · rename_i c hc
    split at hu <;> simp only [Option.some.injEq] at hu <;> subst hu
    · refine setState_gate P hP _ _ ?_
      refine (hP _ ?_).2.2.1
      simp only [pollEvent_pwm]
      split <;> first | exact (hP _ h).1 _ | exact h
    · refine setState_gate P hP _ _ ?_
      refine (hP _ ?_).2.2.1
      simp only [pollEvent_pwm]
      split <;> first | exact (hP _ h).1 _ | exact h
    all_goals
      simp only [pollEvent_pwm]
      split <;> first | exact (hP _ h).1 _ | exact h

theorem handleCalibrationState_gate (P : PWMController → Prop)
    (hP : PWMController.Closed P) (rnd : ℚ → F) (m : StateMachine) (k : Tick)
    (h : P m.pwmController) : P (m.handleCalibrationState rnd k).pwmController := by
  unfold handleCalibrationState
  dsimp only
  split <;> first
    | exact setState_gate P hP _ _ h
    | exact h

theorem handleMenuState_gate (P : PWMController → Prop) (hP : PWMController.Closed P)
    (rnd : ℚ → F) (m : StateMachine) (k : Tick) (h : P m.pwmController) :
    P (m.handleMenuState rnd k).pwmController := by
  unfold handleMenuState
  dsimp only
  split
  · split <;> first
      | exact setState_gate P hP _ _ h
      | exact h
  all_goals first
    | exact setState_gate P hP _ _ h
    | exact h

theorem handleErrorState_gate (P : PWMController → Prop) (hP : PWMController.Closed P)
    (m : StateMachine) (k : Tick) (h : P m.pwmController) :
    P (m.handleErrorState k).pwmController := by
  unfold handleErrorState
  dsimp only
  split
  · exact setState_gate P hP _ _ (hP _ h).2.2.2
  · exact (hP _ h).2.2.2

theorem dispatch_gate (P : PWMController → Prop) (hP : PWMController.Closed P)
    (rnd : ℚ → F) (m m' : StateMachine) (k : Tick) (h : P m.pwmController)
    (hu : m.dispatch rnd k = some m') : P m'.pwmController := by
  unfold dispatch at hu
  split at hu
  · simp only [Option.some.injEq] at hu; subst hu
    exact handleIdleState_gate P hP rnd m k h
  · exact handleWorkingState_gate P hP rnd m m' k h hu
  · simp only [Option.some.injEq] at hu; subst hu
    exact handleCalibrationState_gate P hP rnd m k h
  · simp only [Option.some.injEq] at hu; subst hu
    exact handleMenuState_gate P hP rnd m k h
  · simp only [Option.some.injEq] at hu; subst hu
    exact handleErrorState_gate P hP m k h

/-- A tick acts on the gate only through `setDutyCycle`, `enable`, `disable`
and `emergencyStop`: every property those four calls preserve survives the
tick. -/
theorem update_gate (P : PWMController → Prop) (hP : PWMController.Closed P)
    (rnd : ℚ → F) (m m' : StateMachine) (k : Tick) (h : P m.pwmController)
    (hu : update rnd m k = some m') : P m'.pwmController := by
  have hr : P m.resetWatchdog.pwmController := by
    rw [(resetWatchdog_fields m).2.2.2.2.2.1]; exact h
  unfold update at hu
  dsimp only at hu
  split at hu
  · simp only [Option.some.injEq] at hu; subst hu
    exact setError_gate P hP _ _ _ hr
  · split at hu
    · simp only [Option.some.injEq] at hu; subst hu
      exact setError_gate P hP _ _ _ hr
    · exact dispatch_gate P hP rnd _ m' k (by exact hr) hu

/-- The method `begin()` acts on the gate only through `disable` and
`emergencyStop`. -/
theorem begin_gate (P : PWMController → Prop) (hP : PWMController.Closed P)
    (rnd : ℚ → F) (m : StateMachine) (k : Sample) (h : P m.pwmController) :
    P (m.begin rnd k).2.pwmController := by
  unfold begin
  dsimp only
  split
  · exact setError_gate P hP _ _ _ h
  · exact setState_gate P hP _ _ h

theorem consistent_closed : PWMController.Closed PWMController.Consistent :=
  fun g h => ⟨fun d => PWMController.consistent_setDutyCycle g d h,
    PWMController.consistent_enable g h, PWMController.consistent_disable g h,
    PWMController.consistent_emergencyStop g h⟩

theorem gateReach_consistent (rnd : ℚ → F) (m : StateMachine) (h : GateReach rnd m) :
    m.pwmController.Consistent := by
  induction h with
  | fresh m h0 => rw [h0]; exact PWMController.consistent_new
  | op m o _ ih => exact PWMController.consistent_step _ o ih
  | begin m k _ ih => exact begin_gate _ consistent_closed rnd m k ih
  | tick m m' k _ hu ih => exact update_gate _ consistent_closed rnd m m' k ih hu
  | other m m' _ he ih => rw [he]; exact ih

/-- C6, as stated, fails.  On a fresh gate `setDutyCycle(500)` leaves the gate
disabled with stored duty 500.  And from Working with the gate enabled, a tick
in which the PID sets the duty to 300 and the user completes a double click
ends in Idle with the gate disabled, the physical output 0 and the stored duty
still 300. -/
theorem c6_stored_duty_survives_disable :
    ((PWMController.new.setDutyCycle 500).enabled = false ∧
      (PWMController.new.setDutyCycle 500).getDutyCycle = 500) ∧
    (heatingDoubleClick.currentState = STATE_WORKING ∧
      heatingDoubleClick.pwmController.enabled = true ∧
      (UserInput.getEvent (heatingDoubleClick.userInput.update 1050 false 0) 1050).1
        = EV_DOUBLE_CLICK ∧
      (update F.f32 heatingDoubleClick Tick.pid300).map outcome
        = some (STATE_IDLE, ERROR_NONE, 300, false, 0)) := by
  refine ⟨⟨by decide, by decide⟩, by decide, by decide, by decide, by decide⟩

theorem disable_of_consistent (g : PWMController) (h : g.Consistent) :
    g.disable.enabled = false ∧ g.disable.ledc = 0 := by
  obtain ⟨h1, h2⟩ := h
  cases hi : g.initialized <;> cases he : g.enabled <;>
    simp_all [PWMController.disable]

/-- C6, amended: in every state reached from a fresh gate through the gate's
operations, `begin()` and the state machine's ticks, the physical output is 0
whenever `enabled` is false, and is the stored duty whenever `enabled` is
true; in particular a transition into Idle from there leaves the gate disabled
and the physical output 0. -/
theorem c6_disabled_gate_outputs_zero (rnd : ℚ → F) (m : StateMachine)
    (h : GateReach rnd m) :
    (m.pwmController.enabled = false → m.pwmController.ledc = 0) ∧
      (m.pwmController.enabled = true → m.pwmController.ledc = m.pwmController.dutyCycle) ∧
      (m.currentState ≠ STATE_IDLE →
        (m.setState STATE_IDLE).currentState = STATE_IDLE ∧
          (m.setState STATE_IDLE).pwmController.enabled = false ∧
          (m.setState STATE_IDLE).pwmController.ledc = 0) := by
  have hc := gateReach_consistent rnd m h
  obtain ⟨-, h2⟩ := hc
  refine ⟨?_, ?_, ?_⟩
  · intro he; rw [h2, he]; rfl
  · intro he; rw [h2, he]; rfl
  · intro hs
    have hs' : STATE_IDLE ≠ m.currentState := fun e => hs e.symm
    have hd := disable_of_consistent m.pwmController (gateReach_consistent rnd m h)
    have e : m.setState STATE_IDLE =
        { m with previousState := m.currentState, currentState := STATE_IDLE,
                 pwmController := m.pwmController.disable } := by
      simp [setState, hs']
    rw [e]
    exact ⟨rfl, hd.1, hd.2⟩

/-- C6, amended, at the heating system (state Working, gate enabled at duty
500), which is reached from a fresh gate by `begin`, `enable` and
`setDutyCycle(500)`. -/
theorem c6_disabled_gate_outputs_zero_witness :
    GateReach F.f32 heatingDoubleClick ∧
      (heatingDoubleClick.pwmController.enabled = false →
        heatingDoubleClick.pwmController.ledc = 0) ∧
      (heatingDoubleClick.pwmController.enabled = true →
        heatingDoubleClick.pwmController.ledc = heatingDoubleClick.pwmController.dutyCycle) ∧
      (heatingDoubleClick.currentState ≠ STATE_IDLE →
        (heatingDoubleClick.setState STATE_IDLE).currentState = STATE_IDLE ∧
          (heatingDoubleClick.setState STATE_IDLE).pwmController.enabled = false ∧
          (heatingDoubleClick.setState STATE_IDLE).pwmController.ledc = 0) :=
  have hr : GateReach F.f32 heatingDoubleClick :=
    GateReach.op _ (.setDutyCycle 500)
      (GateReach.op _ .enable
        (GateReach.op _ .begin
          (GateReach.fresh { heatingDoubleClick with pwmController := PWMController.new }
            rfl)))
  ⟨hr, c6_disabled_gate_outputs_zero F.f32 heatingDoubleClick hr⟩

end StateMachine

/-! ## Theorems: the target setter and the settings store -/

namespace F

theorem invalid_eq_not_within (x : F) (lo hi : ℚ) :
    (x.isnan || F.lt x (F.fin lo) || F.gt x (F.fin hi)) = !x.within lo hi := by
  cases x with
  | nan => rfl
  | ninf => rfl
  | pinf => rfl
  | fin q =>
    simp only [isnan, F.lt, F.gt, within, Bool.false_or]
    by_cases h1 : q < lo
    · have : ¬ lo ≤ q := not_le.mpr h1
      simp [h1, this]
    · by_cases h2 : hi < q
      · have : ¬ q ≤ hi := not_le.mpr h2
        simp [h2, this]
      · simp [h1, h2, not_lt.mp h1, not_lt.mp h2]

theorem within_not_nan (x : F) (lo hi : ℚ) (h : x.within lo hi = true) : x.isnan = false := by
  cases x <;> simp_all [within, isnan]

theorem within_le (x : F) (lo hi : ℚ) (h : x.within lo hi = true) :
    F.le (F.fin lo) x = true ∧ F.le x (F.fin hi) = true := by
  cases x <;> simp_all [within, F.le]

end F

namespace PIDController

/-- Away from NaN the setter clamps: the stored target is a number in
`[TEMP_MIN, TEMP_MAX]` or the argument itself. -/
theorem setTargetTemp_clamps (p : PIDController) (t : F) (h : t.isnan = false) :
    (p.setTargetTemp t).getTargetTemp.within 0 100 = true ∧
      (t.within 0 100 = true → (p.setTargetTemp t).getTargetTemp = t) ∧
      (F.lt t TEMP_MIN = true → (p.setTargetTemp t).getTargetTemp = TEMP_MIN) ∧
      (F.gt t TEMP_MAX = true → (p.setTargetTemp t).getTargetTemp = TEMP_MAX) := by
  cases t with
  | nan => simp [F.isnan] at h
  | ninf => simp [setTargetTemp, getTargetTemp, F.lt, F.gt, F.within, TEMP_MIN, TEMP_MAX]
  | pinf => simp [setTargetTemp, getTargetTemp, F.lt, F.gt, F.within, TEMP_MIN, TEMP_MAX]
  | fin q =>
    simp only [setTargetTemp, getTargetTemp, F.lt, F.gt, F.within, TEMP_MIN, TEMP_MAX]
    by_cases h1 : q < 0
    · have : ¬ (0 ≤ q ∧ q ≤ 100) := fun hh => absurd hh.1 (not_le.mpr h1)
      have h3 : q ≤ 100 := by linarith
      simp [h1, this, h3]
    · by_cases h2 : (100 : ℚ) < q
      · have : ¬ (0 ≤ q ∧ q ≤ 100) := fun hh => absurd hh.2 (not_le.mpr h2)
        simp [h1, h2, this]
      · simp [h1, h2, not_lt.mp h1, not_lt.mp h2]

/-- C7 at the failing input: `setTargetTemp(NaN)` stores NaN, which is
neither at least `TEMP_MIN` nor at most `TEMP_MAX`, and is none of the three
values the claim allows. -/
theorem c7_setTargetTemp_nan_not_clamped (p : PIDController) :
    (p.setTargetTemp F.nan).getTargetTemp = F.nan ∧
      F.le TEMP_MIN (p.setTargetTemp F.nan).getTargetTemp = false ∧
      F.le (p.setTargetTemp F.nan).getTargetTemp TEMP_MAX = false := by
  refine ⟨rfl, rfl, rfl⟩

end PIDController

namespace StateMachine

theorem bad_gains_eq (a1 a2 a3 b1 c1 b2 c2 b3 c3 : Bool) :
    (a1 || a2 || a3 || b1 || c1 || b2 || c2 || b3 || c3) =
      !(!(a1 || b1 || c1) && !(a2 || b2 || c2) && !(a3 || b3 || c3)) := by
  cases a1 <;> cases a2 <;> cases a3 <;> cases b1 <;> cases c1 <;> cases b2 <;>
    cases c2 <;> cases b3 <;> cases c3 <;> rfl

/-- The gains `loadSettings` rejects are those of which one is not a number
inside its range. -/
theorem bad_gains_eq_not_within (kp ki kd : F) :
    (kp.isnan || ki.isnan || kd.isnan ||
      F.lt kp LIT_0_01 || F.gt kp (F.fin 1000) ||
      F.lt ki (F.fin 0) || F.gt ki (F.fin 1000) ||
      F.lt kd (F.fin 0) || F.gt kd (F.fin 1000)) =
      !(kp.within KP_MIN 1000 && ki.within 0 1000 && kd.within 0 1000) := by
  rw [bad_gains_eq, LIT_0_01, F.invalid_eq_not_within, F.invalid_eq_not_within,
    F.invalid_eq_not_within]
  simp

theorem setTargetTemp_of_within (p : PIDController) (t : F) (h : t.within 0 100 = true) :
    p.setTargetTemp t = { p with setpoint := t } := by
  have h1 := (PIDController.setTargetTemp_clamps p t (F.within_not_nan t 0 100 h)).2.1 h
  unfold PIDController.getTargetTemp at h1
  unfold PIDController.setTargetTemp at h1 ⊢
  simp only at h1 ⊢
  rw [h1]

/-- What `loadSettings` leaves in the PID controller, the sensor and the
working offset, as a function of the five stored values. -/
theorem loadSettings_fields (m : StateMachine) :
    m.loadSettings.pidController.getTunings =
        (if (m.eeprom.get EEPROM_PID_KP_ADDR).within KP_MIN 1000 &&
            (m.eeprom.get EEPROM_PID_KI_ADDR).within 0 1000 &&
            (m.eeprom.get EEPROM_PID_KD_ADDR).within 0 1000
          then (m.eeprom.get EEPROM_PID_KP_ADDR, m.eeprom.get EEPROM_PID_KI_ADDR,
            m.eeprom.get EEPROM_PID_KD_ADDR)
          else (PID_KP_DEFAULT, PID_KI_DEFAULT, PID_KD_DEFAULT)) ∧
      m.loadSettings.pidController.getTargetTemp =
        (if (m.eeprom.get EEPROM_TARGET_TEMP_ADDR).within 0 100
          then m.eeprom.get EEPROM_TARGET_TEMP_ADDR else TEMP_DEFAULT) ∧
      m.loadSettings.tempSensor.getCalibration =
        (if (m.eeprom.get EEPROM_TEMP_CALIBRATION_ADDR).within (-10) 10
          then m.eeprom.get EEPROM_TEMP_CALIBRATION_ADDR else F.fin 0) ∧
      m.loadSettings.calibrationOffset = m.loadSettings.tempSensor.getCalibration := by
  have hg := bad_gains_eq_not_within (m.eeprom.get EEPROM_PID_KP_ADDR)
    (m.eeprom.get EEPROM_PID_KI_ADDR) (m.eeprom.get EEPROM_PID_KD_ADDR)
  have ht : ((m.eeprom.get EEPROM_TARGET_TEMP_ADDR).isnan ||
      F.lt (m.eeprom.get EEPROM_TARGET_TEMP_ADDR) TEMP_MIN ||
      F.gt (m.eeprom.get EEPROM_TARGET_TEMP_ADDR) TEMP_MAX) =
      !(m.eeprom.get EEPROM_TARGET_TEMP_ADDR).within 0 100 :=
    F.invalid_eq_not_within _ 0 100
  have hc : ((m.eeprom.get EEPROM_TEMP_CALIBRATION_ADDR).isnan ||
      F.lt (m.eeprom.get EEPROM_TEMP_CALIBRATION_ADDR) (F.fin (-10)) ||
      F.gt (m.eeprom.get EEPROM_TEMP_CALIBRATION_ADDR) (F.fin 10)) =
      !(m.eeprom.get EEPROM_TEMP_CALIBRATION_ADDR).within (-10) 10 :=
    F.invalid_eq_not_within _ (-10) 10
  unfold loadSettings
  simp only [hg, ht, hc]
  refine ⟨?_, ?_, ?_, rfl⟩
  · cases hb : ((m.eeprom.get EEPROM_PID_KP_ADDR).within KP_MIN 1000 &&
        (m.eeprom.get EEPROM_PID_KI_ADDR).within 0 1000 &&
        (m.eeprom.get EEPROM_PID_KD_ADDR).within 0 1000) <;>
      cases hp : m.pidController.pid <;>
      simp [PIDController.getTunings, PIDController.setTunings, PIDController.setTargetTemp, hp]
  · cases hb : (m.eeprom.get EEPROM_TARGET_TEMP_ADDR).within 0 100
    · have hd : TEMP_DEFAULT.within 0 100 = true := by
        simp [TEMP_DEFAULT, F.within]; norm_num
      simp [setTargetTemp_of_within _ _ hd, PIDController.getTargetTemp]
    · simp [setTargetTemp_of_within _ _ hb, PIDController.getTargetTemp]
  · cases hb : (m.eeprom.get EEPROM_TEMP_CALIBRATION_ADDR).within (-10) 10 <;>
      simp [TempSensor.getCalibration, TempSensor.setCalibration]

/-- C8, as stated, fails: with a NaN proportional gain in the store and the
valid gains 2 and 3 next to it, `loadSettings` replaces all three gains by the
defaults; the valid integral and derivative gains are not loaded. -/
theorem c8_nan_kp_discards_valid_ki_kd :
    ((fresh EEPROM.nanKp).eeprom.get EEPROM_PID_KI_ADDR = F.fin 2 ∧
      (fresh EEPROM.nanKp).eeprom.get EEPROM_PID_KD_ADDR = F.fin 3) ∧
    ((F.fin 2).within 0 1000 = true ∧ (F.fin 3).within 0 1000 = true) ∧
    (fresh EEPROM.nanKp).loadSettings.pidController.getTunings
        = (PID_KP_DEFAULT, PID_KI_DEFAULT, PID_KD_DEFAULT) ∧
    (fresh EEPROM.nanKp).loadSettings.pidController.ki ≠ F.fin 2 ∧
    (fresh EEPROM.nanKp).loadSettings.pidController.kd ≠ F.fin 3 := by
  refine ⟨⟨rfl, rfl⟩, ⟨by decide, by decide⟩, rfl, by decide!, by decide⟩

/-- C8, amended: `loadSettings` validates the three gains together, and the
target temperature and the calibration offset each on its own.  If each gain
is a number in its range (`kp` in `[0.01f, 1000]`, `ki` and `kd` in
`[0, 1000]`) the three are loaded unchanged, otherwise all three take their
defaults; the target is loaded unchanged if it is a number in
`[TEMP_MIN, TEMP_MAX]` and is `TEMP_DEFAULT` otherwise; the calibration is
loaded unchanged if it is a number in `[-10, 10]` and is 0 otherwise; neither
depends on any other slot. -/
theorem c8_loadSettings_validation (m : StateMachine) :
    m.loadSettings.pidController.getTunings =
        (if (m.eeprom.get EEPROM_PID_KP_ADDR).within KP_MIN 1000 &&
            (m.eeprom.get EEPROM_PID_KI_ADDR).within 0 1000 &&
            (m.eeprom.get EEPROM_PID_KD_ADDR).within 0 1000
          then (m.eeprom.get EEPROM_PID_KP_ADDR, m.eeprom.get EEPROM_PID_KI_ADDR,
            m.eeprom.get EEPROM_PID_KD_ADDR)
          else (PID_KP_DEFAULT, PID_KI_DEFAULT, PID_KD_DEFAULT)) ∧
      m.loadSettings.pidController.getTargetTemp =
        (if (m.eeprom.get EEPROM_TARGET_TEMP_ADDR).within 0 100
          then m.eeprom.get EEPROM_TARGET_TEMP_ADDR else TEMP_DEFAULT) ∧
      m.loadSettings.tempSensor.getCalibration =
        (if (m.eeprom.get EEPROM_TEMP_CALIBRATION_ADDR).within (-10) 10
          then m.eeprom.get EEPROM_TEMP_CALIBRATION_ADDR else F.fin 0) := by
  obtain ⟨h1, h2, h3, -⟩ := loadSettings_fields m
  exact ⟨h1, h2, h3⟩

theorem defaults_within :
    PID_KP_DEFAULT.within KP_MIN 1000 = true ∧ PID_KI_DEFAULT.within 0 1000 = true ∧
      PID_KD_DEFAULT.within 0 1000 = true ∧ TEMP_DEFAULT.within 0 100 = true ∧
      (F.fin 0).within (-10) 10 = true := by
  simp only [PID_KP_DEFAULT, PID_KI_DEFAULT, PID_KD_DEFAULT, TEMP_DEFAULT, LIT_0_1, KP_MIN,
    F.within, decide_eq_true_eq]
  norm_num

theorem setTunings_lib (p : PIDController) (kp ki kd : F) (l : PIDLib)
    (h : (p.setTunings kp ki kd).pid = some l) :
    l.kp = (p.setTunings kp ki kd).kp ∧ l.ki = (p.setTunings kp ki kd).ki ∧
      l.kd = (p.setTunings kp ki kd).kd := by
  unfold PIDController.setTunings at h
  cases hp : p.pid with
  | none => simp [hp] at h
  | some l0 =>
    simp only [hp, Option.some.injEq] at h
    subst h
    simp [PIDController.setTunings, hp]

/-- C9, as stated, fails at the lower end of the `kp` envelope: the bound the
code tests is the `float` literal `0.01f`, which is below one hundredth, so a
stored gain of `0.01f` is accepted and the gain in use, `0.01f`, lies outside
`[0.01, 1000]`. -/
theorem c9_lowest_gain_below_one_hundredth :
    (StateMachine.fresh EEPROM.kpLowest).loadSettings.pidController.kp = LIT_0_01 ∧
      KP_MIN < 1 / 100 ∧
      (StateMachine.fresh EEPROM.kpLowest).loadSettings.pidController.kp.within (1 / 100) 1000
        = false ∧
      (StateMachine.fresh EEPROM.kpLowest).loadSettings.pidController.kp.within KP_MIN 1000
        = true := by
  refine ⟨by decide!, by decide!, by decide!, by decide!⟩

/-- C9, amended: whatever the five slots of the store hold, after `loadSettings` each
parameter in use is a number inside its envelope (so none is NaN): `kp` in
`[0.01f, 1000]`, `ki` and `kd` in `[0, 1000]`, the target in
`[TEMP_MIN, TEMP_MAX]`, the sensor calibration offset in `[-10, 10]`; the
working `calibrationOffset` equals the sensor calibration offset; and a PID
library object, when there is one, has been handed the same three gains. -/
theorem c9_loadSettings_envelope (m : StateMachine) :
    (m.loadSettings.pidController.kp.within KP_MIN 1000 = true ∧
      m.loadSettings.pidController.ki.within 0 1000 = true ∧
      m.loadSettings.pidController.kd.within 0 1000 = true ∧
      m.loadSettings.pidController.getTargetTemp.within 0 100 = true ∧
      m.loadSettings.tempSensor.getCalibration.within (-10) 10 = true) ∧
    (m.loadSettings.pidController.kp.isnan = false ∧
      m.loadSettings.pidController.ki.isnan = false ∧
      m.loadSettings.pidController.kd.isnan = false ∧
      m.loadSettings.pidController.getTargetTemp.isnan = false ∧
      m.loadSettings.tempSensor.getCalibration.isnan = false) ∧
    m.loadSettings.calibrationOffset = m.loadSettings.tempSensor.getCalibration ∧
    (∀ l, m.loadSettings.pidController.pid = some l →
      l.kp = m.loadSettings.pidController.kp ∧ l.ki = m.loadSettings.pidController.ki ∧
        l.kd = m.loadSettings.pidController.kd) := by
  obtain ⟨h1, h2, h3, h4⟩ := loadSettings_fields m
  obtain ⟨d1, d2, d3, d4, d5⟩ := defaults_within
  have e : (m.loadSettings.pidController.kp.within KP_MIN 1000 = true ∧
      m.loadSettings.pidController.ki.within 0 1000 = true ∧
      m.loadSettings.pidController.kd.within 0 1000 = true ∧
      m.loadSettings.pidController.getTargetTemp.within 0 100 = true ∧
      m.loadSettings.tempSensor.getCalibration.within (-10) 10 = true) := by
    have hk : m.loadSettings.pidController.kp.within KP_MIN 1000 = true ∧
        m.loadSettings.pidController.ki.within 0 1000 = true ∧
        m.loadSettings.pidController.kd.within 0 1000 = true := by
      have hk1 : m.loadSettings.pidController.kp = m.loadSettings.pidController.getTunings.1 := rfl
      have hk2 : m.loadSettings.pidController.ki = m.loadSettings.pidController.getTunings.2.1 :=
        rfl
      have hk3 : m.loadSettings.pidController.kd = m.loadSettings.pidController.getTunings.2.2 :=
        rfl
      rw [hk1, hk2, hk3, h1]
      split
      · rename_i hb
        simp only [Bool.and_eq_true] at hb
        exact ⟨hb.1.1, hb.1.2, hb.2⟩
      · exact ⟨d1, d2, d3⟩
    refine ⟨hk.1, hk.2.1, hk.2.2, ?_, ?_⟩
    · rw [h2]; split
      · assumption
      · exact d4
    · rw [h3]; split
      · assumption
      · exact d5
  refine ⟨e, ⟨F.within_not_nan _ _ _ e.1, F.within_not_nan _ _ _ e.2.1,
    F.within_not_nan _ _ _ e.2.2.1, F.within_not_nan _ _ _ e.2.2.2.1,
    F.within_not_nan _ _ _ e.2.2.2.2⟩, h4, ?_⟩
  intro l hl
  exact setTunings_lib _ _ _ _ l hl

/-- What `saveSettings` leaves in the five slots of the store. -/
theorem saveSettings_slots (rnd : ℚ → F) (m : StateMachine) (b : Bool) :
    (m.saveSettings rnd b).eeprom.get EEPROM_PID_KP_ADDR = F.narrow rnd m.pidController.kp ∧
      (m.saveSettings rnd b).eeprom.get EEPROM_PID_KI_ADDR = F.narrow rnd m.pidController.ki ∧
      (m.saveSettings rnd b).eeprom.get EEPROM_PID_KD_ADDR = F.narrow rnd m.pidController.kd ∧
      (m.saveSettings rnd b).eeprom.get EEPROM_TARGET_TEMP_ADDR
        = F.narrow rnd m.pidController.setpoint ∧
      (m.saveSettings rnd b).eeprom.get EEPROM_TEMP_CALIBRATION_ADDR
        = m.tempSensor.tempOffset := by
  cases b <;>
    simp [saveSettings, EEPROM.get, EEPROM.put, EEPROM.commit, Function.update,
      PIDController.getTunings, PIDController.getTargetTemp, TempSensor.getCalibration,
      EEPROM_PID_KP_ADDR, EEPROM_PID_KI_ADDR, EEPROM_PID_KD_ADDR, EEPROM_TARGET_TEMP_ADDR,
      EEPROM_TEMP_CALIBRATION_ADDR]

/-- C10, as stated, fails: with the in-memory proportional gain `1 + 2^-30`
(inside `[0.01, 1000]`), `saveSettings` stores the gain narrowed to binary32,
which is 1, and `loadSettings` restores 1. -/
theorem c10_round_trip_narrows_gain :
    fineGain.pidController.kp = F.fin (1073741825 / 1073741824) ∧
      fineGain.pidController.kp.within KP_MIN 1000 = true ∧
      fineGain.pidController.ki.within 0 1000 = true ∧
      fineGain.pidController.kd.within 0 1000 = true ∧
      fineGain.pidController.setpoint.within 0 100 = true ∧
      fineGain.tempSensor.tempOffset.within (-10) 10 = true ∧
      ((fineGain.saveSettings F.f32 true).loadSettings).pidController.kp = F.fin 1 ∧
      ((fineGain.saveSettings F.f32 true).loadSettings).pidController.kp
        ≠ fineGain.pidController.kp := by
  refine ⟨rfl, by decide!, by decide!, by decide!, by decide!, by decide!, by decide!,
    by decide!⟩

/-- C10, amended: for every in-memory parameter set inside the validated
envelope whose gains and target temperature the narrowing to `float` leaves
unchanged (they are binary32 values), `saveSettings` followed by
`loadSettings` restores exactly the same gains, target temperature and sensor
calibration offset; `saveSettings` writes the five values to the offsets 0, 4,
8, 12 and 16, where `loadSettings` reads them. -/
theorem c10_save_load_round_trip (rnd : ℚ → F) (m : StateMachine) (b : Bool)
    (hkp : m.pidController.kp.within KP_MIN 1000 = true)
    (hki : m.pidController.ki.within 0 1000 = true)
    (hkd : m.pidController.kd.within 0 1000 = true)
    (ht : m.pidController.setpoint.within 0 100 = true)
    (hc : m.tempSensor.tempOffset.within (-10) 10 = true)
    (rkp : F.narrow rnd m.pidController.kp = m.pidController.kp)
    (rki : F.narrow rnd m.pidController.ki = m.pidController.ki)
    (rkd : F.narrow rnd m.pidController.kd = m.pidController.kd)
    (rt : F.narrow rnd m.pidController.setpoint = m.pidController.setpoint) :
    ((m.saveSettings rnd b).loadSettings.pidController.getTunings
        = m.pidController.getTunings ∧
      (m.saveSettings rnd b).loadSettings.pidController.getTargetTemp
        = m.pidController.getTargetTemp ∧
      (m.saveSettings rnd b).loadSettings.tempSensor.getCalibration
        = m.tempSensor.getCalibration) ∧
    ((m.saveSettings rnd b).eeprom.get 0 = m.pidController.kp ∧
      (m.saveSettings rnd b).eeprom.get 4 = m.pidController.ki ∧
      (m.saveSettings rnd b).eeprom.get 8 = m.pidController.kd ∧
      (m.saveSettings rnd b).eeprom.get 12 = m.pidController.getTargetTemp ∧
      (m.saveSettings rnd b).eeprom.get 16 = m.tempSensor.getCalibration) := by
  obtain ⟨s1, s2, s3, s4, s5⟩ := saveSettings_slots rnd m b
  rw [rkp] at s1
  rw [rki] at s2
  rw [rkd] at s3
  rw [rt] at s4
  obtain ⟨l1, l2, l3, -⟩ := loadSettings_fields (m.saveSettings rnd b)
  refine ⟨⟨?_, ?_, ?_⟩, s1, s2, s3, s4, s5⟩
  · rw [l1, s1, s2, s3, hkp, hki, hkd]; rfl
  · rw [l2, s4, ht]; rfl
  · rw [l3, s5, hc]; rfl

/-- C10, amended, at the heating system with the default gains 10, 0.1f, 1,
target 25 and calibration 0, under binary32 rounding. -/
theorem c10_save_load_round_trip_witness :
    ((heating (F.fin 25)).pidController.kp.within KP_MIN 1000 = true ∧
      F.narrow F.f32 (heating (F.fin 25)).pidController.ki
        = (heating (F.fin 25)).pidController.ki) ∧
    (((heating (F.fin 25)).saveSettings F.f32 true).loadSettings.pidController.getTunings
        = (heating (F.fin 25)).pidController.getTunings ∧
      ((heating (F.fin 25)).saveSettings F.f32 true).loadSettings.pidController.getTargetTemp
        = (heating (F.fin 25)).pidController.getTargetTemp ∧
      ((heating (F.fin 25)).saveSettings F.f32 true).loadSettings.tempSensor.getCalibration
        = (heating (F.fin 25)).tempSensor.getCalibration) ∧
    (((heating (F.fin 25)).saveSettings F.f32 true).eeprom.get 0
        = (heating (F.fin 25)).pidController.kp ∧
      ((heating (F.fin 25)).saveSettings F.f32 true).eeprom.get 4
        = (heating (F.fin 25)).pidController.ki ∧
      ((heating (F.fin 25)).saveSettings F.f32 true).eeprom.get 8
        = (heating (F.fin 25)).pidController.kd ∧
      ((heating (F.fin 25)).saveSettings F.f32 true).eeprom.get 12
        = (heating (F.fin 25)).pidController.getTargetTemp ∧
      ((heating (F.fin 25)).saveSettings F.f32 true).eeprom.get 16
        = (heating (F.fin 25)).tempSensor.getCalibration) :=
  ⟨⟨by decide!, by decide!⟩,
    c10_save_load_round_trip F.f32 (heating (F.fin 25)) true (by decide!) (by decide!)
      (by decide!) (by decide!) (by decide!) (by decide!) (by decide!) (by decide!)
      (by decide!)⟩

end StateMachine

/-! ## Theorems: persistence failures, the PID wrapper, the sensor check -/

namespace StateMachine

theorem deliver_event (m : StateMachine) (e : EncoderEvent)
    (h : m.userInput = UserInput.deliver e) : m.event Tick.quiet = e := by
  unfold event
  rw [h]
  cases e <;> decide

/-- C11, as stated, fails: the state, the error kind and the display state
after a `saveSettings` whose commit failed are those after a `saveSettings`
whose commit succeeded; so are they after a whole tick that commits a
calibration with a long press. -/
theorem c11_failed_commit_not_reported :
    ((heating (F.fin 25)).saveSettings F.f32 false).report
        = ((heating (F.fin 25)).saveSettings F.f32 true).report ∧
      (calibrating (F.fin 2) EV_LONG_PRESS).event Tick.commitFails = EV_LONG_PRESS ∧
      (update F.f32 (calibrating (F.fin 2) EV_LONG_PRESS) Tick.commitFails).map report
        = (update F.f32 (calibrating (F.fin 2) EV_LONG_PRESS) Tick.quiet).map report := by
  refine ⟨rfl, by decide, by decide!⟩

/-- C11, amended: a failed commit is not reported.  `saveSettings` returns no
value, and for every state the save whose commit failed and the save whose
commit succeeded leave the same system state, error kind, display state,
in-memory parameters and store buffer; they differ only in the durable
content of the store, which the failed commit leaves as it was before the
save (nothing is retried) and the successful one makes equal to the buffer. -/
theorem c11_failed_commit_changes_only_flash (rnd : ℚ → F) (m : StateMachine) :
    m.saveSettings rnd false =
        { m.saveSettings rnd true with
          eeprom := { data := (m.saveSettings rnd true).eeprom.data, flash := m.eeprom.flash } } ∧
      (m.saveSettings rnd true).eeprom.flash = (m.saveSettings rnd true).eeprom.data ∧
      (m.saveSettings rnd false).report = (m.saveSettings rnd true).report ∧
      (m.saveSettings rnd false).report = m.report ∧
      (m.saveSettings rnd false).pidController = m.pidController ∧
      (m.saveSettings rnd false).tempSensor = m.tempSensor ∧
      (m.saveSettings rnd false).calibrationOffset = m.calibrationOffset :=
  ⟨rfl, rfl, rfl, rfl, rfl, rfl, rfl⟩

end StateMachine

namespace PIDController

/-- The interval check of `compute()` holds the call back: it returns `false`
and changes nothing. -/
theorem compute_of_throttled (p : PIDController) (now : Nat) (lib : Option F)
    (h1 : sub32 now p.lastCompute < PID_COMPUTE_INTERVAL) (h2 : 0 < p.lastCompute) :
    p.compute now lib = some (false, p) := by
  simp [compute, h1, h2]

/-- The interval check of `compute()` lets the call through on a controller
that has its library object: the clock is recorded, and the result and the
output are the library's. -/
theorem compute_of_passed (p : PIDController) (now : Nat) (lib : Option F) (l : PIDLib)
    (hl : p.pid = some l)
    (h : ¬ (sub32 now p.lastCompute < PID_COMPUTE_INTERVAL ∧ 0 < p.lastCompute)) :
    p.compute now lib =
      some (lib.isSome, { p with lastCompute := now, output := lib.getD p.output }) := by
  have h' : (decide (sub32 now p.lastCompute < PID_COMPUTE_INTERVAL) &&
      decide (p.lastCompute > 0)) = false := by
    simpa using h
  cases lib <;> simp [compute, h', hl]

/-- A `compute()` that returns `true` got past the interval check: it recorded
its clock, kept the library object, and wrote the library's output. -/
theorem compute_of_true (p p1 : PIDController) (t : Nat) (lib : Option F)
    (h : p.compute t lib = some (true, p1)) : p1.lastCompute = t ∧ p1.pid = p.pid := by
  unfold compute at h
  split at h
  · simp at h
  · cases hp : p.pid with
    | none => simp [hp] at h
    | some l =>
      cases lib with
      | none => simp [hp] at h
      | some o =>
        simp only [hp, Option.some.injEq, Prod.mk.injEq, true_and] at h
        rw [← h]
        exact ⟨rfl, rfl⟩

/-- Two calls within the interval, the library's clock gate included: when a
`compute()` at `t1` performed a computation (it returned `true`, so the
library computed at `t1`), a second `compute()` at any `t2` with
`t2 - t1 < PID_COMPUTE_INTERVAL` (modulo `2^32`) returns `false` and leaves
`getOutput()` unchanged.  For `t1 > 0` the wrapper holds the call back; for
`t1 = 0` the wrapper lets it through and the library holds it back. -/
theorem second_compute_held_back (p p1 : PIDController) (l : PIDLib) (L t1 t2 : Nat)
    (o1 o2 : F) (hl : p.pid = some l) (hs : l.sampleTime = PID_COMPUTE_INTERVAL)
    (hd : sub32 t2 t1 < PID_COMPUTE_INTERVAL)
    (h1 : p.compute t1 (l.Compute L t1 o1) = some (true, p1)) :
    ∃ p2, p1.compute t2 (l.Compute t1 t2 o2) = some (false, p2) ∧
      p2.getOutput = p1.getOutput := by
  obtain ⟨hlc, hpid⟩ := compute_of_true p p1 t1 _ h1
  by_cases ht : 0 < t1
  · exact ⟨p1, compute_of_throttled p1 t2 _ (by rw [hlc]; exact hd) (by rw [hlc]; exact ht),
      rfl⟩
  · have hgate : l.Compute t1 t2 o2 = none := by
      have : ¬ (PID_COMPUTE_INTERVAL ≤ sub32 t2 t1) := by omega
      simp [PIDLib.Compute, hs, this]
    rw [hgate, compute_of_passed p1 t2 none l (hpid.trans hl)
      (by rw [hlc]; exact fun h => ht h.2)]
    exact ⟨_, rfl, rfl⟩

/-- The first `compute()` on a constructed and begun controller gets past the
interval check at every clock, and performs the computation whenever the
library's gate is open (as it is after the library object was made). -/
theorem first_compute_of_begun (L t : Nat) (o : F)
    (hg : PID_COMPUTE_INTERVAL ≤ sub32 t L) :
    new.begin.pid = some PIDLib.configured ∧
      new.begin.compute t (PIDLib.configured.Compute L t o) =
        some (true, { new.begin with lastCompute := t, output := o }) := by
  refine ⟨rfl, ?_⟩
  have hgate : PIDLib.configured.Compute L t o = some o := by
    simp [PIDLib.Compute, PIDLib.configured, hg]
  rw [hgate]
  exact compute_of_passed new.begin t (some o) _ rfl (by simp [new, begin])

/-- Claim C12 (fails in the code, by the defect of C13): the first
`compute()` after construction does not perform a computation when `begin()`
was not called, it dereferences the null `pid` pointer at every clock value.
On a begun controller the two halves of the claim hold, here at clock 0,
where the wrapper's own check does not hold the second call back and the
library does: the first call computes the output 300, the call at clock 50
returns `false` and the output is still 300. -/
theorem c12_first_compute_before_begin :
    (∀ (t : Nat) (lib : Option F), new.compute t lib = none) ∧
      new.begin.pid = some PIDLib.configured ∧
      (new.begin.compute 0 (PIDLib.configured.Compute (2 ^ 32 - 100) 0 (F.fin 300))).map
          (fun r => (r.1, r.2.getOutput, r.2.lastCompute))
        = some (true, F.fin 300, 0) ∧
      ((new.begin.compute 0 (PIDLib.configured.Compute (2 ^ 32 - 100) 0 (F.fin 300))).bind
          (fun r => r.2.compute 50 (PIDLib.configured.Compute 0 50 (F.fin 400)))).map
          (fun r => (r.1, r.2.getOutput))
        = some (false, F.fin 300) := by
  refine ⟨fun t lib => by simp [compute, new], rfl, by decide, by decide⟩

/-- On a controller that has its library object `compute()` returns: `true`
or `false` with the controller it leaves. -/
theorem compute_of_begun (p : PIDController) (now : Nat) (lib : Option F) (l : PIDLib)
    (hl : p.pid = some l) : ∃ r p1, p.compute now lib = some (r, p1) := by
  by_cases h : sub32 now p.lastCompute < PID_COMPUTE_INTERVAL ∧ 0 < p.lastCompute
  · exact ⟨_, _, compute_of_throttled p now lib h.1 h.2⟩
  · exact ⟨_, _, compute_of_passed p now lib l hl h⟩

/-- C13 at the failing input: on a freshly constructed controller, on which
`begin()` was not called, `compute()` gets past the interval check at every
clock value and dereferences the null `pid` pointer, whatever the library
would answer; the gains it holds are the defaults. -/
theorem c13_compute_before_begin_dereferences_null (now : Nat) (lib : Option F) :
    new.compute now lib = none ∧ new.pid = none ∧
      new.getTunings = (PID_KP_DEFAULT, PID_KI_DEFAULT, PID_KD_DEFAULT) := by
  refine ⟨?_, rfl, rfl⟩
  simp [compute, new]

end PIDController

namespace TempSensor

theorem readTemperature_of_not_initialized (rnd : ℚ → F) (s : TempSensor) (now : Nat)
    (ntc : F) (h : s.initialized = false) :
    s.readTemperature rnd now ntc = (F.fin (-999), s) := by
  simp [readTemperature, h]

/-- What `readTemperature` never touches: the calibration offset and the
`initialized` flag. -/
theorem readTemperature_frame (rnd : ℚ → F) (s : TempSensor) (now : Nat) (ntc : F) :
    (s.readTemperature rnd now ntc).2.tempOffset = s.tempOffset ∧
      (s.readTemperature rnd now ntc).2.initialized = s.initialized := by
  unfold readTemperature
  split
  · exact ⟨rfl, rfl⟩
  · split
    · exact ⟨rfl, rfl⟩
    · exact ⟨rfl, rfl⟩

theorem checkSensor_frame (rnd : ℚ → F) (s : TempSensor) (now : Nat) (ntc : F) :
    (s.checkSensor rnd now ntc).2.tempOffset = s.tempOffset ∧
      (s.checkSensor rnd now ntc).2.initialized = s.initialized := by
  unfold checkSensor
  split
  · exact ⟨rfl, rfl⟩
  · dsimp only
    split <;> exact readTemperature_frame rnd s now ntc

/-- The result of `checkSensor()`: `false` on a sensor that is not
initialised; otherwise `false` exactly when the reading obtained compares
below -10 or above 110. -/
theorem checkSensor_result (rnd : ℚ → F) (s : TempSensor) (now : Nat) (ntc : F) :
    (s.checkSensor rnd now ntc).1 =
      (s.initialized &&
        !(F.lt (s.readTemperature rnd now ntc).1 SENSOR_LOW ||
          F.gt (s.readTemperature rnd now ntc).1 SENSOR_HIGH)) := by
  unfold checkSensor
  cases hi : s.initialized
  · simp
  · cases hb : (F.lt (s.readTemperature rnd now ntc).1 SENSOR_LOW ||
        F.gt (s.readTemperature rnd now ntc).1 SENSOR_HIGH) <;> simp [hb]

/-- For every reading that is a number or an infinity the check is the range
test of the claim: `true` exactly for the numbers inside `[-10, 110]`. -/
theorem checkSensor_of_not_nan (rnd : ℚ → F) (s : TempSensor) (now : Nat) (ntc : F)
    (hi : s.initialized = true) (hn : (s.readTemperature rnd now ntc).1.isnan = false) :
    (s.checkSensor rnd now ntc).1 = (s.readTemperature rnd now ntc).1.within (-10) 110 := by
  rw [checkSensor_result, hi]
  have h := F.invalid_eq_not_within (s.readTemperature rnd now ntc).1 (-10) 110
  rw [hn] at h
  simp only [Bool.false_or] at h
  simp only [SENSOR_LOW, SENSOR_HIGH, Bool.true_and]
  rw [h, Bool.not_not]

/-- C20 at the failing input: on an initialised sensor whose reading is not a
number, either held from the last acquisition or taken afresh from a sample
that converts to NaN, `checkSensor()` returns `true`; the safety-check pass
built on it reports no error. -/
theorem c20_checkSensor_accepts_nan :
    (((holding F.nan).readTemperature F.f32 1050 (F.fin 25)).1 = F.nan ∧
      ((holding F.nan).checkSensor F.f32 1050 (F.fin 25)).1 = true) ∧
    (((holding (F.fin 25)).readTemperature F.f32 2000 F.nan).1 = F.nan ∧
      ((holding (F.fin 25)).checkSensor F.f32 2000 F.nan).1 = true) ∧
    (StateMachine.performSafetyChecks F.f32 (holding F.nan) Tick.quiet).1 = ERROR_NONE := by
  refine ⟨⟨by decide, by decide⟩, ⟨by decide!, by decide!⟩, by decide⟩

end TempSensor

/-! ## Theorems: the handlers of a tick -/

namespace StateMachine

theorem resetWatchdog_eq (m : StateMachine) :
    m.resetWatchdog = { m with watchdogTimer := m.resetWatchdog.watchdogTimer } := by
  unfold resetWatchdog
  split <;> rfl

/-- The tick when the watchdog flag is clear and the safety checks pass: the
handler of the current state runs on `afterChecks`. -/
theorem update_of_safe (rnd : ℚ → F) (m : StateMachine) (k : Tick)
    (hw : m.g_watchdogTriggered = false)
    (hs : (performSafetyChecks rnd m.tempSensor k).1 = ERROR_NONE) :
    update rnd m k = dispatch rnd (m.afterChecks rnd k) k := by
  unfold update afterChecks resetWatchdog
  split <;> simp [hw, hs]

theorem performSafetyChecks_frame (rnd : ℚ → F) (t : TempSensor) (k : Tick) :
    (performSafetyChecks rnd t k).2.tempOffset = t.tempOffset ∧
      (performSafetyChecks rnd t k).2.initialized = t.initialized := by
  unfold performSafetyChecks
  dsimp only
  split
  · exact TempSensor.checkSensor_frame rnd t _ _
  · have h1 := TempSensor.checkSensor_frame rnd t k.check.now k.check.ntc
    have h2 := TempSensor.readTemperature_frame rnd
      (t.checkSensor rnd k.check.now k.check.ntc).2 k.safety.now k.safety.ntc
    split
    · exact ⟨h2.1.trans h1.1, h2.2.trans h1.2⟩
    · exact ⟨h2.1.trans h1.1, h2.2.trans h1.2⟩

end StateMachine

namespace StateMachine

/-- The Error handler when the event is a long press: the error is cleared
and the state set to Idle. -/
theorem handleErrorState_long (m : StateMachine) (k : Tick)
    (hst : m.currentState = STATE_ERROR) (he : m.event k = EV_LONG_PRESS) :
    (m.handleErrorState k).currentState = STATE_IDLE ∧
      (m.handleErrorState k).currentError = ERROR_NONE ∧
      (m.handleErrorState k).pwmController = m.pwmController.emergencyStop.disable := by
  have he' : (pollEvent
      { m with
        pwmController := m.pwmController.emergencyStop,
        displayManager := (m.displayManager.setSystemState STATE_ERROR).setPage PAGE_ERROR }
      k).1 = EV_LONG_PRESS := he
  unfold handleErrorState
  simp only [he', ↓reduceIte]
  simp [setState, clearError, pollEvent, hst]

/-- The Error handler when the event is anything but a long press: only the
gate (stopped), the display and the user-input object change. -/
theorem handleErrorState_other (m : StateMachine) (k : Tick)
    (he : m.event k ≠ EV_LONG_PRESS) :
    (m.handleErrorState k).currentState = m.currentState ∧
      (m.handleErrorState k).currentError = m.currentError ∧
      (m.handleErrorState k).pidController = m.pidController ∧
      (m.handleErrorState k).tempSensor = m.tempSensor ∧
      (m.handleErrorState k).calibrationOffset = m.calibrationOffset ∧
      (m.handleErrorState k).eeprom = m.eeprom ∧
      (m.handleErrorState k).menuSelection = m.menuSelection ∧
      (m.handleErrorState k).pwmController = m.pwmController.emergencyStop := by
  have he' : ¬ (pollEvent
      { m with
        pwmController := m.pwmController.emergencyStop,
        displayManager := (m.displayManager.setSystemState STATE_ERROR).setPage PAGE_ERROR }
      k).1 = EV_LONG_PRESS := he
  unfold handleErrorState
  simp only [he', ↓reduceIte]
  simp [pollEvent]

theorem stopped_gate (g : PWMController) (h : g.initialized = true) :
    (g.emergencyStop.dutyCycle = 0 ∧ g.emergencyStop.enabled = false ∧
        g.emergencyStop.ledc = 0) ∧
      (g.emergencyStop.disable.dutyCycle = 0 ∧ g.emergencyStop.disable.enabled = false ∧
        g.emergencyStop.disable.ledc = 0) := by
  simp [PWMController.emergencyStop, PWMController.disable, h]

/-- C15, as stated, fails: in Error over a gate on which `begin()` was never
called and whose stored duty is 500, a tick with the safety checks passing and
no event pending leaves the stored duty at 500, not 0. -/
theorem c15_error_tick_keeps_unbegun_duty :
    (faulted (PWMController.new.setDutyCycle 500) EV_NONE).currentState = STATE_ERROR ∧
      (performSafetyChecks F.f32
        (faulted (PWMController.new.setDutyCycle 500) EV_NONE).tempSensor Tick.quiet).1
        = ERROR_NONE ∧
      (faulted (PWMController.new.setDutyCycle 500) EV_NONE).event Tick.quiet = EV_NONE ∧
      (update F.f32 (faulted (PWMController.new.setDutyCycle 500) EV_NONE) Tick.quiet).map
        outcome = some (STATE_ERROR, ERROR_OVERTEMP, 500, false, 0) := by
  refine ⟨rfl, by decide, by decide, by decide⟩

/-- C15, amended: in Error, over an initialised gate, in a tick that reaches
the Error handler (watchdog flag clear, safety checks passing): if the event
is LongPress the tick ends in Idle with the error kind None; for every other
event the tick leaves the state Error and the error kind, the PID controller
(target and gains), the sensor calibration, the working offset, the menu
selection and the store unchanged; in both cases the gate ends disabled with
stored duty 0 and physical output 0. -/
theorem c15_error_handler (rnd : ℚ → F) (m : StateMachine) (k : Tick)
    (hst : m.currentState = STATE_ERROR) (hw : m.g_watchdogTriggered = false)
    (hs : (performSafetyChecks rnd m.tempSensor k).1 = ERROR_NONE)
    (hg : m.pwmController.initialized = true) :
    ∃ m', update rnd m k = some m' ∧
      (m.event k = EV_LONG_PRESS →
        m'.currentState = STATE_IDLE ∧ m'.currentError = ERROR_NONE) ∧
      (m.event k ≠ EV_LONG_PRESS →
        m'.currentState = STATE_ERROR ∧ m'.currentError = m.currentError ∧
          m'.pidController = m.pidController ∧
          m'.pidController.getTargetTemp = m.pidController.getTargetTemp ∧
          m'.tempSensor.getCalibration = m.tempSensor.getCalibration ∧
          m'.calibrationOffset = m.calibrationOffset ∧
          m'.menuSelection = m.menuSelection ∧ m'.eeprom = m.eeprom) ∧
      (m'.pwmController.enabled = false ∧ m'.pwmController.dutyCycle = 0 ∧
        m'.pwmController.ledc = 0) := by
  have hu : update rnd m k = some ((m.afterChecks rnd k).handleErrorState k) := by
    rw [update_of_safe rnd m k hw hs]
    unfold dispatch
    have : (m.afterChecks rnd k).currentState = STATE_ERROR := hst
    simp [this]
  have hev : (m.afterChecks rnd k).event k = m.event k := rfl
  have hsg := stopped_gate m.pwmController hg
  refine ⟨_, hu, ?_, ?_, ?_⟩
  · intro he
    obtain ⟨h1, h2, -⟩ := handleErrorState_long (m.afterChecks rnd k) k hst (hev.trans he)
    exact ⟨h1, h2⟩
  · intro he
    obtain ⟨h1, h2, h3, h4, h5, h6, h7, -⟩ :=
      handleErrorState_other (m.afterChecks rnd k) k (by rw [hev]; exact he)
    refine ⟨h1.trans hst, h2, h3, by rw [h3]; rfl, ?_, h5, h7, h6⟩
    rw [h4]
    exact (performSafetyChecks_frame rnd m.tempSensor k).1
  · by_cases he : m.event k = EV_LONG_PRESS
    · obtain ⟨-, -, h3⟩ := handleErrorState_long (m.afterChecks rnd k) k hst (hev.trans he)
      rw [h3]
      exact ⟨hsg.2.2.1, hsg.2.1, hsg.2.2.2⟩
    · obtain ⟨-, -, -, -, -, -, -, h8⟩ :=
        handleErrorState_other (m.afterChecks rnd k) k (by rw [hev]; exact he)
      rw [h8]
      exact ⟨hsg.1.2.1, hsg.1.1, hsg.1.2.2⟩

/-- C15, amended, at the over-temperature fault over a begun gate with a long
press pending. -/
theorem c15_error_handler_witness :
    ((faulted PWMController.new.begin EV_LONG_PRESS).currentState = STATE_ERROR ∧
      (faulted PWMController.new.begin EV_LONG_PRESS).event Tick.quiet = EV_LONG_PRESS) ∧
    ∃ m', update F.f32 (faulted PWMController.new.begin EV_LONG_PRESS) Tick.quiet = some m' ∧
      ((faulted PWMController.new.begin EV_LONG_PRESS).event Tick.quiet = EV_LONG_PRESS →
        m'.currentState = STATE_IDLE ∧ m'.currentError = ERROR_NONE) ∧
      ((faulted PWMController.new.begin EV_LONG_PRESS).event Tick.quiet ≠ EV_LONG_PRESS →
        m'.currentState = STATE_ERROR ∧
          m'.currentError = (faulted PWMController.new.begin EV_LONG_PRESS).currentError ∧
          m'.pidController = (faulted PWMController.new.begin EV_LONG_PRESS).pidController ∧
          m'.pidController.getTargetTemp
            = (faulted PWMController.new.begin EV_LONG_PRESS).pidController.getTargetTemp ∧
          m'.tempSensor.getCalibration
            = (faulted PWMController.new.begin EV_LONG_PRESS).tempSensor.getCalibration ∧
          m'.calibrationOffset
            = (faulted PWMController.new.begin EV_LONG_PRESS).calibrationOffset ∧
          m'.menuSelection = (faulted PWMController.new.begin EV_LONG_PRESS).menuSelection ∧
          m'.eeprom = (faulted PWMController.new.begin EV_LONG_PRESS).eeprom) ∧
      (m'.pwmController.enabled = false ∧ m'.pwmController.dutyCycle = 0 ∧
        m'.pwmController.ledc = 0) :=
  ⟨⟨rfl, by decide⟩,
    c15_error_handler F.f32 (faulted PWMController.new.begin EV_LONG_PRESS) Tick.quiet rfl rfl
      (by decide) (by decide)⟩

end StateMachine

namespace StateMachine

/-- The Idle handler when the event is a single click: the state is set to
Working, which enables the gate. -/
theorem handleIdleState_single (rnd : ℚ → F) (m : StateMachine) (k : Tick)
    (hst : m.currentState = STATE_IDLE) (he : m.event k = EV_SINGLE_CLICK) :
    (m.handleIdleState rnd k).currentState = STATE_WORKING ∧
      (m.handleIdleState rnd k).pwmController = m.pwmController.enable ∧
      (m.handleIdleState rnd k).pidController = m.pidController ∧
      (m.handleIdleState rnd k).currentError = m.currentError := by
  unfold handleIdleState
  dsimp only
  have he' : ∀ t d, (pollEvent { m with tempSensor := t, displayManager := d } k).1
      = EV_SINGLE_CLICK := fun _ _ => he
  simp only [he']
  simp [setState, pollEvent, hst]

/-- The Working handler when `compute()` returns and the event is a double
click: the gate is disabled and the state set to Idle. -/
theorem handleWorkingState_double (rnd : ℚ → F) (m : StateMachine) (k : Tick) (l : PIDLib)
    (hst : m.currentState = STATE_WORKING) (hl : m.pidController.pid = some l)
    (hg : m.pwmController.initialized = true) (he : m.event k = EV_DOUBLE_CLICK) :
    ∃ m', m.handleWorkingState rnd k = some m' ∧ m'.currentState = STATE_IDLE ∧
      m'.currentError = m.currentError ∧
      m'.pwmController.enabled = false ∧ m'.pwmController.ledc = 0 := by
  obtain ⟨r, p1, hc⟩ := PIDController.compute_of_begun
    (m.pidController.setCurrentTemp
      (m.tempSensor.readTemperature rnd k.handler.now k.handler.ntc).1)
    k.pidNow k.pidLib l hl
  unfold handleWorkingState
  dsimp only
  rw [hc]
  dsimp only
  have he' : ∀ t p g d, (pollEvent
      { m with tempSensor := t, pidController := p, pwmController := g, displayManager := d }
      k).1 = EV_DOUBLE_CLICK := fun _ _ _ _ => he
  cases r
  · simp only [Bool.false_eq_true, ↓reduceIte, he']
    refine ⟨_, rfl, ?_⟩
    simp [setState, pollEvent, hst, PWMController.disable, hg]
  · simp only [↓reduceIte, he']
    refine ⟨_, rfl, ?_⟩
    have hg' : ∀ d, (m.pwmController.setDutyCycle d).initialized = true := by
      intro d
      unfold PWMController.setDutyCycle
      dsimp only
      split <;> exact hg
    simp [setState, pollEvent, hst, PWMController.disable, hg']

/-- The scenario of C14 on a system whose PID controller has its library
object: from Idle over an initialised gate a tick that reaches the handler
with a single click ends in Working with the gate enabled, and from Working
over an initialised gate a tick that reaches the handler with a double click
ends in Idle with the gate disabled and the physical output 0. -/
theorem click_then_double_click (rnd : ℚ → F) (m m2 : StateMachine) (k k2 : Tick)
    (l : PIDLib)
    (hst : m.currentState = STATE_IDLE) (hw : m.g_watchdogTriggered = false)
    (hs : (performSafetyChecks rnd m.tempSensor k).1 = ERROR_NONE)
    (hg : m.pwmController.initialized = true) (he : m.event k = EV_SINGLE_CLICK)
    (hst2 : m2.currentState = STATE_WORKING) (hw2 : m2.g_watchdogTriggered = false)
    (hs2 : (performSafetyChecks rnd m2.tempSensor k2).1 = ERROR_NONE)
    (hg2 : m2.pwmController.initialized = true) (hl2 : m2.pidController.pid = some l)
    (he2 : m2.event k2 = EV_DOUBLE_CLICK) :
    (∃ m', update rnd m k = some m' ∧ m'.currentState = STATE_WORKING ∧
      m'.pwmController.enabled = true ∧ m'.pwmController.initialized = true) ∧
    (∃ m', update rnd m2 k2 = some m' ∧ m'.currentState = STATE_IDLE ∧
      m'.pwmController.enabled = false ∧ m'.pwmController.ledc = 0) := by
  constructor
  · have hu : update rnd m k = some ((m.afterChecks rnd k).handleIdleState rnd k) := by
      rw [update_of_safe rnd m k hw hs]
      unfold dispatch
      have : (m.afterChecks rnd k).currentState = STATE_IDLE := hst
      simp [this]
    obtain ⟨h1, h2, -⟩ := handleIdleState_single rnd (m.afterChecks rnd k) k hst he
    refine ⟨_, hu, h1, ?_, ?_⟩
    · rw [h2]
      show (m.pwmController.enable).enabled = true
      simp [PWMController.enable, hg]
    · rw [h2]
      show (m.pwmController.enable).initialized = true
      simp [PWMController.enable, hg]
  · obtain ⟨m', h1, h2, -, h4, h5⟩ :=
      handleWorkingState_double rnd (m2.afterChecks rnd k2) k2 l hst2 hl2 hg2 he2
    have hu : update rnd m2 k2 = some m' := by
      rw [update_of_safe rnd m2 k2 hw2 hs2]
      unfold dispatch
      have : (m2.afterChecks rnd k2).currentState = STATE_WORKING := hst2
      simp [this, h1]
    exact ⟨m', hu, h2, h4, h5⟩

/-- C14 at the failing input: over a PID controller on which `begin()` was
not called (the gate is begun, the safety checks pass, the watchdog flag is
clear), the tick with a single click takes Idle to Working with the gate
enabled, and the following tick, with a double click pending, dereferences the
null `pid` pointer in `compute()` before the event is looked at: it does not
end in Idle. -/
theorem c14_double_click_tick_without_pid :
    ((idle PIDController.new EV_SINGLE_CLICK).pwmController.initialized = true ∧
      (performSafetyChecks F.f32 (idle PIDController.new EV_SINGLE_CLICK).tempSensor
        Tick.quiet).1 = ERROR_NONE ∧
      (idle PIDController.new EV_SINGLE_CLICK).event Tick.quiet = EV_SINGLE_CLICK) ∧
    (update F.f32 (idle PIDController.new EV_SINGLE_CLICK) Tick.quiet).map outcome
      = some (STATE_WORKING, ERROR_NONE, 0, true, 0) ∧
    ((update F.f32 (idle PIDController.new EV_SINGLE_CLICK) Tick.quiet).map
        (fun m => (m.withEvent EV_DOUBLE_CLICK).event Tick.quiet)
      = some EV_DOUBLE_CLICK) ∧
    ((update F.f32 (idle PIDController.new EV_SINGLE_CLICK) Tick.quiet).bind
        (fun m => update F.f32 (m.withEvent EV_DOUBLE_CLICK) Tick.quiet)).isNone = true := by
  refine ⟨⟨by decide, by decide, by decide⟩, by decide, by decide, by decide⟩

end StateMachine

namespace StateMachine

/-- What `setState` never touches, and the state it leaves. -/
theorem setState_frame (m : StateMachine) (n : SystemState) :
    (m.setState n).currentState = n ∧
      (m.setState n).currentError = m.currentError ∧
      (m.setState n).tempSensor = m.tempSensor ∧
      (m.setState n).pidController = m.pidController ∧
      (m.setState n).calibrationOffset = m.calibrationOffset ∧
      (m.setState n).menuSelection = m.menuSelection ∧
      (m.setState n).eeprom = m.eeprom ∧
      (m.setState n).g_watchdogTriggered = m.g_watchdogTriggered := by
  unfold setState
  by_cases h : n ≠ m.currentState
  · cases n <;> simp [h]
  · have h' : n = m.currentState := by
      by_contra hc
      exact h hc
    simp [h']

/-- The Calibration handler when the event is a double click. -/
theorem handleCalibrationState_double (rnd : ℚ → F) (m : StateMachine) (k : Tick)
    (he : m.event k = EV_DOUBLE_CLICK) :
    (m.handleCalibrationState rnd k).currentState = m.previousState ∧
      (m.handleCalibrationState rnd k).tempSensor.tempOffset = m.tempSensor.tempOffset ∧
      (m.handleCalibrationState rnd k).eeprom = m.eeprom ∧
      (m.handleCalibrationState rnd k).calibrationOffset = m.calibrationOffset := by
  unfold handleCalibrationState
  dsimp only
  have he' : ∀ t d, (pollEvent { m with tempSensor := t, displayManager := d } k).1
      = EV_DOUBLE_CLICK := fun _ _ => he
  simp only [he']
  refine ⟨(setState_frame _ _).1, ?_, (setState_frame _ _).2.2.2.2.2.2.1,
    (setState_frame _ _).2.2.2.2.1⟩
  rw [(setState_frame _ _).2.2.1]
  exact (TempSensor.readTemperature_frame rnd m.tempSensor _ _).1

/-- The Calibration handler when the event is a rotation: the working offset
moves by `0.1f`; state, previous state, sensor calibration and store stay. -/
theorem handleCalibrationState_rotate (rnd : ℚ → F) (m : StateMachine) (k : Tick)
    (he : m.event k = EV_ROTATE_CW ∨ m.event k = EV_ROTATE_CCW) :
    (m.handleCalibrationState rnd k).currentState = m.currentState ∧
      (m.handleCalibrationState rnd k).previousState = m.previousState ∧
      (m.handleCalibrationState rnd k).tempSensor.tempOffset = m.tempSensor.tempOffset ∧
      (m.handleCalibrationState rnd k).eeprom = m.eeprom ∧
      (m.handleCalibrationState rnd k).calibrationOffset =
        (if m.event k = EV_ROTATE_CW then F.add rnd m.calibrationOffset LIT_0_1
          else F.sub rnd m.calibrationOffset LIT_0_1) := by
  unfold handleCalibrationState
  dsimp only
  have ht := (TempSensor.readTemperature_frame rnd m.tempSensor k.handler.now k.handler.ntc).1
  rcases he with he | he
  · have he' : ∀ t d, (pollEvent { m with tempSensor := t, displayManager := d } k).1
        = EV_ROTATE_CW := fun _ _ => he
    simp only [he', he, ↓reduceIte]
    exact ⟨rfl, rfl, ht, rfl, rfl⟩
  · have he' : ∀ t d, (pollEvent { m with tempSensor := t, displayManager := d } k).1
        = EV_ROTATE_CCW := fun _ _ => he
    simp only [he', he]
    exact ⟨rfl, rfl, ht, rfl, by simp [pollEvent]⟩

/-- The Calibration handler when there is no event or a single click: the
default branch; state, previous state, sensor calibration, store and working
offset stay. -/
theorem handleCalibrationState_idle (rnd : ℚ → F) (m : StateMachine) (k : Tick)
    (he : m.event k = EV_NONE ∨ m.event k = EV_SINGLE_CLICK) :
    (m.handleCalibrationState rnd k).currentState = m.currentState ∧
      (m.handleCalibrationState rnd k).previousState = m.previousState ∧
      (m.handleCalibrationState rnd k).tempSensor.tempOffset = m.tempSensor.tempOffset ∧
      (m.handleCalibrationState rnd k).eeprom = m.eeprom ∧
      (m.handleCalibrationState rnd k).calibrationOffset = m.calibrationOffset := by
  unfold handleCalibrationState
  dsimp only
  have ht := (TempSensor.readTemperature_frame rnd m.tempSensor k.handler.now k.handler.ntc).1
  rcases he with he | he
  · have he' : ∀ t d, (pollEvent { m with tempSensor := t, displayManager := d } k).1
        = EV_NONE := fun _ _ => he
    simp only [he']
    exact ⟨rfl, rfl, ht, rfl, rfl⟩
  · have he' : ∀ t d, (pollEvent { m with tempSensor := t, displayManager := d } k).1
        = EV_SINGLE_CLICK := fun _ _ => he
    simp only [he']
    exact ⟨rfl, rfl, ht, rfl, rfl⟩

/-- The tick when the handler of Calibration is reached. -/
theorem update_of_calibration (rnd : ℚ → F) (m : StateMachine) (k : Tick)
    (hst : m.currentState = STATE_CALIBRATION) (hw : m.g_watchdogTriggered = false)
    (hs : (performSafetyChecks rnd m.tempSensor k).1 = ERROR_NONE) :
    update rnd m k = some ((m.afterChecks rnd k).handleCalibrationState rnd k) := by
  rw [update_of_safe rnd m k hw hs]
  unfold dispatch
  have : (m.afterChecks rnd k).currentState = STATE_CALIBRATION := hst
  simp [this]

/-- Along a calibration session the state stays Calibration, and the previous
state, the sensor calibration and the store stay what they were on entry. -/
theorem adjusted_frame (rnd : ℚ → F) (m0 m : StateMachine)
    (h0 : m0.currentState = STATE_CALIBRATION) (h : Adjusted rnd m0 m) :
    m.currentState = STATE_CALIBRATION ∧ m.previousState = m0.previousState ∧
      m.tempSensor.tempOffset = m0.tempSensor.tempOffset ∧ m.eeprom = m0.eeprom := by
  induction h with
  | entered => exact ⟨h0, rfl, rfl, rfl⟩
  | rotate m m' k _ hw hs he hu ih =>
    obtain ⟨i1, i2, i3, i4⟩ := ih
    rw [update_of_calibration rnd m k i1 hw hs] at hu
    simp only [Option.some.injEq] at hu
    subst hu
    obtain ⟨r1, r2, r3, r4, -⟩ :=
      handleCalibrationState_rotate rnd (m.afterChecks rnd k) k he
    refine ⟨r1.trans i1, r2.trans i2, ?_, r4.trans i4⟩
    rw [r3]
    exact (performSafetyChecks_frame rnd m.tempSensor k).1.trans i3
  | idle m m' k _ hw hs he hu ih =>
    obtain ⟨i1, i2, i3, i4⟩ := ih
    rw [update_of_calibration rnd m k i1 hw hs] at hu
    simp only [Option.some.injEq] at hu
    subst hu
    obtain ⟨r1, r2, r3, r4, -⟩ :=
      handleCalibrationState_idle rnd (m.afterChecks rnd k) k he
    refine ⟨r1.trans i1, r2.trans i2, ?_, r4.trans i4⟩
    rw [r3]
    exact (performSafetyChecks_frame rnd m.tempSensor k).1.trans i3
  | input m u _ ih => exact ih

end StateMachine

namespace StateMachine

/-- C16, as stated, fails: Calibration is entered with working offset 0, one
tick with a clockwise rotation moves the working offset to `0.1f`, a tick
without an event leaves it, and the tick with the double click returns to the
menu with the working offset still `0.1f`, not the 0 it had on entry (the
sensor calibration is still 0). -/
theorem c16_double_click_keeps_adjusted_offset :
    (calibrating (F.fin 0) EV_ROTATE_CW).event Tick.quiet = EV_ROTATE_CW ∧
      (update F.f32 (calibrating (F.fin 0) EV_ROTATE_CW) Tick.quiet).map
          (fun m => (m.currentState, m.calibrationOffset))
        = some (STATE_CALIBRATION, LIT_0_1) ∧
      calibratingOnce.event Tick.quiet = EV_NONE ∧
      (update F.f32 calibratingOnce Tick.quiet).map
          (fun m => (m.currentState, m.calibrationOffset))
        = some (STATE_CALIBRATION, LIT_0_1) ∧
      calibratingTurned.event Tick.quiet = EV_DOUBLE_CLICK ∧
      (update F.f32 calibratingTurned Tick.quiet).map
          (fun m => (m.currentState, m.calibrationOffset, m.tempSensor.getCalibration))
        = some (STATE_MENU, LIT_0_1, F.fin 0) ∧
      LIT_0_1 ≠ (calibrating (F.fin 0) EV_ROTATE_CW).calibrationOffset := by
  refine ⟨by decide, by decide!, by decide!, by decide!, by decide!, by decide!, by decide!⟩

/-- C16, amended: in Calibration, after every sequence of RotateCW/RotateCCW
adjustments made since Calibration was entered (with any ticks without an
event or with a single click, which the handler ignores, in between), a tick
that reaches the handler with a DoubleClick returns to the previous state; the sensor's applied
calibration and the store (buffer and durable content) equal what they were
when Calibration was entered; the working `calibrationOffset` is not restored,
it keeps the value the adjustments gave it. -/
theorem c16_double_click_returns (rnd : ℚ → F) (m0 m : StateMachine) (k : Tick)
    (h0 : m0.currentState = STATE_CALIBRATION) (ha : Adjusted rnd m0 m)
    (hw : m.g_watchdogTriggered = false)
    (hs : (performSafetyChecks rnd m.tempSensor k).1 = ERROR_NONE)
    (he : m.event k = EV_DOUBLE_CLICK) :
    ∃ m', update rnd m k = some m' ∧ m'.currentState = m0.previousState ∧
      m'.tempSensor.getCalibration = m0.tempSensor.getCalibration ∧
      m'.eeprom = m0.eeprom ∧ m'.calibrationOffset = m.calibrationOffset := by
  obtain ⟨i1, i2, i3, i4⟩ := adjusted_frame rnd m0 m h0 ha
  refine ⟨_, update_of_calibration rnd m k i1 hw hs, ?_⟩
  obtain ⟨d1, d2, d3, d4⟩ := handleCalibrationState_double rnd (m.afterChecks rnd k) k he
  refine ⟨d1.trans i2, ?_, d3.trans i4, d4⟩
  show ((m.afterChecks rnd k).handleCalibrationState rnd k).tempSensor.tempOffset
    = m0.tempSensor.tempOffset
  rw [d2]
  exact (performSafetyChecks_frame rnd m.tempSensor k).1.trans i3

/-- C16, amended, at the session entered with working offset 0, turned
clockwise once, left alone for one tick, with the double click pending. -/
theorem c16_double_click_returns_witness :
    ((calibrating (F.fin 0) EV_ROTATE_CW).currentState = STATE_CALIBRATION ∧
      Adjusted F.f32 (calibrating (F.fin 0) EV_ROTATE_CW) calibratingTurned ∧
      calibratingTurned.event Tick.quiet = EV_DOUBLE_CLICK) ∧
    ∃ m', update F.f32 calibratingTurned Tick.quiet = some m' ∧
      m'.currentState = (calibrating (F.fin 0) EV_ROTATE_CW).previousState ∧
      m'.tempSensor.getCalibration
        = (calibrating (F.fin 0) EV_ROTATE_CW).tempSensor.getCalibration ∧
      m'.eeprom = (calibrating (F.fin 0) EV_ROTATE_CW).eeprom ∧
      m'.calibrationOffset = calibratingTurned.calibrationOffset := by
  have hsome : (update F.f32 (calibrating (F.fin 0) EV_ROTATE_CW) Tick.quiet).isSome
      = true := by decide
  obtain ⟨x, hx⟩ := Option.isSome_iff_exists.mp hsome
  have hxo : x = calibratingOnce := by
    unfold calibratingOnce
    rw [hx]
    rfl
  subst hxo
  have hsome2 : (update F.f32 calibratingOnce Tick.quiet).isSome = true := by decide!
  obtain ⟨y, hy⟩ := Option.isSome_iff_exists.mp hsome2
  have hadj : Adjusted F.f32 (calibrating (F.fin 0) EV_ROTATE_CW) calibratingTurned := by
    have hye : calibratingTurned = { y with userInput := UserInput.deliver EV_DOUBLE_CLICK } := by
      unfold calibratingTurned
      rw [hy]
      rfl
    rw [hye]
    exact Adjusted.input y _
      (Adjusted.idle calibratingOnce y Tick.quiet
        (Adjusted.rotate _ calibratingOnce Tick.quiet Adjusted.entered rfl (by decide)
          (Or.inl (by decide)) hx)
        (by decide!) (by decide!) (Or.inl (by decide!)) hy)
  exact ⟨⟨rfl, hadj, by decide!⟩,
    c16_double_click_returns F.f32 _ calibratingTurned Tick.quiet rfl hadj (by decide!)
      (by decide!) (by decide!)⟩

/-- The Calibration handler when the event is a long press. -/
theorem handleCalibrationState_long (rnd : ℚ → F) (m : StateMachine) (k : Tick)
    (he : m.event k = EV_LONG_PRESS) :
    m.handleCalibrationState rnd k =
      (({ m with
          tempSensor :=
            (m.tempSensor.readTemperature rnd k.handler.now k.handler.ntc).2.setCalibration
              m.calibrationOffset,
          displayManager :=
            ((m.displayManager.setTemperature
                (m.tempSensor.readTemperature rnd k.handler.now k.handler.ntc).1
                (F.add rnd (m.tempSensor.readTemperature rnd k.handler.now k.handler.ntc).1
                  m.calibrationOffset)).setSystemState STATE_CALIBRATION).setPage
              PAGE_CALIBRATION,
          userInput :=
            ((m.userInput.update k.inputNow k.buttonDown k.encoderRaw).getEvent
              k.eventNow).2 }).saveSettings rnd k.commitOk).setState m.previousState := by
  unfold handleCalibrationState
  dsimp only
  have he' : ∀ t d, (pollEvent { m with tempSensor := t, displayManager := d } k).1
      = EV_LONG_PRESS := fun _ _ => he
  simp only [he']
  rfl

/-- C17: in Calibration with working offset `c`, a tick that reaches the
handler with a LongPress sets the sensor's calibration offset to `c`, writes
`c` to the calibration slot of the store together with the current gains and
target temperature (as floats) in their slots, calls the commit (after a
successful commit the durable content is the buffer), and ends in the
previous state. -/
theorem c17_long_press_commits_calibration (rnd : ℚ → F) (m : StateMachine) (k : Tick)
    (hst : m.currentState = STATE_CALIBRATION) (hw : m.g_watchdogTriggered = false)
    (hs : (performSafetyChecks rnd m.tempSensor k).1 = ERROR_NONE)
    (he : m.event k = EV_LONG_PRESS) :
    ∃ m', update rnd m k = some m' ∧
      m'.tempSensor.getCalibration = m.calibrationOffset ∧
      m'.eeprom.get EEPROM_TEMP_CALIBRATION_ADDR = m.calibrationOffset ∧
      m'.eeprom.get EEPROM_PID_KP_ADDR = F.narrow rnd m.pidController.kp ∧
      m'.eeprom.get EEPROM_PID_KI_ADDR = F.narrow rnd m.pidController.ki ∧
      m'.eeprom.get EEPROM_PID_KD_ADDR = F.narrow rnd m.pidController.kd ∧
      m'.eeprom.get EEPROM_TARGET_TEMP_ADDR = F.narrow rnd m.pidController.getTargetTemp ∧
      (k.commitOk = true → m'.eeprom.flash = m'.eeprom.data) ∧
      m'.currentState = m.previousState := by
  refine ⟨_, update_of_calibration rnd m k hst hw hs, ?_⟩
  rw [handleCalibrationState_long rnd (m.afterChecks rnd k) k he]
  obtain ⟨f1, -, f3, -, -, -, f7, -⟩ := setState_frame
    (({ (m.afterChecks rnd k) with
          tempSensor :=
            ((m.afterChecks rnd k).tempSensor.readTemperature rnd k.handler.now
              k.handler.ntc).2.setCalibration (m.afterChecks rnd k).calibrationOffset,
          displayManager :=
            (((m.afterChecks rnd k).displayManager.setTemperature
                ((m.afterChecks rnd k).tempSensor.readTemperature rnd k.handler.now
                  k.handler.ntc).1
                (F.add rnd ((m.afterChecks rnd k).tempSensor.readTemperature rnd k.handler.now
                  k.handler.ntc).1
                  (m.afterChecks rnd k).calibrationOffset)).setSystemState
              STATE_CALIBRATION).setPage PAGE_CALIBRATION,
          userInput :=
            (((m.afterChecks rnd k).userInput.update k.inputNow k.buttonDown
              k.encoderRaw).getEvent k.eventNow).2 }).saveSettings rnd k.commitOk)
    (m.afterChecks rnd k).previousState
  rw [f3, f7]
  obtain ⟨s1, s2, s3, s4, s5⟩ := saveSettings_slots rnd
    ({ (m.afterChecks rnd k) with
          tempSensor :=
            ((m.afterChecks rnd k).tempSensor.readTemperature rnd k.handler.now
              k.handler.ntc).2.setCalibration (m.afterChecks rnd k).calibrationOffset,
          displayManager :=
            (((m.afterChecks rnd k).displayManager.setTemperature
                ((m.afterChecks rnd k).tempSensor.readTemperature rnd k.handler.now
                  k.handler.ntc).1
                (F.add rnd ((m.afterChecks rnd k).tempSensor.readTemperature rnd k.handler.now
                  k.handler.ntc).1
                  (m.afterChecks rnd k).calibrationOffset)).setSystemState
              STATE_CALIBRATION).setPage PAGE_CALIBRATION,
          userInput :=
            (((m.afterChecks rnd k).userInput.update k.inputNow k.buttonDown
              k.encoderRaw).getEvent k.eventNow).2 }) k.commitOk
  refine ⟨rfl, s5, s1, s2, s3, s4, ?_, f1⟩
  intro hc
  simp [saveSettings, EEPROM.commit, hc]

/-- C17 at the calibration session with working offset 2 and a long press
pending. -/
theorem c17_long_press_commits_calibration_witness :
    ((calibrating (F.fin 2) EV_LONG_PRESS).currentState = STATE_CALIBRATION ∧
      (calibrating (F.fin 2) EV_LONG_PRESS).event Tick.quiet = EV_LONG_PRESS) ∧
    ∃ m', update F.f32 (calibrating (F.fin 2) EV_LONG_PRESS) Tick.quiet = some m' ∧
      m'.tempSensor.getCalibration = (calibrating (F.fin 2) EV_LONG_PRESS).calibrationOffset ∧
      m'.eeprom.get EEPROM_TEMP_CALIBRATION_ADDR
        = (calibrating (F.fin 2) EV_LONG_PRESS).calibrationOffset ∧
      m'.eeprom.get EEPROM_PID_KP_ADDR
        = F.narrow F.f32 (calibrating (F.fin 2) EV_LONG_PRESS).pidController.kp ∧
      m'.eeprom.get EEPROM_PID_KI_ADDR
        = F.narrow F.f32 (calibrating (F.fin 2) EV_LONG_PRESS).pidController.ki ∧
      m'.eeprom.get EEPROM_PID_KD_ADDR
        = F.narrow F.f32 (calibrating (F.fin 2) EV_LONG_PRESS).pidController.kd ∧
      m'.eeprom.get EEPROM_TARGET_TEMP_ADDR
        = F.narrow F.f32 (calibrating (F.fin 2) EV_LONG_PRESS).pidController.getTargetTemp ∧
      (Tick.quiet.commitOk = true → m'.eeprom.flash = m'.eeprom.data) ∧
      m'.currentState = (calibrating (F.fin 2) EV_LONG_PRESS).previousState :=
  ⟨⟨rfl, by decide⟩,
    c17_long_press_commits_calibration F.f32 (calibrating (F.fin 2) EV_LONG_PRESS) Tick.quiet
      rfl rfl (by decide) (by decide)⟩

end StateMachine

namespace StateMachine

/-- The value `begin()` returns is the result of the sensor check of the
self-test, made on the sensor as `loadSettings` left it. -/
theorem begin_result (rnd : ℚ → F) (m : StateMachine) (k : Sample) :
    (m.begin rnd k).1 =
      (({ m with eeprom := m.eeprom.begin }).loadSettings.tempSensor.checkSensor rnd k.now
        k.ntc).1 := by
  unfold begin performSelfTest
  dsimp only
  cases h : (({ m with eeprom := m.eeprom.begin }).loadSettings.tempSensor.checkSensor rnd
    k.now k.ntc).1 <;> simp [h]

/-- C19: on a state machine that holds no error (as the constructor leaves
it), `begin()` returns `false`, leaving the state Error with error kind
SystemFault and the gate through `emergencyStop()`, when the sensor check of
the self-test fails; it returns `true`, leaving the state Idle with no error,
when the sensor check passes. -/
theorem c19_begin_self_test (rnd : ℚ → F) (m : StateMachine) (k : Sample)
    (hE : m.currentError = ERROR_NONE) :
    ((({ m with eeprom := m.eeprom.begin }).loadSettings.tempSensor.checkSensor rnd k.now
          k.ntc).1 = false →
        (m.begin rnd k).1 = false ∧ (m.begin rnd k).2.currentState = STATE_ERROR ∧
          (m.begin rnd k).2.currentError = ERROR_SYSTEM ∧
          (m.begin rnd k).2.pwmController = m.pwmController.emergencyStop) ∧
    ((({ m with eeprom := m.eeprom.begin }).loadSettings.tempSensor.checkSensor rnd k.now
          k.ntc).1 = true →
        (m.begin rnd k).1 = true ∧ (m.begin rnd k).2.currentState = STATE_IDLE ∧
          (m.begin rnd k).2.currentError = ERROR_NONE) := by
  constructor
  · intro hc
    refine ⟨by rw [begin_result, hc], ?_⟩
    unfold begin performSelfTest
    dsimp only
    simp only [hc, Bool.not_false, ↓reduceIte]
    obtain ⟨h1, h2, -, -, h5, -⟩ := setError_fields
      { ({ m with eeprom := m.eeprom.begin }).loadSettings with
        watchdogTimer := some 0, watchdogEnabled := true,
        tempSensor := (({ m with eeprom := m.eeprom.begin }).loadSettings.tempSensor.checkSensor
          rnd k.now k.ntc).2 }
      ERROR_SYSTEM "Self test failed"
    exact ⟨h1, h2, h5⟩
  · intro hc
    refine ⟨by rw [begin_result, hc], ?_⟩
    unfold begin performSelfTest
    dsimp only
    simp only [hc, Bool.not_true, Bool.false_eq_true, ↓reduceIte]
    obtain ⟨h1, h2, -⟩ := setState_frame
      { ({ m with eeprom := m.eeprom.begin }).loadSettings with
        watchdogTimer := some 0, watchdogEnabled := true,
        tempSensor := (({ m with eeprom := m.eeprom.begin }).loadSettings.tempSensor.checkSensor
          rnd k.now k.ntc).2 }
      STATE_IDLE
    exact ⟨h1, h2.trans hE⟩

/-- C19 at the constructed state machine of `StateMachine.boot`, whose sensor
holds 25 degrees. -/
theorem c19_begin_self_test_witness :
    boot.currentError = ERROR_NONE ∧
      ((({ boot with eeprom := boot.eeprom.begin }).loadSettings.tempSensor.checkSensor F.f32
            Sample.quiet.now Sample.quiet.ntc).1 = false →
          (boot.begin F.f32 Sample.quiet).1 = false ∧
            (boot.begin F.f32 Sample.quiet).2.currentState = STATE_ERROR ∧
            (boot.begin F.f32 Sample.quiet).2.currentError = ERROR_SYSTEM ∧
            (boot.begin F.f32 Sample.quiet).2.pwmController
              = boot.pwmController.emergencyStop) ∧
      ((({ boot with eeprom := boot.eeprom.begin }).loadSettings.tempSensor.checkSensor F.f32
            Sample.quiet.now Sample.quiet.ntc).1 = true →
          (boot.begin F.f32 Sample.quiet).1 = true ∧
            (boot.begin F.f32 Sample.quiet).2.currentState = STATE_IDLE ∧
            (boot.begin F.f32 Sample.quiet).2.currentError = ERROR_NONE) :=
  ⟨rfl, c19_begin_self_test F.f32 boot Sample.quiet rfl⟩

/-- C18 at the failing input: the store holds the calibration offset 10;
`begin()` applies it; the user enters the menu, selects the calibration entry,
turns the encoder clockwise once and commits with a long press.  The offset
applied to the sensor and the offset written to the store are then
`10 + 0.1f` rounded to binary32, outside `[-10, 10]`; on the next `begin()`
`loadSettings` rejects the stored value and the calibration falls back to 0. -/
theorem c18_committed_offset_out_of_range :
    ((boot.begin F.f32 Sample.quiet).1 = true ∧
      (boot.begin F.f32 Sample.quiet).2.tempSensor.getCalibration = F.fin 10) ∧
    overrun.map (fun m => (m.currentState, m.tempSensor.getCalibration,
        m.eeprom.get EEPROM_TEMP_CALIBRATION_ADDR))
      = some (STATE_MENU, F.fin (5295309 / 524288), F.fin (5295309 / 524288)) ∧
    (F.fin (5295309 / 524288)).within (-10) 10 = false ∧
    overrun.map (fun m => (m.begin F.f32 Sample.quiet).2.tempSensor.getCalibration)
      = some (F.fin 0) := by
  refine ⟨⟨by decide, by decide⟩, by decide!, by decide!, by decide!⟩

end StateMachine

/-! ## Theorems: the power percentage -/

namespace PWMController

theorem setDutyCycle_le (g : PWMController) (d : Nat) :
    (g.setDutyCycle d).dutyCycle ≤ 1023 := by
  unfold setDutyCycle
  dsimp only
  split <;> split <;> simp_all [PWM_MAX_DUTY, PWM_RESOLUTION]

/-- C24, as stated, fails: at the stored duty 1022 `getPowerPercentage()`
returns 99, while the integer nearest to `100 * 1022 / 1023` is 100. -/
theorem c24_power_percentage_truncates :
    (new.setDutyCycle 1022).getDutyCycle = 1022 ∧
      (new.setDutyCycle 1022).getPowerPercentage = 99 ∧
      round ((100 * 1022 : ℚ) / 1023) = 100 := by
  refine ⟨by decide, by decide, by decide!⟩

/-- C24, amended: for every stored duty `c` in `0..1023`,
`getPowerPercentage()` is `100 * c / 1023` rounded down to an integer (not to
the nearest), and it never exceeds 100. -/
theorem c24_power_percentage_floor (g : PWMController) (h : g.dutyCycle ≤ 1023) :
    g.getPowerPercentage = ⌊(100 * g.dutyCycle : ℚ) / 1023⌋₊ ∧ g.getPowerPercentage ≤ 100 := by
  have h1 : g.dutyCycle * 100 / 1023 ≤ 100 := by omega
  have h2 : g.getPowerPercentage = g.dutyCycle * 100 / 1023 := by
    unfold getPowerPercentage
    simp only [PWM_MAX_DUTY, PWM_RESOLUTION]
    omega
  refine ⟨?_, by omega⟩
  rw [h2]
  have h3 : ((100 * g.dutyCycle : ℚ) / 1023) = (((g.dutyCycle * 100 : ℕ) : ℚ) / ((1023 : ℕ) : ℚ)) := by
    push_cast
    ring
  rw [h3, Nat.floor_div_eq_div]

/-- C24, amended, at the stored duty 1022. -/
theorem c24_power_percentage_floor_witness :
    (new.setDutyCycle 1022).dutyCycle ≤ 1023 ∧
      (new.setDutyCycle 1022).getPowerPercentage
        = ⌊(100 * (new.setDutyCycle 1022).dutyCycle : ℚ) / 1023⌋₊ ∧
      (new.setDutyCycle 1022).getPowerPercentage ≤ 100 :=
  ⟨by decide, c24_power_percentage_floor (new.setDutyCycle 1022) (by decide)⟩

end PWMController

/-! ## Theorems: the moving-average filter -/

namespace TempSensor

theorem applyFilter_state (rnd : ℚ → F) (s : TempSensor) (c : F) :
    (s.applyFilter rnd c).2.tempBuffer = Function.update s.tempBuffer s.bufferIndex c ∧
      (s.applyFilter rnd c).2.bufferIndex = s.bufferIndex + 1 := ⟨rfl, rfl⟩

theorem applyFilter_value (rnd : ℚ → F) (s : TempSensor) (c : F) (b : Fin 10 → F)
    (h : (s.applyFilter rnd c).2.tempBuffer = b) :
    (s.applyFilter rnd c).1 =
      F.div rnd ((List.finRange 10).foldl (fun acc i => F.add rnd acc (b i)) (F.fin 0))
        (F.fin 10) := by
  subst h
  unfold applyFilter
  rfl

/-- After `n` calls with `c` the index has advanced by `n` and the `n` slots
from the starting index on hold `c`. -/
theorem feed_slots (rnd : ℚ → F) (s : TempSensor) (c : F) (n : Nat) :
    (feed rnd s c n).bufferIndex = s.bufferIndex + (n : Fin 10) ∧
      ∀ k, k < n → (feed rnd s c n).tempBuffer (s.bufferIndex + (k : Fin 10)) = c := by
  induction n with
  | zero => exact ⟨by simp [feed], fun k hk => absurd hk (Nat.not_lt_zero k)⟩
  | succ n ih =>
    obtain ⟨i1, i2⟩ := ih
    have hb : (feed rnd s c (n + 1)).tempBuffer
        = Function.update (feed rnd s c n).tempBuffer (s.bufferIndex + (n : Fin 10)) c := by
      rw [← i1]; rfl
    constructor
    · show (feed rnd s c n).bufferIndex + 1 = _
      rw [i1]
      push_cast
      ring
    · intro k hk
      rw [hb, Function.update_apply]
      split
      · rfl
      · exact i2 k (by
          rcases Nat.lt_succ_iff_lt_or_eq.mp hk with h | h
          · exact h
          · subst h; contradiction)

theorem every_slot (i j : Fin 10) : ∃ k, k < 10 ∧ j = i + ((k : Nat) : Fin 10) := by
  revert i j
  decide

/-- From the tenth call on every slot holds `c`. -/
theorem feed_full (rnd : ℚ → F) (s : TempSensor) (c : F) (n : Nat) (j : Fin 10) :
    (feed rnd s c (n + 10)).tempBuffer j = c := by
  obtain ⟨k, hk, hj⟩ := every_slot s.bufferIndex j
  rw [hj]
  exact (feed_slots rnd s c (n + 10)).2 k (by omega)

/-- In exact arithmetic the mean of ten equal values is that value (also for
NaN and the infinities). -/
theorem mean_of_constant (c : F) :
    F.div F.fin ((List.finRange 10).foldl (fun acc _ => F.add F.fin acc c) (F.fin 0))
      (F.fin 10) = c := by
  cases c with
  | nan => rfl
  | ninf => rfl
  | pinf => rfl
  | fin q =>
    have h : (List.finRange 10).foldl (fun acc _ => F.add F.fin acc (F.fin q)) (F.fin 0)
        = F.fin (0 + q + q + q + q + q + q + q + q + q + q) := rfl
    rw [h]
    simp only [F.div]
    norm_num
    ring

/-- C21: in exact arithmetic, for every content of the ring buffer, every
buffer index and every constant `c`, after ten consecutive `applyFilter(c)`
calls every slot holds `c` and the index is back at its starting value, and
the tenth call and every later call with `c` return exactly `c`. -/
theorem c21_filter_settles_on_constant (s : TempSensor) (c : F) :
    (∀ j, (feed F.fin s c 10).tempBuffer j = c) ∧
      (feed F.fin s c 10).bufferIndex = s.bufferIndex ∧
      ∀ n, fed F.fin s c (n + 9) = c := by
  refine ⟨fun j => feed_full F.fin s c 0 j, ?_, ?_⟩
  · rw [(feed_slots F.fin s c 10).1]
    have : ((10 : Nat) : Fin 10) = 0 := rfl
    rw [this, add_zero]
  · intro n
    have hb : ((feed F.fin s c (n + 9)).applyFilter F.fin c).2.tempBuffer = fun _ => c := by
      funext j
      exact feed_full F.fin s c n j
    unfold fed
    rw [applyFilter_value F.fin _ c _ hb]
    exact mean_of_constant c

end TempSensor

/-! ## Theorems: the first reading and the conversion -/

namespace F

/-- The binary exponent of the literal `100000.0f`. -/
theorem expo_100000 : expo 100000 = 16 := by
  have h : Nat.log2 100000 = 16 := by
    rw [Nat.log2_eq_log_two, Nat.log_eq_iff (by norm_num)]; norm_num
  simp [expo, h]

/-- The binary exponent of the literal `3950.0f`. -/
theorem expo_3950 : expo 3950 = 11 := by
  have h : Nat.log2 3950 = 11 := by
    rw [Nat.log2_eq_log_two, Nat.log_eq_iff (by norm_num)]; norm_num
  simp [expo, h]

/-- The literals `NTC_SERIES_R` and `NTC_R25` are binary32 numbers. -/
theorem f32_100000 : f32 100000 = fin 100000 := by
  rw [f32, expo_100000]; decide!

/-- The literal `NTC_B` is a binary32 number. -/
theorem f32_3950 : f32 3950 = fin 3950 := by
  rw [f32, expo_3950]; decide!

end F

namespace TempSensor

/-- Claim C22 (fails in the code): `begin()` fills the buffer with what
`readTemperature()` returns, and that is already the filtered value, the
first real reading averaged with the nine zeros of the constructor. With a
first reading of 25 degrees every slot and the reported temperature are 2.5,
and after the next sample the report is 4.75. -/
theorem c22_begin_seeds_filtered_reading :
    (new.begin F.f32 true 5 (F.fin 25)).1 = true ∧
      new.voltageToTemp F.f32 (F.fin 25) = F.fin 25 ∧
      (∀ j, (new.begin F.f32 true 5 (F.fin 25)).2.tempBuffer j = F.fin (5 / 2)) ∧
      (new.begin F.f32 true 5 (F.fin 25)).2.lastTemp = F.fin (5 / 2) ∧
      ((new.begin F.f32 true 5 (F.fin 25)).2.readTemperature F.f32 6 (F.fin 25)).1
        = F.fin (5 / 2) ∧
      ((new.begin F.f32 true 5 (F.fin 25)).2.readTemperature F.f32 200 (F.fin 25)).1
        = F.fin (19 / 4) := by
  refine ⟨by decide!, by decide!, by decide!, by decide!, by decide!, by decide!⟩

/-- In `float` arithmetic the argument of the logarithm is this expression,
whatever the logarithm is. -/
theorem logArgument_float (rnd flog : ℚ → F) (v : F) :
    logArgument (F.arith rnd flog) v =
      F.div rnd (F.mul rnd (rnd NTC_SERIES_R)
        (F.sub rnd (F.div rnd (rnd NTC_VCC) v) (rnd 1))) (rnd NTC_R25) := rfl

/-- In `float` arithmetic the conversion is this function of the logarithm. -/
theorem ntcTemp_float (rnd flog : ℚ → F) (v : F) :
    ntcTemp (F.arith rnd flog) v =
      F.sub rnd (F.div rnd (rnd 1)
        (F.add rnd (F.div rnd (F.log flog (logArgument (F.arith rnd flog) v)) (rnd NTC_B))
          (F.div rnd (rnd 1) (F.add rnd (rnd 25) (rnd KELVIN))))) (rnd KELVIN) := rfl

/-- The method `voltageToTemp` adds the calibration offset to the value of
the B-parameter equation. -/
theorem voltageToTemp_eq (rnd flog : ℚ → F) (s : TempSensor) (v : F) :
    s.voltageToTemp rnd (ntcTemp (F.arith rnd flog) v) =
      voltageToTempIn (F.arith rnd flog) s.tempOffset v := rfl

/-- At zero volts the argument of the logarithm is plus infinity. -/
theorem logArgument_open (flog : ℚ → F) :
    logArgument (F.arith F.f32 flog) (F.fin 0) = F.pinf := by
  rw [logArgument_float]
  simp only [NTC_SERIES_R, NTC_R25, F.f32_100000]
  decide!

/-- At the supply voltage the argument of the logarithm is zero. -/
theorem logArgument_short (flog : ℚ → F) :
    logArgument (F.arith F.f32 flog) (F.f32 NTC_VCC) = F.fin 0 := by
  rw [logArgument_float]
  simp only [NTC_SERIES_R, NTC_R25, F.f32_100000]
  decide!

/-- Claim C23 (fails in the code): nothing clamps the voltage. At zero volts
`NTC_VCC / voltage` is a division by zero and yields plus infinity; at the
supply voltage the argument of the logarithm is zero and the logarithm is
minus infinity. Both inputs run through the whole formula and come out as
the ordinary sample -273.15, which `readTemperature()` averages into the
filter like any other. -/
theorem c23_open_and_short_circuit_unguarded (flog : ℚ → F) :
    F.div F.f32 (F.f32 NTC_VCC) (F.fin 0) = F.pinf ∧
      logArgument (F.arith F.f32 flog) (F.fin 0) = F.pinf ∧
      logArgument (F.arith F.f32 flog) (F.f32 NTC_VCC) = F.fin 0 ∧
      F.log flog (logArgument (F.arith F.f32 flog) (F.f32 NTC_VCC)) = F.ninf ∧
      ntcTemp (F.arith F.f32 flog) (F.fin 0) = F.fin (-8950579 / 32768) ∧
      ntcTemp (F.arith F.f32 flog) (F.f32 NTC_VCC) = F.fin (-8950579 / 32768) ∧
      ((holding (F.fin 25)).readTemperature F.f32 2000
        (ntcTemp (F.arith F.f32 flog) (F.fin 0))).1 = F.fin (-5048893 / 1048576) := by
  have h0 : ntcTemp (F.arith F.f32 flog) (F.fin 0) = F.fin (-8950579 / 32768) := by
    rw [ntcTemp_float, logArgument_open]
    simp only [NTC_B, F.f32_3950]
    have hl : F.log flog F.pinf = F.pinf := rfl
    rw [hl]
    decide!
  have h1 : ntcTemp (F.arith F.f32 flog) (F.f32 NTC_VCC) = F.fin (-8950579 / 32768) := by
    rw [ntcTemp_float, logArgument_short]
    simp only [NTC_B, F.f32_3950]
    have hl : F.log flog (F.fin 0) = F.ninf := by simp [F.log]
    rw [hl]
    decide!
  refine ⟨by decide!, logArgument_open flog, logArgument_short flog, ?_, h0, h1, ?_⟩
  · rw [logArgument_short]; simp [F.log]
  · rw [h0]; decide!

/-- Claim C25: over the real numbers the series resistor equals `NTC_R25`,
at half the supply voltage the argument of the logarithm is 1, the
conversion returns exactly 25 with offset 0 and 25 + o with offset o, and at
every voltage the result is the B-parameter equation
`1 / (1 / (25 + 273.15) + ln (R / R25) / B) - 273.15` plus the offset. -/
theorem c25_conversion_at_25_degrees (o : ℝ) :
    NTC_SERIES_R = NTC_R25 ∧
      logArgument (Arith.ofField ℝ Real.log) ((NTC_VCC : ℝ) / 2) = 1 ∧
      voltageToTempIn (Arith.ofField ℝ Real.log) 0 ((NTC_VCC : ℝ) / 2) = 25 ∧
      voltageToTempIn (Arith.ofField ℝ Real.log) o ((NTC_VCC : ℝ) / 2) = 25 + o ∧
      ∀ V : ℝ, voltageToTempIn (Arith.ofField ℝ Real.log) o V =
        1 / (1 / (25 + 273.15) +
          Real.log (NTC_SERIES_R * (NTC_VCC / V - 1) / NTC_R25) / NTC_B) - 273.15 + o := by
  have hA : logArgument (Arith.ofField ℝ Real.log) ((NTC_VCC : ℝ) / 2) = 1 := by
    simp only [logArgument, ntcResistance, Arith.ofField, NTC_VCC, NTC_SERIES_R, NTC_R25]
    norm_num
  have hT : ntcTemp (Arith.ofField ℝ Real.log) ((NTC_VCC : ℝ) / 2) = 25 := by
    unfold ntcTemp
    rw [hA]
    simp only [Arith.ofField, KELVIN, NTC_B, Real.log_one]
    norm_num
  refine ⟨rfl, hA, ?_, ?_, ?_⟩
  · unfold voltageToTempIn; rw [hT]; simp [Arith.ofField]
  · unfold voltageToTempIn; rw [hT]; simp [Arith.ofField]
  · intro V
    simp only [voltageToTempIn, ntcTemp, logArgument, ntcResistance, Arith.ofField, KELVIN,
      NTC_B, NTC_VCC, NTC_SERIES_R, NTC_R25]
    norm_num
    ring_nf

end TempSensor

/-! ## Theorems: clicks -/

namespace UserInput

/-- The clock difference of two values in order, the later below `2^32`. -/
theorem sub32_of_le (a b : Nat) (h : b ≤ a) (ha : a < 2 ^ 32) : sub32 a b = a - b := by
  unfold sub32
  have hb : b % 2 ^ 32 = b := Nat.mod_eq_of_lt (by omega)
  rw [hb]
  omega

/-- A poll without a button change on an input whose first click is waiting
reports no single click (nor any other click), and the click keeps waiting. -/
theorem poll_of_waiting (u : UserInput) (T t now : Nat) (b : Bool) (h : Waiting T t u)
    (ht : t ≤ now) (hn : now < 2 ^ 32) :
    (u.poll { now := now, edge := false, buttonDown := b }).1 ≠ EV_SINGLE_CLICK ∧
      Waiting T now (u.poll { now := now, edge := false, buttonDown := b }).2 := by
  obtain ⟨hi, hg, hl, hd, hT, hTt, hc⟩ := h
  have hs : sub32 now u.lastButtonReleaseTime = now - T := by
    rw [hT]; exact sub32_of_le now T (by omega) hn
  unfold Waiting poll update getEvent
  simp only [hi, hg, hs, Bool.not_true, Bool.false_eq_true, if_false]
  rcases hc with hc | ⟨hc, hw⟩
  · by_cases hw : now - T > DOUBLE_CLICK_TIME
    · simp [hc, hw, hl, hd, hT, hs, hi, hg]
      unfold DOUBLE_CLICK_TIME at hw ⊢
      split_ifs <;> simp_all <;> omega
    · simp [hc, hw, hl, hd, hT, hs, hi, hg]
      split_ifs <;> simp_all <;> omega
  · have hw2 : ¬ (now - T ≤ DOUBLE_CLICK_TIME) := by omega
    simp [hc, hw2, hl, hd, hT, hs, hi, hg]
    unfold DOUBLE_CLICK_TIME at hw hw2 ⊢
    split_ifs <;> simp_all <;> omega

/-- Polling a waiting click at clocks in order, without a button change,
never reports a single click. -/
theorem events_of_waiting (ps : List Poll) :
    ∀ (u : UserInput) (T t : Nat), Waiting T t u →
      List.Chain (fun a b => a ≤ b) t (ps.map Poll.now) →
      (∀ p ∈ ps, p.edge = false ∧ p.now < 2 ^ 32) →
      EV_SINGLE_CLICK ∉ u.events ps := by
  induction ps with
  | nil => intro u T t _ _ _; simp [events]
  | cons p ps ih =>
    intro u T t h hc hb
    have hp := hb p (List.mem_cons_self _ _)
    rw [List.map_cons, List.chain_cons] at hc
    have hpe : p = { now := p.now, edge := false, buttonDown := p.buttonDown } := by
      cases p; simp_all
    have hstep := poll_of_waiting u T t p.now p.buttonDown h hc.1 hp.2
    rw [← hpe] at hstep
    simp only [events, List.mem_cons, not_or]
    exact ⟨fun h => hstep.1 h.symm,
      ih _ T p.now hstep.2 hc.2 (fun q hq => hb q (List.mem_cons_of_mem _ hq))⟩

/-- The poll that sees the release of a short first press reports no single
click and leaves the click waiting. -/
theorem poll_of_release (u : UserInput) (now : Nat) (hi : u.initialized = true)
    (hp : u.buttonPressed = true) (hl : u.processingLongPress = false)
    (hd : u.processingDoubleClick = false) (hc : u.clickCount = 0)
    (h0 : u.buttonPressTime ≤ now) (h1 : now < u.buttonPressTime + LONG_PRESS_TIME)
    (hn : now < 2 ^ 32) :
    (u.poll { now := now, edge := true, buttonDown := false }).1 ≠ EV_SINGLE_CLICK ∧
      Waiting now now (u.poll { now := now, edge := true, buttonDown := false }).2 := by
  have hs : sub32 now u.buttonPressTime = now - u.buttonPressTime :=
    sub32_of_le now _ h0 hn
  have hs0 : sub32 now now = 0 := by rw [sub32_of_le now now (le_refl _) hn]; omega
  have hlt : ¬ (LONG_PRESS_TIME ≤ now - u.buttonPressTime) := by omega
  unfold Waiting poll update getEvent buttonInterrupt onButtonChange
  simp [hi, hp, hl, hd, hc, hs, hs0, hlt, DOUBLE_CLICK_TIME]
  split_ifs <;> simp_all

/-- Claim C29 (fails in the code): a lone short click is never reported. The
click counter returns to 0 only once the double-click window is over, and
`getEvent()` reports a single click only inside that window, so every poll
of the lone click yields `EV_NONE`. A double click is reported, and the poll
after it reports an additional single click. -/
theorem c29_lone_click_lost_double_click_doubled :
    new.begin.events Poll.loneClick
        = [EV_NONE, EV_NONE, EV_NONE, EV_NONE, EV_NONE, EV_NONE, EV_NONE, EV_NONE, EV_NONE] ∧
      new.begin.events Poll.doubleClick
        = [EV_NONE, EV_NONE, EV_NONE, EV_DOUBLE_CLICK, EV_SINGLE_CLICK, EV_NONE] := by
  refine ⟨by decide, by decide⟩

end UserInput

/-! ## Theorems: the main program -/

namespace Main

/-- Claim C30 (fails in the code): `setup()` sets `systemState = STATE_ERROR`
when an error was recorded and then overwrites it with `STATE_IDLE`
unconditionally, so every `setup()` ends in Idle. After a failed sensor start
the error code is `ERROR_TEMP_SENSOR` and the error page is shown; the first
pass of `loop()` does not start heating on a single click, but only because
of the page. Once the error page is dismissed a single click starts heating
with the sensor never initialised, and the next status update writes the full
duty 1023 against the reading -999. -/
theorem c30_setup_overwrites_error_state :
    (∀ (rnd : ℚ → F) (m : Main) (adsOk : Bool) (s : Sample),
        (m.setup rnd adsOk s).systemState = STATE_IDLE) ∧
      (∀ (rnd : ℚ → F) (s : Sample), (new.setup rnd false s).errorCode = ERROR_TEMP_SENSOR) ∧
      sensorFailed.tempSensor.initialized = false ∧
      sensorFailed.view = (STATE_IDLE, ERROR_TEMP_SENSOR, UI_PAGE_ERROR, false) ∧
      (sensorFailed.withClick.loopHead F.f32 LoopInput.click).map view
        = some (STATE_IDLE, ERROR_TEMP_SENSOR, UI_PAGE_ERROR, false) ∧
      (sensorFailed.dismissed.withClick.loopHead F.f32 LoopInput.click).map view
        = some (STATE_WORKING, ERROR_TEMP_SENSOR, UI_PAGE_MAIN, true) ∧
      ((sensorFailed.dismissed.withClick.loopHead F.f32 LoopInput.click).bind
          (fun m => m.loopHead F.f32
            { LoopInput.click with currentTime := 2400, pidNow := 2400 })).map
          (fun m => (m.view, m.pwmController.ledc, m.pidController.input))
        = some ((STATE_WORKING, ERROR_TEMP_SENSOR, UI_PAGE_MAIN, true), 1023, F.fin (-999)) := by
  refine ⟨fun _ _ _ _ => rfl, fun _ _ => rfl, by decide, by decide, by decide!, by decide!,
    by decide!⟩

end Main

/-! ## Theorems: invariants of the reachable states -/

namespace StateMachine

theorem setDutyCycle_enabled (g : PWMController) (d : Nat) :
    (g.setDutyCycle d).enabled = g.enabled := by
  unfold PWMController.setDutyCycle
  dsimp only
  split <;> rfl

theorem disable_enabled (g : PWMController) (h : g.Consistent) : g.disable.enabled = false := by
  obtain ⟨h1, h2⟩ := h
  cases hi : g.initialized <;> cases he : g.enabled <;>
    simp_all [PWMController.disable]

theorem emergencyStop_enabled (g : PWMController) (h : g.Consistent) :
    g.emergencyStop.enabled = false := by
  obtain ⟨h1, h2⟩ := h
  cases hi : g.initialized <;> cases he : g.enabled <;>
    simp_all [PWMController.emergencyStop]

theorem enable_enabled (g : PWMController) (h : g.enabled = false) (hi : g.initialized = false) :
    g.enable.enabled = false := by
  simp [PWMController.enable, hi, h]

/-- The invariant after `setState(n)`: the gate must be off unless `n` is
Idle or Working, Calibration may only be entered from the menu, and `n` is
Error exactly when an error is recorded. -/
theorem setState_sound (m : StateMachine) (n : SystemState)
    (hc : m.pwmController.Consistent)
    (hJ0 : m.currentState ≠ STATE_WORKING → m.pwmController.enabled = false)
    (hJ : n ≠ STATE_WORKING → n ≠ STATE_IDLE → m.pwmController.enabled = false)
    (hK : n = STATE_CALIBRATION →
      m.currentState = STATE_MENU ∨
        (m.currentState = STATE_CALIBRATION ∧ m.previousState = STATE_MENU))
    (hE : n = STATE_ERROR ↔ m.currentError ≠ ERROR_NONE) :
    (m.setState n).Sound := by
  unfold setState
  by_cases h : n = m.currentState
  · simp only [ne_eq, h, not_true_eq_false, if_false]
    refine ⟨hc, hJ0, fun hcal => ?_, ?_⟩
    · rcases hK (h.trans hcal) with h1 | h1
      · rw [hcal] at h1; exact absurd h1 (by decide)
      · exact h1.2
    · rw [← h]; exact hE
  · simp only [ne_eq, h, not_false_eq_true, if_true]
    have hK2 : n = STATE_CALIBRATION → m.currentState = STATE_MENU := by
      intro hcal
      rcases hK hcal with h1 | h1
      · exact h1
      · exact absurd (hcal.trans h1.1.symm) h
    cases n
    · exact ⟨(consistent_closed _ hc).2.2.1, fun _ => disable_enabled _ hc,
        (fun hcal => by cases hcal), hE⟩
    · exact ⟨(consistent_closed _ hc).2.1, fun hw => absurd rfl hw,
        (fun hcal => by cases hcal), hE⟩
    · exact ⟨hc, fun _ => hJ (by decide) (by decide), fun _ => hK2 rfl, hE⟩
    · exact ⟨hc, fun _ => hJ (by decide) (by decide), (fun hcal => by cases hcal), hE⟩
    · exact ⟨hc, fun _ => hJ (by decide) (by decide), (fun hcal => by cases hcal), hE⟩

/-- Every call of `setError` with an error other than None establishes the
invariant. -/
theorem setError_sound (m : StateMachine) (e : ErrorCode) (msg : String)
    (hc : m.pwmController.Consistent) (he : e ≠ ERROR_NONE) : (m.setError e msg).Sound := by
  unfold setError
  refine setState_sound _ _ (consistent_closed _ hc).2.2.2
    (fun _ => emergencyStop_enabled _ hc) (fun _ _ => emergencyStop_enabled _ hc)
    (fun h => by cases h) ⟨fun _ => he, fun _ => rfl⟩

theorem sound_no_error (m : StateMachine) (h : m.Sound) (hs : m.currentState ≠ STATE_ERROR) :
    m.currentError = ERROR_NONE := by
  by_contra hne
  exact hs (h.2.2.2.2 hne)

theorem handleIdleState_sound (rnd : ℚ → F) (m : StateMachine) (k : Tick) (h : m.Sound)
    (hs : m.currentState = STATE_IDLE) : (m.handleIdleState rnd k).Sound := by
  have herr := sound_no_error m h (by rw [hs]; decide)
  obtain ⟨hc, hJ, hK, hE⟩ := h
  have hen : m.pwmController.enabled = false := hJ (by rw [hs]; decide)
  unfold handleIdleState
  dsimp only
  split <;> first
    | exact ⟨hc, hJ, hK, hE⟩
    | exact setState_sound _ _ hc hJ (fun _ _ => hen) (fun h => by cases h)
        ⟨(fun h => by cases h), fun h => absurd herr h⟩

theorem handleMenuState_sound (rnd : ℚ → F) (m : StateMachine) (k : Tick) (h : m.Sound)
    (hs : m.currentState = STATE_MENU) : (m.handleMenuState rnd k).Sound := by
  have herr := sound_no_error m h (by rw [hs]; decide)
  obtain ⟨hc, hJ, hK, hE⟩ := h
  have hen : m.pwmController.enabled = false := hJ (by rw [hs]; decide)
  unfold handleMenuState
  dsimp only
  split
  · split <;> first
      | exact ⟨hc, hJ, hK, hE⟩
      | exact setState_sound _ _ hc hJ (fun _ _ => hen) (fun _ => Or.inl hs)
          ⟨(fun h => by cases h), fun h => absurd herr h⟩
  all_goals first
    | exact ⟨hc, hJ, hK, hE⟩
    | exact setState_sound _ _ hc hJ (fun _ _ => hen) (fun h => by cases h)
        ⟨(fun h => by cases h), fun h => absurd herr h⟩

theorem handleCalibrationState_sound (rnd : ℚ → F) (m : StateMachine) (k : Tick) (h : m.Sound)
    (hs : m.currentState = STATE_CALIBRATION) : (m.handleCalibrationState rnd k).Sound := by
  have herr := sound_no_error m h (by rw [hs]; decide)
  obtain ⟨hc, hJ, hK, hE⟩ := h
  have hen : m.pwmController.enabled = false := hJ (by rw [hs]; decide)
  have hp : m.previousState = STATE_MENU := hK hs
  have hne : ∀ n, n ≠ STATE_MENU → m.previousState ≠ n := fun n hn h => hn (h.symm.trans hp)
  unfold handleCalibrationState
  dsimp only
  split <;> first
    | exact ⟨hc, hJ, hK, hE⟩
    | exact setState_sound _ _ hc hJ (fun _ _ => hen)
        (fun h => absurd h (hne _ (by decide)))
        ⟨(fun h => absurd h (hne _ (by decide))), fun h => absurd herr h⟩

theorem handleErrorState_sound (m : StateMachine) (k : Tick) (h : m.Sound) :
    (m.handleErrorState k).Sound := by
  obtain ⟨hc, hJ, hK, hE⟩ := h
  have hc2 := (consistent_closed _ hc).2.2.2
  have hen := emergencyStop_enabled _ hc
  unfold handleErrorState
  dsimp only
  split
  · exact setState_sound _ _ hc2 (fun _ => hen) (fun _ _ => hen) (fun h => by cases h)
      ⟨(fun h => by cases h), fun h => absurd rfl h⟩
  · exact ⟨hc2, fun _ => hen, hK, hE⟩

theorem handleWorkingState_sound (rnd : ℚ → F) (m m' : StateMachine) (k : Tick) (h : m.Sound)
    (hs : m.currentState = STATE_WORKING) (hu : m.handleWorkingState rnd k = some m') :
    m'.Sound := by
  have herr := sound_no_error m h (by rw [hs]; decide)
  obtain ⟨hc, hJ, hK, hE⟩ := h
  unfold handleWorkingState at hu
  dsimp only at hu
  split at hu
  · exact absurd hu (by simp)
  · rename_i c hcomp
    obtain ⟨b, q⟩ := c
    cases b
    · simp only [Bool.false_eq_true, if_false] at hu
      have hd := (consistent_closed _ hc).2.2.1
      have hoff := disable_enabled _ hc
      split at hu <;> simp only [Option.some.injEq] at hu <;> subst hu <;> first
        | exact ⟨hc, hJ, hK, hE⟩
        | exact setState_sound _ _ hd (fun _ => hoff) (fun _ _ => hoff) (fun h => by cases h)
            ⟨(fun h => by cases h), fun h => absurd herr h⟩
    · simp only [if_true] at hu
      have hc1 := (consistent_closed _ hc).1 (toUint16 q.getOutput)
      have hd := (consistent_closed _ hc1).2.2.1
      have hoff := disable_enabled _ hc1
      have hJ1 : m.currentState ≠ STATE_WORKING →
          (m.pwmController.setDutyCycle (toUint16 q.getOutput)).enabled = false :=
        fun hw => absurd hs hw
      split at hu <;> simp only [Option.some.injEq] at hu <;> subst hu <;> first
        | exact ⟨hc1, hJ1, hK, hE⟩
        | exact setState_sound _ _ hd (fun _ => hoff) (fun _ _ => hoff) (fun h => by cases h)
            ⟨(fun h => by cases h), fun h => absurd herr h⟩

theorem dispatch_sound (rnd : ℚ → F) (m m' : StateMachine) (k : Tick) (h : m.Sound)
    (hu : m.dispatch rnd k = some m') : m'.Sound := by
  unfold dispatch at hu
  split at hu
  · rename_i hs
    simp only [Option.some.injEq] at hu; subst hu
    exact handleIdleState_sound rnd m k h hs
  · rename_i hs
    exact handleWorkingState_sound rnd m m' k h hs hu
  · rename_i hs
    simp only [Option.some.injEq] at hu; subst hu
    exact handleCalibrationState_sound rnd m k h hs
  · rename_i hs
    simp only [Option.some.injEq] at hu; subst hu
    exact handleMenuState_sound rnd m k h hs
  · simp only [Option.some.injEq] at hu; subst hu
    exact handleErrorState_sound m k h

/-- A tick preserves the invariant. -/
theorem update_sound (rnd : ℚ → F) (m m' : StateMachine) (k : Tick) (h : m.Sound)
    (hu : update rnd m k = some m') : m'.Sound := by
  have hr : m.resetWatchdog.Sound := by
    obtain ⟨r1, r2, r3, -, -, r6, -⟩ := resetWatchdog_fields m
    unfold Sound
    rw [r1, r2, r3, r6]
    exact h
  unfold update at hu
  dsimp only at hu
  split at hu
  · simp only [Option.some.injEq] at hu; subst hu
    exact setError_sound _ _ _ hr.1 (by decide)
  · split at hu
    · rename_i hne
      simp only [Option.some.injEq] at hu; subst hu
      exact setError_sound _ _ _ hr.1 hne
    · exact dispatch_sound rnd _ m' k (by exact hr) hu

/-- The machine after `begin()` on a constructed machine satisfies the
invariant. -/
theorem begin_sound (rnd : ℚ → F) (m : StateMachine) (k : Sample) (h : m.Sound)
    (hs : m.currentState = STATE_IDLE) : (m.begin rnd k).2.Sound := by
  have herr := sound_no_error m h (by rw [hs]; decide)
  obtain ⟨hc, hJ, hK, hE⟩ := h
  have hen : m.pwmController.enabled = false := hJ (by rw [hs]; decide)
  unfold begin
  dsimp only
  split
  · exact setError_sound _ _ _ hc (by decide)
  · exact setState_sound _ _ hc hJ (fun _ _ => hen) (fun h => by cases h)
      ⟨(fun h => by cases h), fun h => absurd herr h⟩

theorem new_sound (t : TempSensor) (p : PIDController) (g : PWMController)
    (d : DisplayManager) (u : UserInput) (e : EEPROM) (h1 : g.enabled = false)
    (h2 : g.ledc = 0) : (StateMachine.new t p g d u e).Sound := by
  refine ⟨⟨fun h => ?_, ?_⟩, fun _ => h1, (fun h => by cases h),
    ⟨(fun h => by cases h), fun h => absurd rfl h⟩⟩
  · have h3 : g.enabled = true := h
    rw [h1] at h3; cases h3
  · show g.ledc = if g.enabled then g.dutyCycle else 0
    rw [h1, h2]; rfl

/-- Every reachable state satisfies the invariant. -/
theorem reach_sound (rnd : ℚ → F) (m : StateMachine) (h : Reach rnd m) : m.Sound := by
  induction h with
  | constructed t p g d u e h1 h2 => exact new_sound t p g d u e h1 h2
  | begun t p g d u e k h1 h2 => exact begin_sound rnd _ k (new_sound t p g d u e h1 h2) rfl
  | tick m m' k _ hu ih => exact update_sound rnd m m' k ih hu
  | watchdog m _ ih => exact ih
  | input m u _ ih => exact ih

end StateMachine

namespace StateMachine

theorem reach_tickOr (m : StateMachine) (e : EncoderEvent) (h : Reach F.f32 m) :
    Reach F.f32 (m.tickOr e) := by
  unfold tickOr
  cases hu : update F.f32 (m.withEvent e) Tick.quiet with
  | none => exact h
  | some m' => exact Reach.tick _ _ _ (Reach.input m _ h) hu

theorem reach_started : Reach F.f32 started :=
  Reach.begun _ _ _ _ _ _ _ rfl rfl

/-- The state a tick of the Calibration handler ends in: it stays, or it is
the recorded previous state. -/
theorem handleCalibrationState_state (rnd : ℚ → F) (m : StateMachine) (k : Tick) :
    (m.handleCalibrationState rnd k).currentState = m.currentState ∨
      (m.handleCalibrationState rnd k).currentState = m.previousState := by
  unfold handleCalibrationState
  dsimp only
  split <;> first
    | exact Or.inl rfl
    | exact Or.inr (setState_frame _ _).1

/-- C26, as stated, fails: the constructor of the state machine does not touch
the gate, and `begin()` ends in `setState(STATE_IDLE)`, which does nothing when
the state is Idle already.  Over a gate that is enabled at duty 500 when the
state machine is constructed, `begin()` succeeds and leaves the state Idle
with the gate enabled and the physical output 500, and so does a following
tick without an event. -/
theorem c26_enabled_gate_survives_begin :
    overEnabledGate.outcome = (STATE_IDLE, ERROR_NONE, 500, true, 500) ∧
      (overEnabledGate.begin F.f32 Sample.quiet).1 = true ∧
      (overEnabledGate.begin F.f32 Sample.quiet).2.outcome
        = (STATE_IDLE, ERROR_NONE, 500, true, 500) ∧
      (update F.f32 (overEnabledGate.begin F.f32 Sample.quiet).2 Tick.quiet).map outcome
        = some (STATE_IDLE, ERROR_NONE, 500, true, 500) := by
  refine ⟨by decide, by decide!, by decide!, by decide!⟩

/-- C26, amended: in every state reached from a freshly constructed state
machine whose gate, at construction, is not enabled and drives nothing, by
`begin()` and ticks (any events, readings and watchdog firings), the gate is
enabled only if the state is Working; in every other state (Idle, Menu,
Calibration, Error) the gate is disabled and the physical output is 0. -/
theorem c26_gate_enabled_only_in_working (rnd : ℚ → F) (m : StateMachine)
    (h : Reach rnd m) :
    (m.pwmController.isEnabled = true → m.getState = STATE_WORKING) ∧
      (m.getState ≠ STATE_WORKING →
        m.pwmController.isEnabled = false ∧ m.pwmController.ledc = 0) := by
  obtain ⟨hc, hJ, -, -⟩ := reach_sound rnd m h
  have hoff : m.getState ≠ STATE_WORKING →
      m.pwmController.isEnabled = false ∧ m.pwmController.ledc = 0 := by
    intro hs
    have he : m.pwmController.enabled = false := hJ hs
    refine ⟨he, ?_⟩
    rw [hc.2, he]; rfl
  refine ⟨fun hen => ?_, hoff⟩
  by_contra hs
  have he : m.pwmController.enabled = false := (hoff hs).1
  have hen2 : m.pwmController.enabled = true := hen
  rw [he] at hen2
  cases hen2

/-- C26, amended, on a reachable state: heating, with the gate enabled. -/
theorem c26_gate_enabled_only_in_working_witness :
    Reach F.f32 inWorking ∧ inWorking.getState = STATE_WORKING ∧
      inWorking.pwmController.isEnabled = true ∧
      ((inWorking.pwmController.isEnabled = true → inWorking.getState = STATE_WORKING) ∧
        (inWorking.getState ≠ STATE_WORKING →
          inWorking.pwmController.isEnabled = false ∧ inWorking.pwmController.ledc = 0)) :=
  ⟨reach_tickOr _ _ reach_started, by decide!, by decide!,
    c26_gate_enabled_only_in_working F.f32 inWorking (reach_tickOr _ _ reach_started)⟩

/-- Claim C27: in every state reached from a freshly constructed state machine
by `begin()` and ticks, the state is Error if and only if the recorded error
kind is not None. -/
theorem c27_error_state_iff_error_recorded (rnd : ℚ → F) (m : StateMachine)
    (h : Reach rnd m) : m.getState = STATE_ERROR ↔ m.getError ≠ ERROR_NONE :=
  (reach_sound rnd m h).2.2.2

/-- The invariant of C27 on a reachable Error state: the self-test failed and
the error recorded is the system fault. -/
theorem c27_error_state_iff_error_recorded_witness :
    Reach F.f32 selfTestFailed ∧ selfTestFailed.getState = STATE_ERROR ∧
      selfTestFailed.getError = ERROR_SYSTEM ∧
      (selfTestFailed.getState = STATE_ERROR ↔ selfTestFailed.getError ≠ ERROR_NONE) :=
  ⟨Reach.begun _ _ _ _ _ _ _ rfl rfl, by decide!, by decide!,
    c27_error_state_iff_error_recorded F.f32 selfTestFailed
      (Reach.begun _ _ _ _ _ _ _ rfl rfl)⟩

/-- Claim C28: in every reachable state that is in Calibration the recorded
previous state is Menu; every tick from there ends in Calibration, Menu or
Error (never Working or Idle), and a tick that reaches the handler with a
DoubleClick or a LongPress ends in Menu. -/
theorem c28_calibration_returns_to_menu (rnd : ℚ → F) (m : StateMachine)
    (h : Reach rnd m) (hs : m.getState = STATE_CALIBRATION) :
    m.previousState = STATE_MENU ∧
      (∀ (k : Tick) (m' : StateMachine), update rnd m k = some m' →
        m'.getState = STATE_CALIBRATION ∨ m'.getState = STATE_MENU ∨
          m'.getState = STATE_ERROR) ∧
      (∀ k : Tick, m.g_watchdogTriggered = false →
        (performSafetyChecks rnd m.tempSensor k).1 = ERROR_NONE →
        (m.event k = EV_DOUBLE_CLICK ∨ m.event k = EV_LONG_PRESS) →
        ∃ m', update rnd m k = some m' ∧ m'.getState = STATE_MENU) := by
  have hp : m.previousState = STATE_MENU := (reach_sound rnd m h).2.2.1 hs
  have hcal : ∀ k : Tick, m.g_watchdogTriggered = false →
      (performSafetyChecks rnd m.tempSensor k).1 = ERROR_NONE →
      update rnd m k = some ((m.afterChecks rnd k).handleCalibrationState rnd k) :=
    fun k hw hsafe => update_of_calibration rnd m k hs hw hsafe
  refine ⟨hp, fun k m' hu => ?_, fun k hw hsafe he => ?_⟩
  · by_cases hw : m.g_watchdogTriggered = true
    · rw [update_of_watchdog rnd m k hw] at hu
      simp only [Option.some.injEq] at hu
      subst hu
      exact Or.inr (Or.inr (setError_fields _ _ _).1)
    · have hw2 : m.g_watchdogTriggered = false := by simpa using hw
      by_cases hsafe : (performSafetyChecks rnd m.tempSensor k).1 = ERROR_NONE
      · rw [hcal k hw2 hsafe] at hu
        simp only [Option.some.injEq] at hu
        subst hu
        rcases handleCalibrationState_state rnd (m.afterChecks rnd k) k with h1 | h1
        · exact Or.inl (h1.trans hs)
        · exact Or.inr (Or.inl (h1.trans hp))
      · rw [update_of_safety_error rnd m k hw2 hsafe] at hu
        simp only [Option.some.injEq] at hu
        subst hu
        exact Or.inr (Or.inr (setError_fields _ _ _).1)
  · refine ⟨_, hcal k hw hsafe, ?_⟩
    rcases he with he | he
    · exact ((handleCalibrationState_double rnd (m.afterChecks rnd k) k he).1).trans hp
    · have hl := handleCalibrationState_long rnd (m.afterChecks rnd k) k he
      show ((m.afterChecks rnd k).handleCalibrationState rnd k).currentState = STATE_MENU
      rw [hl]
      exact ((setState_frame _ _).1).trans hp

/-- The invariant of C28 on a reachable state in Calibration, entered from the
menu. -/
theorem c28_calibration_returns_to_menu_witness :
    Reach F.f32 inCalibration ∧ inCalibration.getState = STATE_CALIBRATION ∧
      (inCalibration.previousState = STATE_MENU ∧
        (∀ (k : Tick) (m' : StateMachine), update F.f32 inCalibration k = some m' →
          m'.getState = STATE_CALIBRATION ∨ m'.getState = STATE_MENU ∨
            m'.getState = STATE_ERROR) ∧
        (∀ k : Tick, inCalibration.g_watchdogTriggered = false →
          (performSafetyChecks F.f32 inCalibration.tempSensor k).1 = ERROR_NONE →
          (inCalibration.event k = EV_DOUBLE_CLICK ∨ inCalibration.event k = EV_LONG_PRESS) →
          ∃ m', update F.f32 inCalibration k = some m' ∧ m'.getState = STATE_MENU)) :=
  ⟨reach_tickOr _ _ (reach_tickOr _ _ (reach_tickOr _ _ reach_started)), by decide!,
    c28_calibration_returns_to_menu F.f32 inCalibration
      (reach_tickOr _ _ (reach_tickOr _ _ (reach_tickOr _ _ reach_started))) (by decide!)⟩

end StateMachine

end Thermo
